import Mathlib

/-!
# ocra: task linearisation and QP assembly

A shallow embedding of `OneLevelSolver.cpp` (cost assembly, SVD based reduction
of the equality constraints) and `OneLevelTask.cpp` (per cycle update of the
linear model of a task), over an arbitrary linearly ordered field `K`
(the rationals for evaluation, the reals for the exact-arithmetic statements).
-/

namespace ocra

open Matrix

/-! ## Dense matrices and vectors of run-time size -/

/-- Dense matrix whose size is a run-time value (Eigen::MatrixXd). -/
structure MatrixXd (K : Type) where
  rows : Nat
  cols : Nat
  coeff : Matrix (Fin rows) (Fin cols) K

/-- Dense vector whose size is a run-time value (Eigen::VectorXd). -/
structure VectorXd (K : Type) where
  size : Nat
  coeff : Fin size → K

/-- Resize to `r × c` and fill with zeros; the former content is dropped
(`M.setZero(r, c)`). -/
def MatrixXd.setZero {K : Type} [Zero K] (_M : MatrixXd K) (r c : Nat) : MatrixXd K :=
  ⟨r, c, 0⟩

/-- Resize to `k` entries and fill with zeros (`v.setZero(k)`). -/
def VectorXd.setZero {K : Type} [Zero K] (_v : VectorXd K) (k : Nat) : VectorXd K :=
  ⟨k, 0⟩

/-! ## Objectives and cost assembly (`OneLevelSolver.cpp`) -/

/-- A registered quadratic objective as `updateObjectiveEquations` reads it:
the quadratic term `getPi()`, the linear term `getqi()`, the scalar
`getWeight()` and `findMapping(obj.getVariable())`, the position of each of
its variables in the `n`-dimensional problem variable. -/
structure QuadraticObjective (K : Type) (n : Nat) where
  dim : Nat
  Pi : Matrix (Fin dim) (Fin dim) K
  qi : Fin dim → K
  weight : K
  objMap : Fin dim → Fin n

namespace utils

variable {K : Type} [LinearOrderedField K]

/-- The update `out(r, c) += v` of one matrix entry. -/
def addCoeff2d {n : Nat} (out : Matrix (Fin n) (Fin n) K) (r c : Fin n) (v : K) :
    Matrix (Fin n) (Fin n) K :=
  Function.update out r (Function.update (out r) c (out r c + v))

/-- The update `out(r) += v` of one vector entry. -/
def addCoeff {n : Nat} (out : Fin n → K) (r : Fin n) (v : K) : Fin n → K :=
  Function.update out r (out r + v)

/-- Modelled from the spec: `ocra::utils::addCompressed2d` is not part of the
sources at hand. Each entry `(i, j)` of the input is scaled and added to the
entry of the output at the mapped position `(mapping i, mapping j)`, one
entry after the other. -/
def addCompressed2d {p n : Nat} (inM : Matrix (Fin p) (Fin p) K)
    (out : Matrix (Fin n) (Fin n) K) (mapping : Fin p → Fin n) (scale : K) :
    Matrix (Fin n) (Fin n) K :=
  (List.finRange p).foldl
    (fun acc i =>
      (List.finRange p).foldl
        (fun acc2 j => addCoeff2d acc2 (mapping i) (mapping j) (scale * inM i j))
        acc)
    out

/-- Modelled from the spec: `ocra::utils::addCompressedByRow` is not part of
the sources at hand. Each entry `i` of the input is scaled and added to the
entry of the output at the mapped position `mapping i`. -/
def addCompressedByRow {p n : Nat} (inV : Fin p → K) (out : Fin n → K)
    (mapping : Fin p → Fin n) (scale : K) : Fin n → K :=
  (List.finRange p).foldl (fun acc i => addCoeff acc (mapping i) (scale * inV i)) out

end utils

/-- The part of the solver state the cost assembly reads and writes: the
problem size `n()`, the registered objectives `_objectives`, and the stored
cost `_C`, `_d`. -/
structure OneLevelSolver (K : Type) where
  n : Nat
  objectives : List (QuadraticObjective K n)
  C : MatrixXd K
  d : VectorXd K

variable {K : Type} [LinearOrderedField K]

/-- The loop of `updateObjectiveEquations` over `_objectives`, started from
the given `_C`, `_d`. -/
def accumulateObjectives {n : Nat} (objs : List (QuadraticObjective K n))
    (C : Matrix (Fin n) (Fin n) K) (d : Fin n → K) :
    Matrix (Fin n) (Fin n) K × (Fin n → K) :=
  objs.foldl
    (fun acc obj =>
      (utils.addCompressed2d obj.Pi acc.1 obj.objMap obj.weight,
       utils.addCompressedByRow obj.qi acc.2 obj.objMap obj.weight))
    (C, d)

/-- Cost assembly of `OneLevelSolverWithQuadProg::updateObjectiveEquations`:
`_C` and `_d` are set to zero at size `n()`, then every objective adds its
weighted terms at the positions of its mapping. -/
def OneLevelSolverWithQuadProg.updateObjectiveEquations (s : OneLevelSolver K) :
    OneLevelSolver K :=
  let C0 := s.C.setZero s.n s.n
  let d0 := s.d.setZero s.n
  let acc := accumulateObjectives s.objectives (0 : Matrix (Fin s.n) (Fin s.n) K) 0
  { s with C := { C0 with coeff := acc.1 }, d := { d0 with coeff := acc.2 } }

/-- Cost assembly of `OneLevelSolverWithQLD::updateObjectiveEquations`; the
views `MapP`, `Mapq` alias the storage of `_C`, `_d` and carry no value of
their own. -/
def OneLevelSolverWithQLD.updateObjectiveEquations (s : OneLevelSolver K) :
    OneLevelSolver K :=
  let C0 := s.C.setZero s.n s.n
  let d0 := s.d.setZero s.n
  let acc := accumulateObjectives s.objectives (0 : Matrix (Fin s.n) (Fin s.n) K) 0
  { s with C := { C0 with coeff := acc.1 }, d := { d0 with coeff := acc.2 } }

/-! ## Linear task models and their squared cost -/

/-- The linear function `A x + b` of a task of dimension `dim`, over a
variable of `size` entries (`LinearFunction`: `changeA`, `changeb`). -/
structure LinearFunction (K : Type) (dim : Nat) where
  size : Nat
  A : Matrix (Fin dim) (Fin size) K
  b : Fin dim → K

/-- A task registered as objective: its linear function, the weight of the
objective and the position of its variable in the problem variable. -/
structure SquaredLinearObjective (K : Type) (n : Nat) where
  dim : Nat
  f : LinearFunction K dim
  weight : K
  varMap : Fin f.size → Fin n

/-- Modelled from the spec: `SquaredLinearFunction` is declared outside the
sources at hand; its quadratic cost contribution is `(Pi, qi) = (AᵀA, Aᵀb)`. -/
def SquaredLinearObjective.toQuadratic {n : Nat} (o : SquaredLinearObjective K n) :
    QuadraticObjective K n :=
  { dim := o.f.size
    Pi := o.f.Aᵀ * o.f.A
    qi := o.f.Aᵀ *ᵥ o.f.b
    weight := o.weight
    objMap := o.varMap }

/-- The matrix `A` of a task written over the whole problem variable: column
`a` collects the columns of `A` whose variable is mapped to `a`. -/
def SquaredLinearObjective.fullA {n : Nat} (o : SquaredLinearObjective K n) :
    Matrix (Fin o.dim) (Fin n) K :=
  fun r a => ∑ j, if o.varMap j = a then o.f.A r j else 0

/-! ## Reduction of the equality constraints (`OneLevelSolver::reduceConstraints`) -/

/-- What `Eigen::JacobiSVD` hands back for an `m × n` matrix when asked for
the thin `U` and `V`: `min m n` singular values, `U` of size `m × min m n` and
`V` of size `n × min m n`. -/
structure JacobiSVD (K : Type) (m n : Nat) where
  singularValues : Fin (min m n) → K
  matrixU : Matrix (Fin m) (Fin (min m n)) K
  matrixV : Matrix (Fin n) (Fin (min m n)) K

/-- The decomposition is an exact thin singular value decomposition of `A`:
`A = U diag(S) Vᵀ`, the columns of `U` and of `V` are orthonormal, the
singular values are non-negative and in non-increasing order. -/
structure JacobiSVD.IsThin {m n : Nat} (svd : JacobiSVD K m n)
    (A : Matrix (Fin m) (Fin n) K) : Prop where
  factor : A = svd.matrixU * Matrix.diagonal svd.singularValues * svd.matrixVᵀ
  orthoU : svd.matrixUᵀ * svd.matrixU = 1
  orthoV : svd.matrixVᵀ * svd.matrixV = 1
  nonneg : ∀ i, 0 ≤ svd.singularValues i
  sorted : ∀ i j, i ≤ j → svd.singularValues j ≤ svd.singularValues i

/-- The loop `for (r = 0; r < S.size(); r++) if (S[r] <= tolerance) break;`
entered at index `r`; `fuel` bounds the number of iterations still allowed. -/
def rankLoop {k : Nat} (S : Fin k → K) (tolerance : K) :
    (fuel : Nat) → (r : Nat) → r ≤ k → { r' : Nat // r' ≤ k }
  | 0, r, h => ⟨r, h⟩
  | fuel + 1, r, h =>
    if hlt : r < k then
      if S ⟨r, hlt⟩ ≤ tolerance then ⟨r, h⟩
      else rankLoop S tolerance fuel (r + 1) hlt
    else ⟨r, h⟩

/-- The first `r` entries of a vector (`S.segment(0, r)`). -/
def segment {k : Nat} (S : Fin k → K) (r : Nat) (h : r ≤ k) : Fin r → K :=
  fun i => S (Fin.castLE h i)

/-- The first `r` columns of a matrix (`M.conservativeResize(Eigen::NoChange, r)`
with `r` not above the number of columns). -/
def leftCols {m k : Nat} (M : Matrix (Fin m) (Fin k) K) (r : Nat) (h : r ≤ k) :
    Matrix (Fin m) (Fin r) K :=
  fun i j => M i (Fin.castLE h j)

/-- The reduced system `(Ar, br)` written by `reduceConstraints`; both have the
same number of rows. -/
structure ReducedSystem (K : Type) (n : Nat) where
  rows : Nat
  Ar : Matrix (Fin rows) (Fin n) K
  br : Fin rows → K

/-- Embedding of `OneLevelSolver::reduceConstraints`. The decomposition routine
of the linear algebra library is the parameter `svd`. With at least one row,
`r` is found by `rankLoop` (at most `S.size()` iterations), `S`, `U`, `V` are
cut to their first `r` entries resp. columns, and `Ar = diag(Sr) Vrᵀ`,
`br = Urᵀ b`; with no row, `A` and `b` are copied. -/
def OneLevelSolver.reduceConstraints {m n : Nat}
    (svd : Matrix (Fin m) (Fin n) K → JacobiSVD K m n)
    (A : Matrix (Fin m) (Fin n) K) (b : Fin m → K) (tolerance : K) : ReducedSystem K n :=
  if 0 < m then
    let svdOfMat := svd A
    let S := svdOfMat.singularValues
    let Ur := svdOfMat.matrixU
    let Vr := svdOfMat.matrixV
    let r := rankLoop S tolerance (min m n) 0 (Nat.zero_le _)
    let Sr := segment S r.1 r.2
    let Ur := leftCols Ur r.1 r.2
    let Vr := leftCols Vr r.1 r.2
    { rows := r.1
      Ar := Matrix.diagonal Sr * Vrᵀ
      br := Urᵀ *ᵥ b }
  else
    { rows := m, Ar := A, br := b }

/-! ## Per cycle update of a task (`OneLevelTask.cpp`) -/

/-- The kinds of task (`TYPETASK`, read through `getTaskType()`). -/
inductive TYPETASK
  | UNKNOWNTASK
  | ACCELERATIONTASK
  | TORQUETASK
  | FORCETASK
  | COMMOMENTUMTASK
  deriving DecidableEq, Repr

/-- Store a new matrix in the function (`LinearFunction::changeA`); the number
of columns follows the matrix. -/
def LinearFunction.changeA {dim c : Nat} (f : LinearFunction K dim)
    (A : Matrix (Fin dim) (Fin c) K) : LinearFunction K dim :=
  { size := c, A := A, b := f.b }

/-- Store a new vector in the function (`LinearFunction::changeb`). -/
def LinearFunction.changeb {dim : Nat} (f : LinearFunction K dim) (b : Fin dim → K) :
    LinearFunction K dim :=
  { f with b := b }

/-- What `doUpdate` reads in one cycle, for a task of dimension `dim`: from the
task and its feature `getJacobian()`, `getStiffness()`, `getDamping()`,
`getError()`, `getErrorDot()`, `getErrorDdot()`, `getEffort()`; from the model
`getCoMAngularJacobian()`, `getCoMAngularVelocity()`; from the dynamic equation
`getInertiaMatrixInverseJchiT()` and `getInertiaMatrixInverseLinNonLinGrav()`.
`nDofs` is the number of columns of the Jacobians, `nChi` the size of the
action variable. -/
structure TaskSignals (K : Type) (dim : Nat) where
  nDofs : Nat
  nChi : Nat
  jacobian : Matrix (Fin dim) (Fin nDofs) K
  stiffness : Matrix (Fin dim) (Fin dim) K
  damping : Matrix (Fin dim) (Fin dim) K
  error : Fin dim → K
  errorDot : Fin dim → K
  errorDdot : Fin dim → K
  effort : Fin dim → K
  comAngularJacobian : Matrix (Fin dim) (Fin nDofs) K
  comAngularVelocity : Fin dim → K
  inertiaMatrixInverseJchiT : Matrix (Fin nDofs) (Fin nChi) K
  inertiaMatrixInverseLinNonLinGrav : Fin nDofs → K

/-- What the task reads from its `Model` when it is connected: `nbDofs()` and
`nbInternalDofs()`. -/
structure Model where
  nbDofs : Nat
  nbInternalDofs : Nat
  deriving DecidableEq, Repr

/-- The dynamic equation handed to `connectToController`: which object it is,
and the size of `getActionVariable()`. -/
structure FullDynamicEquationFunction where
  id : Nat
  actionVariableSize : Nat
  deriving DecidableEq, Repr

/-- Modelled from the spec: the friction cone function
(`LinearizedCoulombFunction`), whose code is not among the sources at hand. It
has three parameters, the coefficient, the number of facets and the margin, and
derives one linear inequality row per facet over the force variable. -/
structure LinearizedCoulombFunction (K : Type) where
  frictionCoeff : K
  numberOfFaces : Nat
  margin : K

/-- Modelled from the spec: the number of rows of a friction cone
(`getDimension()`) is its number of facets. -/
def LinearizedCoulombFunction.getDimension {K : Type} (f : LinearizedCoulombFunction K) : Nat :=
  f.numberOfFaces

/-- Modelled from the spec: `setFrictionCoeff` changes the coefficient of the
cone in place; the number of facets and the margin stay. -/
def LinearizedCoulombFunction.setFrictionCoeff {K : Type} (f : LinearizedCoulombFunction K)
    (frictionCoeff : K) : LinearizedCoulombFunction K :=
  { f with frictionCoeff := frictionCoeff }

/-- Modelled from the spec: `setMargin` changes the margin of the cone in
place; the coefficient and the number of facets stay. -/
def LinearizedCoulombFunction.setMargin {K : Type} (f : LinearizedCoulombFunction K)
    (margin : K) : LinearizedCoulombFunction K :=
  { f with margin := margin }

/-- A task (`OneLevelTask` with its `Pimpl`) of feature dimension `dim`: its
name and type, the `Pimpl` members `innerModel`, `solver` and
`dynamicEquation` (`none` for a null pointer; a solver is known by a number),
`useReducedProblem`, the five registration flags, and
`innerObjectiveFunction`, which is `NULL` (`none`) until the task is connected.
`innerTaskAsObjective` and `innerTaskAsConstraint` are built together with
`innerObjectiveFunction`; `serial` counts how often that happened, so that the
objects of one connection are told apart from those of an earlier one.
`frictionFunction` is the function held by `frictionConstraint`
(`frictionConstraint.getFunction()`), `none` when that member is `NULL`. -/
structure OneLevelTask (K : Type) (dim : Nat) where
  name : String
  taskType : TYPETASK
  innerModel : Model
  solver : Option Nat
  dynamicEquation : Option FullDynamicEquationFunction
  useReducedProblem : Bool
  contactForceConstraintHasBeenSavedInSolver : Bool
  contactPointHasBeenSavedInModel : Bool
  frictionConstraintIsRegisteredInConstraint : Bool
  isRegisteredAsObjective : Bool
  isRegisteredAsConstraint : Bool
  serial : Nat
  innerObjectiveFunction : Option (LinearFunction K dim)
  frictionFunction : Option (LinearizedCoulombFunction K)

/-- Write `A` and `b` through `pimpl->innerObjectiveFunction` (`changeA` then
`changeb`). Without a function (task never connected) the calls go through a
null pointer and do not complete; this is rendered as an error. -/
def OneLevelTask.changeAb {dim c : Nat} (t : OneLevelTask K dim)
    (A : Matrix (Fin dim) (Fin c) K) (b : Fin dim → K) : Except String (OneLevelTask K dim) :=
  match t.innerObjectiveFunction with
  | none => Except.error "innerObjectiveFunction is NULL"
  | some f => Except.ok { t with innerObjectiveFunction := some ((f.changeA A).changeb b) }

/-- Embedding of `OneLevelTask::doUpdateAccelerationTask`. -/
def OneLevelTask.doUpdateAccelerationTask {dim : Nat} (t : OneLevelTask K dim)
    (sig : TaskSignals K dim) : Except String (OneLevelTask K dim) :=
  let J := sig.jacobian
  let Kp := sig.stiffness
  let Kd := sig.damping
  let accDes := -(sig.errorDdot + Kp *ᵥ sig.error + Kd *ᵥ sig.errorDot)
  if t.useReducedProblem then
    let E2 := -J * sig.inertiaMatrixInverseJchiT
    let f2 := accDes + J *ᵥ sig.inertiaMatrixInverseLinNonLinGrav
    t.changeAb E2 f2
  else
    t.changeAb J accDes

/-- Embedding of `OneLevelTask::doUpdateTorqueTask`. -/
def OneLevelTask.doUpdateTorqueTask {dim : Nat} (t : OneLevelTask K dim)
    (sig : TaskSignals K dim) : Except String (OneLevelTask K dim) :=
  let J := sig.jacobian
  let eff := -sig.effort
  t.changeAb J eff

/-- Embedding of `OneLevelTask::doUpdateForceTask`: only `b` is written. -/
def OneLevelTask.doUpdateForceTask {dim : Nat} (t : OneLevelTask K dim)
    (sig : TaskSignals K dim) : Except String (OneLevelTask K dim) :=
  let eff := -sig.effort
  match t.innerObjectiveFunction with
  | none => Except.error "innerObjectiveFunction is NULL"
  | some f => Except.ok { t with innerObjectiveFunction := some (f.changeb eff) }

/-- Embedding of `OneLevelTask::doUpdateCoMMomentumTask`. -/
def OneLevelTask.doUpdateCoMMomentumTask {dim : Nat} (t : OneLevelTask K dim)
    (sig : TaskSignals K dim) : Except String (OneLevelTask K dim) :=
  let J := sig.comAngularJacobian
  let Kd := sig.damping
  let accDes := -Kd *ᵥ sig.comAngularVelocity
  if t.useReducedProblem then
    let E2 := -J * sig.inertiaMatrixInverseJchiT
    let f2 := accDes + J *ᵥ sig.inertiaMatrixInverseLinNonLinGrav
    t.changeAb E2 f2
  else
    t.changeAb J accDes

/-- Embedding of `OneLevelTask::doUpdate`: dispatch on the task type; an unset
type throws. -/
def OneLevelTask.doUpdate {dim : Nat} (t : OneLevelTask K dim) (sig : TaskSignals K dim) :
    Except String (OneLevelTask K dim) :=
  match t.taskType with
  | TYPETASK.ACCELERATIONTASK => t.doUpdateAccelerationTask sig
  | TYPETASK.TORQUETASK => t.doUpdateTorqueTask sig
  | TYPETASK.FORCETASK => t.doUpdateForceTask sig
  | TYPETASK.COMMOMENTUMTASK => t.doUpdateCoMMomentumTask sig
  | TYPETASK.UNKNOWNTASK =>
    Except.error "[OneLevelTask::update]: The task type has not been set during creation."

/-! ## Registration of a task in the solver (`OneLevelTask.cpp`, `OneLevelSolver.cpp`) -/

/-- The objective object `innerTaskAsObjective` of a task, as the solver knows
it (by address): the task that owns it and the connection that built it. -/
structure ObjectiveRef where
  owner : String
  serial : Nat
  deriving DecidableEq, Repr

/-- The three constraint members of a task. -/
inductive ConstraintMember
  | innerTaskAsConstraint
  | frictionConstraint
  | ContactForceConstraint
  deriving DecidableEq, Repr

/-- A constraint object of a task, as the solver knows it (by address): the
task that owns it, which member it is and, for `innerTaskAsConstraint`, the
connection that built it. -/
structure LinearConstraint where
  owner : String
  member : ConstraintMember
  serial : Nat
  deriving DecidableEq, Repr

/-- The declared kind of a constraint (`isEquality()`): the friction cone is a
`LessThanZeroConstraintPtr`, the other two are `EqualZeroConstraintPtr`. -/
def LinearConstraint.isEquality (c : LinearConstraint) : Bool :=
  match c.member with
  | ConstraintMember.frictionConstraint => false
  | ConstraintMember.innerTaskAsConstraint => true
  | ConstraintMember.ContactForceConstraint => true

/-- The three lists of a solver: `_objectives`, `_equalityConstraints`,
`_inequalityConstraints`. -/
structure SolverLists where
  objectives : List ObjectiveRef
  equalityConstraints : List LinearConstraint
  inequalityConstraints : List LinearConstraint
  deriving DecidableEq, Repr

/-- No entry of the three lists belongs to the task of the given name. -/
def SolverLists.holdsNoEntryOf (s : SolverLists) (name : String) : Prop :=
  (∀ o ∈ s.objectives, o.owner ≠ name)
    ∧ (∀ c ∈ s.equalityConstraints, c.owner ≠ name)
    ∧ (∀ c ∈ s.inequalityConstraints, c.owner ≠ name)

/-- Embedding of `OneLevelSolver::addObjective`: `push_back`. -/
def OneLevelSolver.addObjective (s : SolverLists) (obj : ObjectiveRef) : SolverLists :=
  { s with objectives := s.objectives ++ [obj] }

/-- Modelled from the spec: `internalRemoveObjective` of the base class
`Solver`, whose code is not among the sources at hand. By the specification the
removal of an objective that is not registered is an error; for a registered
objective the call returns. -/
def OneLevelSolver.internalRemoveObjective (s : SolverLists) (obj : ObjectiveRef) :
    Except String Unit :=
  if obj ∈ s.objectives then
    Except.ok ()
  else
    Except.error "removeObjective: objective not registered"

/-- Embedding of `OneLevelSolver::removeObjective`: `internalRemoveObjective`,
then the first occurrence found by `std::find` is erased from `_objectives`. -/
def OneLevelSolver.removeObjective (s : SolverLists) (obj : ObjectiveRef) :
    Except String SolverLists := do
  OneLevelSolver.internalRemoveObjective s obj
  pure { s with objectives := s.objectives.erase obj }

/-- Embedding of `OneLevelSolver::addConstraint`: `push_back` on the list chosen
by `isEquality()`. -/
def OneLevelSolver.addConstraint (s : SolverLists) (constraint : LinearConstraint) :
    SolverLists :=
  if constraint.isEquality then
    { s with equalityConstraints := s.equalityConstraints ++ [constraint] }
  else
    { s with inequalityConstraints := s.inequalityConstraints ++ [constraint] }

/-- Embedding of `OneLevelSolver::removeConstraint`: the first occurrence is
erased from the list chosen by `isEquality()`. For a constraint that is not in
that list, `std::find` returns `end()` and erasing there has no defined result;
the call is rendered as an error. -/
def OneLevelSolver.removeConstraint (s : SolverLists) (constraint : LinearConstraint) :
    Except String SolverLists :=
  if constraint.isEquality then
    if constraint ∈ s.equalityConstraints then
      Except.ok { s with equalityConstraints := s.equalityConstraints.erase constraint }
    else
      Except.error "removeConstraint: constraint not registered"
  else
    if constraint ∈ s.inequalityConstraints then
      Except.ok { s with inequalityConstraints := s.inequalityConstraints.erase constraint }
    else
      Except.error "removeConstraint: constraint not registered"

/-- The state of a freshly constructed task (constructor of `Pimpl`): no solver,
no dynamic equation, full formalism, every flag `false`, no function; when the
force variable has size `3` the friction cone is built with
`LinearizedCoulombFunction(fcVar, 1., 6, 0.)`, otherwise there is none. -/
def OneLevelTask.create {dim : Nat} (name : String) (innerModel : Model)
    (taskType : TYPETASK) : OneLevelTask K dim :=
  { name := name
    taskType := taskType
    innerModel := innerModel
    solver := none
    dynamicEquation := none
    useReducedProblem := false
    contactForceConstraintHasBeenSavedInSolver := false
    contactPointHasBeenSavedInModel := false
    frictionConstraintIsRegisteredInConstraint := false
    isRegisteredAsObjective := false
    isRegisteredAsConstraint := false
    serial := 0
    innerObjectiveFunction := none
    frictionFunction :=
      if dim = 3 then some { frictionCoeff := 1, numberOfFaces := 6, margin := 0 } else none }

/-- The member `innerTaskAsObjective`: `NULL` until a function has been built. -/
def OneLevelTask.innerTaskAsObjective {dim : Nat} (t : OneLevelTask K dim) :
    Option ObjectiveRef :=
  match t.innerObjectiveFunction with
  | none => none
  | some _ => some { owner := t.name, serial := t.serial }

/-- The member `innerTaskAsConstraint`: empty until a function has been built. -/
def OneLevelTask.innerTaskAsConstraint {dim : Nat} (t : OneLevelTask K dim) :
    Option LinearConstraint :=
  match t.innerObjectiveFunction with
  | none => none
  | some _ =>
    some { owner := t.name, member := ConstraintMember.innerTaskAsConstraint,
           serial := t.serial }

/-- The member `frictionConstraint`: built by the constructor when the force
variable has size `3`, `NULL` otherwise. -/
def OneLevelTask.frictionConstraint {dim : Nat} (t : OneLevelTask K dim) :
    Option LinearConstraint :=
  if dim = 3 then
    some { owner := t.name, member := ConstraintMember.frictionConstraint, serial := 0 }
  else none

/-- The member `ContactForceConstraint`: built by the constructor when the force
variable has size `3`, `NULL` otherwise. -/
def OneLevelTask.ContactForceConstraint {dim : Nat} (t : OneLevelTask K dim) :
    Option LinearConstraint :=
  if dim = 3 then
    some { owner := t.name, member := ConstraintMember.ContactForceConstraint, serial := 0 }
  else none

/-- Embedding of `Pimpl::connectFunctionnWithObjectiveAndConstraint`, together
with the assignment of `innerObjectiveFunction` that precedes it: a new
function, a new objective and a new constraint object. -/
def OneLevelTask.connectFunctionnWithObjectiveAndConstraint {dim : Nat}
    (t : OneLevelTask K dim) (f : LinearFunction K dim) : OneLevelTask K dim :=
  { t with innerObjectiveFunction := some f, serial := t.serial + 1 }

/-- Embedding of `Pimpl::setAsAccelerationTask`. In the reduced problem the
function is a `VariableChiFunction` over the action variable, whose matrix and
vector are written by the first update and are rendered as zero here; otherwise
it is the zero function over the acceleration variable (`nbDofs()` columns). -/
def OneLevelTask.setAsAccelerationTask {dim : Nat} (t : OneLevelTask K dim) :
    OneLevelTask K dim :=
  if t.useReducedProblem then
    match t.dynamicEquation with
    | none => t
    | some dynamicEquation =>
      t.connectFunctionnWithObjectiveAndConstraint
        { size := dynamicEquation.actionVariableSize, A := 0, b := 0 }
  else
    t.connectFunctionnWithObjectiveAndConstraint
      { size := t.innerModel.nbDofs, A := 0, b := 0 }

/-- Embedding of `Pimpl::setAsTorqueTask`: the zero function over the joint
torque variable (`nbInternalDofs()` columns). -/
def OneLevelTask.setAsTorqueTask {dim : Nat} (t : OneLevelTask K dim) : OneLevelTask K dim :=
  t.connectFunctionnWithObjectiveAndConstraint
    { size := t.innerModel.nbInternalDofs, A := 0, b := 0 }

/-- Embedding of `Pimpl::setAsForceTask`: the identity over the force variable,
with zero vector. -/
def OneLevelTask.setAsForceTask {dim : Nat} (t : OneLevelTask K dim) : OneLevelTask K dim :=
  t.connectFunctionnWithObjectiveAndConstraint { size := dim, A := 1, b := 0 }

/-- An exception leaving a call: its message, and the state reached when it
was thrown. -/
structure Fault (σ : Type) where
  message : String
  state : σ

/-- A task together with the lists of the solver it points to and the contact
points held by its model (`getModelContacts()`, one entry per force variable,
named after the task). -/
structure Setup (K : Type) (dim : Nat) where
  task : OneLevelTask K dim
  solver : SolverLists
  modelContacts : List String

/-- Embedding of `OneLevelTask::connectToController`: the three members are
assigned first, then the function is built according to the task type; an
unset type throws (after the three assignments). -/
def Setup.connectToController {dim : Nat} (w : Setup K dim) (solver : Nat)
    (dynamicEquation : FullDynamicEquationFunction) (useReducedProblem : Bool) :
    Except (Fault (Setup K dim)) (Setup K dim) :=
  let t := { w.task with solver := some solver, dynamicEquation := some dynamicEquation,
                         useReducedProblem := useReducedProblem }
  match t.taskType with
  | TYPETASK.ACCELERATIONTASK => Except.ok { w with task := t.setAsAccelerationTask }
  | TYPETASK.TORQUETASK => Except.ok { w with task := t.setAsTorqueTask }
  | TYPETASK.FORCETASK => Except.ok { w with task := t.setAsForceTask }
  | TYPETASK.COMMOMENTUMTASK => Except.ok { w with task := t.setAsAccelerationTask }
  | TYPETASK.UNKNOWNTASK =>
    Except.error
      { message := "[OneLevelTask::connectToController]: The task type has not been set during creation."
        state := { w with task := t } }

/-- Embedding of `OneLevelTask::checkIfConnectedToController`: throws when
`pimpl->solver` is null. -/
def Setup.checkIfConnectedToController {dim : Nat} (w : Setup K dim) :
    Except (Fault (Setup K dim)) Unit :=
  match w.task.solver with
  | none =>
    Except.error
      { message := "[OneLevelTask::doActivateAsObjective]: task not connected to any solver"
        state := w }
  | some _ => Except.ok ()

/-- The dereference `pimpl->solver->`: going through a null solver pointer does
not complete and is rendered as an error. -/
def Setup.derefSolver {dim : Nat} (w : Setup K dim) : Except (Fault (Setup K dim)) Unit :=
  match w.task.solver with
  | none => Except.error { message := "solver is NULL", state := w }
  | some _ => Except.ok ()

/-- The call `pimpl->solver->addObjective(*pimpl->innerTaskAsObjective)`; going
through a null `innerTaskAsObjective` does not complete and is rendered as an
error. -/
def Setup.solverAddObjective {dim : Nat} (w : Setup K dim) :
    Except (Fault (Setup K dim)) (Setup K dim) := do
  w.derefSolver
  match w.task.innerTaskAsObjective with
  | none => Except.error { message := "innerTaskAsObjective is NULL", state := w }
  | some obj => Except.ok { w with solver := OneLevelSolver.addObjective w.solver obj }

/-- The call `pimpl->solver->removeObjective(*pimpl->innerTaskAsObjective)`. -/
def Setup.solverRemoveObjective {dim : Nat} (w : Setup K dim) :
    Except (Fault (Setup K dim)) (Setup K dim) := do
  w.derefSolver
  match w.task.innerTaskAsObjective with
  | none => Except.error { message := "innerTaskAsObjective is NULL", state := w }
  | some obj =>
    match OneLevelSolver.removeObjective w.solver obj with
    | Except.error e => Except.error { message := e, state := w }
    | Except.ok s => Except.ok { w with solver := s }

/-- The call `pimpl->solver->addConstraint(c)` for a constraint member `c` of
the task; a missing constraint object cannot be handed over and is rendered as
an error. -/
def Setup.solverAddConstraint {dim : Nat} (w : Setup K dim) (c : Option LinearConstraint) :
    Except (Fault (Setup K dim)) (Setup K dim) := do
  w.derefSolver
  match c with
  | none => Except.error { message := "constraint is NULL", state := w }
  | some c => Except.ok { w with solver := OneLevelSolver.addConstraint w.solver c }

/-- The call `pimpl->solver->removeConstraint(c)` for a constraint member `c`
of the task. -/
def Setup.solverRemoveConstraint {dim : Nat} (w : Setup K dim) (c : Option LinearConstraint) :
    Except (Fault (Setup K dim)) (Setup K dim) := do
  w.derefSolver
  match c with
  | none => Except.error { message := "constraint is NULL", state := w }
  | some c =>
    match OneLevelSolver.removeConstraint w.solver c with
    | Except.error e => Except.error { message := e, state := w }
    | Except.ok s => Except.ok { w with solver := s }

/-- Embedding of `OneLevelTask::addContactPointInModel`: the contact point is
added to the model once, and a zero-force constraint saved in the solver is
removed from it. -/
def Setup.addContactPointInModel {dim : Nat} (w : Setup K dim) :
    Except (Fault (Setup K dim)) (Setup K dim) := do
  let w1 : Setup K dim :=
    if w.task.contactPointHasBeenSavedInModel then w
    else
      { w with modelContacts := w.modelContacts ++ [w.task.name]
               task := { w.task with contactPointHasBeenSavedInModel := true } }
  if w1.task.contactForceConstraintHasBeenSavedInSolver then
    let w2 ← w1.solverRemoveConstraint w1.task.ContactForceConstraint
    pure { w2 with task := { w2.task with contactForceConstraintHasBeenSavedInSolver := false } }
  else
    pure w1

/-- Embedding of `OneLevelTask::removeContactPointInModel`: the contact point
stays in the model (its removal is commented out); a zero-force constraint not
yet saved in the solver is added to it. -/
def Setup.removeContactPointInModel {dim : Nat} (w : Setup K dim) :
    Except (Fault (Setup K dim)) (Setup K dim) := do
  if w.task.contactForceConstraintHasBeenSavedInSolver then
    pure w
  else
    let w1 ← w.solverAddConstraint w.task.ContactForceConstraint
    pure { w1 with task := { w1.task with contactForceConstraintHasBeenSavedInSolver := true } }

/-- Embedding of `OneLevelTask::doActivateContactMode`. -/
def Setup.doActivateContactMode {dim : Nat} (w : Setup K dim) :
    Except (Fault (Setup K dim)) (Setup K dim) := do
  w.checkIfConnectedToController
  let w1 ← w.addContactPointInModel
  let w2 ← w1.solverAddConstraint w1.task.frictionConstraint
  pure { w2 with task := { w2.task with frictionConstraintIsRegisteredInConstraint := true } }

/-- Embedding of `OneLevelTask::doDeactivateContactMode`. -/
def Setup.doDeactivateContactMode {dim : Nat} (w : Setup K dim) :
    Except (Fault (Setup K dim)) (Setup K dim) := do
  w.checkIfConnectedToController
  let w1 ← w.removeContactPointInModel
  let w2 ← w1.solverRemoveConstraint w1.task.frictionConstraint
  pure { w2 with task := { w2.task with frictionConstraintIsRegisteredInConstraint := false } }

/-- Embedding of `OneLevelTask::doActivateAsObjective`. -/
def Setup.doActivateAsObjective {dim : Nat} (w : Setup K dim) :
    Except (Fault (Setup K dim)) (Setup K dim) := do
  w.checkIfConnectedToController
  let w1 ←
    if w.task.isRegisteredAsObjective then pure w
    else do
      let w1 ← w.solverAddObjective
      pure { w1 with task := { w1.task with isRegisteredAsObjective := true } }
  if w1.task.taskType = TYPETASK.FORCETASK then w1.addContactPointInModel else pure w1

/-- Embedding of `OneLevelTask::doDeactivateAsObjective`. -/
def Setup.doDeactivateAsObjective {dim : Nat} (w : Setup K dim) :
    Except (Fault (Setup K dim)) (Setup K dim) := do
  w.checkIfConnectedToController
  let w1 ←
    if w.task.isRegisteredAsObjective then do
      let w1 ← w.solverRemoveObjective
      pure { w1 with task := { w1.task with isRegisteredAsObjective := false } }
    else pure w
  if w1.task.taskType = TYPETASK.FORCETASK then w1.removeContactPointInModel else pure w1

/-- Embedding of `OneLevelTask::doActivateAsConstraint`. -/
def Setup.doActivateAsConstraint {dim : Nat} (w : Setup K dim) :
    Except (Fault (Setup K dim)) (Setup K dim) := do
  w.checkIfConnectedToController
  let w1 ←
    if w.task.isRegisteredAsConstraint then pure w
    else do
      let w1 ← w.solverAddConstraint w.task.innerTaskAsConstraint
      pure { w1 with task := { w1.task with isRegisteredAsConstraint := true } }
  if w1.task.taskType = TYPETASK.FORCETASK then w1.addContactPointInModel else pure w1

/-- Embedding of `OneLevelTask::doDeactivateAsConstraint`. -/
def Setup.doDeactivateAsConstraint {dim : Nat} (w : Setup K dim) :
    Except (Fault (Setup K dim)) (Setup K dim) := do
  w.checkIfConnectedToController
  let w1 ←
    if w.task.isRegisteredAsConstraint then do
      let w1 ← w.solverRemoveConstraint w.task.innerTaskAsConstraint
      pure { w1 with task := { w1.task with isRegisteredAsConstraint := false } }
    else pure w
  if w1.task.taskType = TYPETASK.FORCETASK then w1.removeContactPointInModel else pure w1

/-- Embedding of `OneLevelTask::disconnectFromController`: whatever a flag says
is registered is removed from the solver; no flag is written and the solver
pointer is kept. -/
def Setup.disconnectFromController {dim : Nat} (w : Setup K dim) :
    Except (Fault (Setup K dim)) (Setup K dim) := do
  let w1 ←
    if w.task.isRegisteredAsObjective then
      match w.task.innerTaskAsObjective with
      | none => pure w
      | some _ => w.solverRemoveObjective
    else pure w
  let w2 ←
    if w1.task.isRegisteredAsConstraint then
      w1.solverRemoveConstraint w1.task.innerTaskAsConstraint
    else pure w1
  let w3 ←
    if w2.task.frictionConstraintIsRegisteredInConstraint then
      w2.solverRemoveConstraint w2.task.frictionConstraint
    else pure w2
  if w3.task.contactForceConstraintHasBeenSavedInSolver then
    w3.solverRemoveConstraint w3.task.ContactForceConstraint
  else pure w3

/-- Embedding of `OneLevelTask::doSetFrictionCoeff`; the argument is the value
`getFrictionCoeff()` returns. Neither the solver nor a flag is touched. Without
a friction constraint the call goes through a null pointer and does not
complete; this is rendered as an error. -/
def Setup.doSetFrictionCoeff {dim : Nat} (w : Setup K dim) (frictionCoeff : K) :
    Except (Fault (Setup K dim)) (Setup K dim) :=
  match w.task.frictionFunction with
  | none => Except.error { message := "frictionConstraint is NULL", state := w }
  | some f =>
    Except.ok
      { w with task := { w.task with frictionFunction := some (f.setFrictionCoeff frictionCoeff) } }

/-- Embedding of `OneLevelTask::doSetMargin`; the argument is the value
`getMargin()` returns. -/
def Setup.doSetMargin {dim : Nat} (w : Setup K dim) (margin : K) :
    Except (Fault (Setup K dim)) (Setup K dim) :=
  match w.task.frictionFunction with
  | none => Except.error { message := "frictionConstraint is NULL", state := w }
  | some f =>
    Except.ok { w with task := { w.task with frictionFunction := some (f.setMargin margin) } }

/-! ## Constraint matrices (`OneLevelSolverWithQuadProg::updateConstraintEquations`) -/

/-- The two conversion cases the solver hands to `utils::convert`. -/
inductive ConvertCase
  | CSTR_PLUS_EQUAL
  | CSTR_PLUS_GREATER
  deriving DecidableEq, Repr

/-- What `updateConstraintEquations` uses of the constraint objects behind the
entries of the solver lists, taken as parameters: `getDimension()`, and
`utils::convert` together with `findMapping(cstr->getVariable())`, which
receives a block of `getDimension()` rows and `n()` columns and a segment of as
many entries and writes into them. -/
structure ConstraintAccess (K : Type) (n : Nat) where
  getDimension : LinearConstraint → Nat
  convert : (cstr : LinearConstraint) → ConvertCase →
    Matrix (Fin (getDimension cstr)) (Fin n) K → (Fin (getDimension cstr) → K) →
    Matrix (Fin (getDimension cstr)) (Fin n) K × (Fin (getDimension cstr) → K)

/-- The first loop over a constraint list: the sum of the dimensions
(`ne += ...->getDimension()`). -/
def ConstraintAccess.countRows {n : Nat} (acc : ConstraintAccess K n)
    (cstrs : List LinearConstraint) : Nat :=
  cstrs.foldl (fun ne cstr => ne + acc.getDimension cstr) 0

/-- The second loop over a constraint list, started at row `idx` on the storage
`M`, `v` (rows indexed by natural numbers): a constraint of positive dimension
gets the block of its `dim` rows from `idx` on, and the segment of `v` at the
same place, written by `utils::convert`; then `idx += dim`. -/
def ConstraintAccess.fillRows {n : Nat} (acc : ConstraintAccess K n) (case : ConvertCase) :
    List LinearConstraint → Nat → (Nat → Fin n → K) → (Nat → K) →
      (Nat → Fin n → K) × (Nat → K)
  | [], _, M, v => (M, v)
  | cstr :: rest, idx, M, v =>
    if 0 < acc.getDimension cstr then
      let out := acc.convert cstr case (fun i j => M (idx + i.1) j) (fun i => v (idx + i.1))
      acc.fillRows case rest (idx + acc.getDimension cstr)
        (fun r j =>
          if h : idx ≤ r ∧ r < idx + acc.getDimension cstr then out.1 ⟨r - idx, by omega⟩ j
          else M r j)
        (fun r =>
          if h : idx ≤ r ∧ r < idx + acc.getDimension cstr then out.2 ⟨r - idx, by omega⟩
          else v r)
    else
      acc.fillRows case rest idx M v

/-- The matrices written by `updateConstraintEquations`: `_A`, `_b`, the reduced
`_Atotal`, `_btotal`, and `_G`, `_h`. -/
structure ConstraintEquations (K : Type) (n : Nat) where
  A : MatrixXd K
  b : VectorXd K
  total : ReducedSystem K n
  G : MatrixXd K
  h : VectorXd K

/-- Embedding of `OneLevelSolverWithQuadProg::updateConstraintEquations` for a
problem of `n` variables. `_A`, `_b` are set to zero at `ne` rows and filled by
the equality constraints, then reduced by `reduceConstraints` (whose tolerance
is the default of the declaration, a parameter here); `_G`, `_h` are set to zero
at `ni` rows and filled by the inequality constraints. -/
def OneLevelSolverWithQuadProg.updateConstraintEquations {n : Nat}
    (acc : ConstraintAccess K n)
    (svd : (m : Nat) → Matrix (Fin m) (Fin n) K → JacobiSVD K m n) (tolerance : K)
    (s : SolverLists) : ConstraintEquations K n :=
  let ne := acc.countRows s.equalityConstraints
  let Ab := acc.fillRows ConvertCase.CSTR_PLUS_EQUAL s.equalityConstraints 0
    (fun _ _ => 0) (fun _ => 0)
  let A : Matrix (Fin ne) (Fin n) K := fun r j => Ab.1 r.1 j
  let b : Fin ne → K := fun r => Ab.2 r.1
  let ni := acc.countRows s.inequalityConstraints
  let Gh := acc.fillRows ConvertCase.CSTR_PLUS_GREATER s.inequalityConstraints 0
    (fun _ _ => 0) (fun _ => 0)
  { A := ⟨ne, n, A⟩
    b := ⟨ne, b⟩
    total := OneLevelSolver.reduceConstraints (svd ne) A b tolerance
    G := ⟨ni, n, fun r j => Gh.1 r.1 j⟩
    h := ⟨ni, fun r => Gh.2 r.1⟩ }

/-! ## Solving, and the storage of the QLD variant (`OneLevelSolver.cpp`) -/

/-- The vector `-v` for a vector of run-time size. -/
def VectorXd.neg (v : VectorXd K) : VectorXd K :=
  ⟨v.size, fun i => -v.coeff i⟩

/-- The result record `_result`: the solution and the status `info`. The status
type and its constant `ocra::RETURN_SUCCESS` are not declared in the sources at
hand; the type is the parameter `Info`. -/
structure OptimizationResult (K : Type) (Info : Type) where
  solution : VectorXd K
  info : Info

/-- The members of a solver that `doSolve` reads and writes: the cost `_C`,
`_d`, the constraint matrices, `Xsolution` and `_result`. -/
structure SolverData (K : Type) (n : Nat) (Info : Type) where
  C : MatrixXd K
  d : VectorXd K
  equations : ConstraintEquations K n
  Xsolution : VectorXd K
  result : OptimizationResult K Info

/-- The members of the QLD variant written by its `updateConstraintEquations`:
`AandG`, `bandh`, `_xl`, `_xu`. The views `MapAandG`, `Mapbandh`, `MapXl`,
`MapXu`, `MapXsol` alias the storage of these and of `Xsolution` and carry no
value of their own. -/
structure QLDStorage (K : Type) where
  AandG : MatrixXd K
  bandh : VectorXd K
  xl : VectorXd K
  xu : VectorXd K

/-- Embedding of `OneLevelSolverWithQuadProg::doSolve`. The numeric routine
`QuadProgPP::solve_quadprog` is a parameter: it receives `_C`, `-_d`, `_Atotal`
with `_btotal` (the reduced system), `_G`, `_h` and `Xsolution`, and hands back
its return value and the vector it wrote into `Xsolution`. -/
def OneLevelSolverWithQuadProg.doSolve {n : Nat} {Info : Type} (RETURN_SUCCESS : Info)
    (solve_quadprog : MatrixXd K → VectorXd K → ReducedSystem K n → MatrixXd K → VectorXd K →
      VectorXd K → K × VectorXd K)
    (s : SolverData K n Info) : SolverData K n Info :=
  let out := solve_quadprog s.C s.d.neg s.equations.total s.equations.G s.equations.h
    s.Xsolution
  { s with Xsolution := out.2
           result := { solution := out.2, info := RETURN_SUCCESS } }

/-- Embedding of `OneLevelSolverWithQLD::doSolve`: `_d = -_d`, then the numeric
routine `_QLDsolver->solve`, a parameter, which receives `MapP` (`_C`), `Mapq`
(`_d`, already negated), `MapAandG`, `Mapbandh`, `_Atotal.rows()`, `MapXsol`
(`Xsolution`), `MapXl`, `MapXu` and `false`, and hands back its return code and
the vector it wrote through `MapXsol`. -/
def OneLevelSolverWithQLD.doSolve {n : Nat} {Info : Type} (RETURN_SUCCESS : Info)
    (solve : MatrixXd K → VectorXd K → MatrixXd K → VectorXd K → Nat → VectorXd K →
      VectorXd K → VectorXd K → Bool → Int × VectorXd K)
    (s : SolverData K n Info) (q : QLDStorage K) : SolverData K n Info :=
  let d := s.d.neg
  let out := solve s.C d q.AandG q.bandh s.equations.total.rows s.Xsolution q.xl q.xu false
  { s with d := d
           Xsolution := out.2
           result := { solution := out.2, info := RETURN_SUCCESS } }

/-- The assignment `M.topRows(k) = B` for a block `B` of `k` rows and `n`
columns: the entries of the first `k` rows are replaced. -/
def MatrixXd.setTopRows {k n : Nat} (M : MatrixXd K) (B : Matrix (Fin k) (Fin n) K) :
    MatrixXd K :=
  { M with
    coeff := fun r c =>
      if h : r.1 < k ∧ c.1 < n then B ⟨r.1, h.1⟩ ⟨c.1, h.2⟩ else M.coeff r c }

/-- The assignment `M.bottomRows(k) = B` for a block `B` of `k` rows and `n`
columns: the entries of the last `k` rows are replaced. -/
def MatrixXd.setBottomRows {k n : Nat} (M : MatrixXd K) (B : Matrix (Fin k) (Fin n) K) :
    MatrixXd K :=
  { M with
    coeff := fun r c =>
      if h : M.rows - k ≤ r.1 ∧ r.1 - (M.rows - k) < k ∧ c.1 < n then
        B ⟨r.1 - (M.rows - k), h.2.1⟩ ⟨c.1, h.2.2⟩
      else M.coeff r c }

/-- The assignment `v.head(k) = b`: the first `k` entries are replaced. -/
def VectorXd.setHead {k : Nat} (v : VectorXd K) (b : Fin k → K) : VectorXd K :=
  { v with coeff := fun r => if h : r.1 < k then b ⟨r.1, h⟩ else v.coeff r }

/-- The assignment `v.tail(k) = b`: the last `k` entries are replaced. -/
def VectorXd.setTail {k : Nat} (v : VectorXd K) (b : Fin k → K) : VectorXd K :=
  { v with
    coeff := fun r =>
      if h : v.size - k ≤ r.1 ∧ r.1 - (v.size - k) < k then b ⟨r.1 - (v.size - k), h.2⟩
      else v.coeff r }

/-- Embedding of `OneLevelSolverWithQLD::updateConstraintEquations` for a
problem of `n` variables. The first part is the text of the QuadProg variant.
Then `AandG` and `bandh` are resized when `AandG` has not `_Atotal.rows() +
_G.rows()` rows or not `_Atotal.cols()` (that is `n`) columns, the top rows of
`AandG` are assigned from `_Atotal`, its bottom rows from `_G`, the head of
`bandh` from `_btotal` and its tail from `_h`. After the test `AandG` has room
for its two blocks; a `bandh` too short for a block makes the block expression
fail, which is rendered as an error. The bounds are reset to `-1e10` and `1e10`
when `_xl` has not `n` entries. -/
def OneLevelSolverWithQLD.updateConstraintEquations {n : Nat}
    (acc : ConstraintAccess K n)
    (svd : (m : Nat) → Matrix (Fin m) (Fin n) K → JacobiSVD K m n) (tolerance : K)
    (s : SolverLists) (q : QLDStorage K) :
    Except String (ConstraintEquations K n × QLDStorage K) :=
  let ne := acc.countRows s.equalityConstraints
  let Ab := acc.fillRows ConvertCase.CSTR_PLUS_EQUAL s.equalityConstraints 0
    (fun _ _ => 0) (fun _ => 0)
  let A : Matrix (Fin ne) (Fin n) K := fun r j => Ab.1 r.1 j
  let b : Fin ne → K := fun r => Ab.2 r.1
  let total := OneLevelSolver.reduceConstraints (svd ne) A b tolerance
  let ni := acc.countRows s.inequalityConstraints
  let Gh := acc.fillRows ConvertCase.CSTR_PLUS_GREATER s.inequalityConstraints 0
    (fun _ _ => 0) (fun _ => 0)
  let G : Matrix (Fin ni) (Fin n) K := fun r j => Gh.1 r.1 j
  let h : Fin ni → K := fun r => Gh.2 r.1
  let resize : Bool := decide (q.AandG.rows ≠ total.rows + ni ∨ q.AandG.cols ≠ n)
  let AandG : MatrixXd K := if resize then ⟨total.rows + ni, n, 0⟩ else q.AandG
  let bandh : VectorXd K := if resize then ⟨total.rows + ni, 0⟩ else q.bandh
  if total.rows ≤ bandh.size ∧ ni ≤ bandh.size then
    let xl : VectorXd K := if q.xl.size ≠ n then ⟨n, fun _ => -(10 : K) ^ 10 * 1⟩ else q.xl
    let xu : VectorXd K := if q.xl.size ≠ n then ⟨n, fun _ => (10 : K) ^ 10 * 1⟩ else q.xu
    Except.ok
      ({ A := ⟨ne, n, A⟩, b := ⟨ne, b⟩, total := total, G := ⟨ni, n, G⟩, h := ⟨ni, h⟩ },
       { AandG := (AandG.setTopRows total.Ar).setBottomRows G
         bandh := (bandh.setHead total.br).setTail h
         xl := xl
         xu := xu })
  else
    Except.error "bandh: block out of range"

/-! ## Requests of a task connection (`TaskConnection.cpp`) -/

/-- The requests of `ocra::TASK_MESSAGE` that the two pairs of getters name. -/
inductive TASK_MESSAGE
  | GET_STIFFNESS
  | GET_DAMPING
  deriving DecidableEq, Repr

/-- What a getter reads of the reply `Bottle`: `reply.get(0).asInt()`, and the
matrix `ocra::util::pourBottleIntoEigenMatrix(reply, dummy)` makes of it. -/
structure Reply (K : Type) where
  head : Int
  matrix : MatrixXd K

/-- The entry `M(0,0)`; a matrix without row or column has none, and the
access is rendered as `none`. -/
def MatrixXd.coeff00 (M : MatrixXd K) : Option K :=
  if h : 0 < M.rows ∧ 0 < M.cols then some (M.coeff ⟨0, h.1⟩ ⟨0, h.2⟩) else none

/-- Embedding of `TaskConnection::getStiffnessMatrix`; `write` is
`taskRpcClient.write`, from the message (the integers added to it) to the reply. -/
def TaskConnection.getStiffnessMatrix (write : List TASK_MESSAGE → Reply K) : MatrixXd K :=
  let message := [TASK_MESSAGE.GET_STIFFNESS]
  let reply := write message
  if reply.head ≠ 0 then reply.matrix else ⟨0, 0, 0⟩

/-- Embedding of `TaskConnection::getStiffness`. -/
def TaskConnection.getStiffness (write : List TASK_MESSAGE → Reply K) : Option K :=
  (TaskConnection.getStiffnessMatrix write).coeff00

/-- Embedding of `TaskConnection::getDampingMatrix`. -/
def TaskConnection.getDampingMatrix (write : List TASK_MESSAGE → Reply K) : MatrixXd K :=
  let message := [TASK_MESSAGE.GET_DAMPING]
  let reply := write message
  if reply.head ≠ 0 then reply.matrix else ⟨0, 0, 0⟩

/-- Embedding of `TaskConnection::getDamping`, whose body is
`return this->getStiffnessMatrix()(0,0);`. -/
def TaskConnection.getDamping (write : List TASK_MESSAGE → Reply K) : Option K :=
  (TaskConnection.getStiffnessMatrix write).coeff00

/-! ## Sequences of calls on a task -/

/-- The six activation, deactivation and contact mode calls. -/
inductive TaskCall
  | activateAsObjective
  | deactivateAsObjective
  | activateAsConstraint
  | deactivateAsConstraint
  | activateContactMode
  | deactivateContactMode
  deriving DecidableEq, Repr

/-- One call on the task. -/
def Setup.call {dim : Nat} (w : Setup K dim) :
    TaskCall → Except (Fault (Setup K dim)) (Setup K dim)
  | TaskCall.activateAsObjective => w.doActivateAsObjective
  | TaskCall.deactivateAsObjective => w.doDeactivateAsObjective
  | TaskCall.activateAsConstraint => w.doActivateAsConstraint
  | TaskCall.deactivateAsConstraint => w.doDeactivateAsConstraint
  | TaskCall.activateContactMode => w.doActivateContactMode
  | TaskCall.deactivateContactMode => w.doDeactivateContactMode

/-- A sequence of calls, stopped by the first one that does not return. -/
def Setup.calls {dim : Nat} (w : Setup K dim) :
    List TaskCall → Except (Fault (Setup K dim)) (Setup K dim)
  | [] => Except.ok w
  | c :: cs =>
    match w.call c with
    | Except.error e => Except.error e
    | Except.ok w1 => w1.calls cs

/-- The three registration flags say what the lists of the solver hold: the
objective of the task is in the objective list once when
`isRegisteredAsObjective` is set and not at all otherwise, and likewise for the
task constraint and the zero-force constraint in the equality list. -/
def Setup.flagsMirrorLists {dim : Nat} (w : Setup K dim) : Prop :=
  w.solver.objectives.count { owner := w.task.name, serial := w.task.serial }
      = (if w.task.isRegisteredAsObjective then 1 else 0)
    ∧ w.solver.equalityConstraints.count
        { owner := w.task.name, member := ConstraintMember.innerTaskAsConstraint,
          serial := w.task.serial }
      = (if w.task.isRegisteredAsConstraint then 1 else 0)
    ∧ w.solver.equalityConstraints.count
        { owner := w.task.name, member := ConstraintMember.ContactForceConstraint,
          serial := 0 }
      = (if w.task.contactForceConstraintHasBeenSavedInSolver then 1 else 0)

/-! ## Sample data -/

/-- A rank deficient `2 × 2` system matrix with rational entries. -/
def sampleA : Matrix (Fin 2) (Fin 2) ℚ := !![0, 3; 0, 0]

/-- An exact thin decomposition of `sampleA`: singular values `3, 0`, `U` the
identity and `V` the exchange matrix. -/
def sampleSVD : JacobiSVD ℚ 2 2 :=
  { singularValues := ![3, 0], matrixU := !![1, 0; 0, 1], matrixV := !![0, 1; 1, 0] }

/-- Two tasks with rational data over a problem variable of size `3`: one on
the variables `0, 1` with weight `2`, one on the variable `2` with weight `1/2`. -/
def sampleObjectives : List (SquaredLinearObjective ℚ 3) :=
  [ { dim := 1, f := { size := 2, A := !![1, 2], b := ![3] }, weight := 2,
      varMap := ![0, 1] },
    { dim := 2, f := { size := 1, A := !![1; -1], b := ![0, 4] }, weight := 1 / 2,
      varMap := ![2] } ]

/-- A solver that already holds the objective of another task. -/
def sampleLists : SolverLists :=
  { objectives := [{ owner := "posture", serial := 1 }]
    equalityConstraints := []
    inequalityConstraints := [] }

/-- A freshly constructed task named `contact` of the given type and of
dimension `3`, next to `sampleLists` and a model without contact point. -/
def sampleSetup (taskType : TYPETASK) : Setup ℚ 3 :=
  { task := OneLevelTask.create "contact" { nbDofs := 7, nbInternalDofs := 6 } taskType
    solver := sampleLists
    modelContacts := [] }

/-- The sample task of type Force after it has been connected to solver `0`
with the full formalism. -/
def sampleConnected : Setup ℚ 3 :=
  { task :=
      OneLevelTask.setAsForceTask
        { (OneLevelTask.create "contact" { nbDofs := 7, nbInternalDofs := 6 }
            TYPETASK.FORCETASK : OneLevelTask ℚ 3) with
          solver := some 0
          dynamicEquation := some { id := 0, actionVariableSize := 4 } }
    solver := sampleLists
    modelContacts := [] }

/-- The dynamic equation used with the sample task. -/
def sampleDynamicEquation : FullDynamicEquationFunction :=
  { id := 0, actionVariableSize := 4 }

/-- The connected sample Force task with its zero-force constraint registered
(the state `doDeactivateAsObjective` leaves behind on `sampleConnected`). -/
def sampleIdle : Setup ℚ 3 :=
  { task := { sampleConnected.task with contactForceConstraintHasBeenSavedInSolver := true }
    solver :=
      { sampleLists with
        equalityConstraints :=
          [{ owner := "contact", member := ConstraintMember.ContactForceConstraint,
             serial := 0 }] }
    modelContacts := [] }

/-- The connected sample Force task active as objective and in contact mode
(the state `doActivateAsObjective` followed by `doActivateContactMode` leaves
behind on `sampleConnected`). -/
def sampleInContact : Setup ℚ 3 :=
  { task :=
      { sampleConnected.task with
        isRegisteredAsObjective := true
        contactPointHasBeenSavedInModel := true
        frictionConstraintIsRegisteredInConstraint := true }
    solver :=
      { objectives := [{ owner := "posture", serial := 1 }, { owner := "contact", serial := 1 }]
        equalityConstraints := []
        inequalityConstraints :=
          [{ owner := "contact", member := ConstraintMember.frictionConstraint, serial := 0 }] }
    modelContacts := ["contact"] }

/-- A solver whose equality list holds the zero-force constraint and the task
constraint of the sample task, in this order. -/
def sampleTwoEqualities : SolverLists :=
  { objectives := []
    equalityConstraints :=
      [{ owner := "contact", member := ConstraintMember.ContactForceConstraint, serial := 0 },
       { owner := "contact", member := ConstraintMember.innerTaskAsConstraint, serial := 1 }]
    inequalityConstraints := [] }

/-- Constraint objects for the sample: the friction cone has as many rows as
the cone of a freshly constructed task has facets, every other constraint has
three rows; the conversion adds one to every entry of the block and two to
every entry of the segment. -/
def sampleAccess : ConstraintAccess ℚ 3 :=
  { getDimension := fun cstr =>
      match cstr.member with
      | ConstraintMember.frictionConstraint => 6
      | _ => 3
    convert := fun _ _ M v => (fun i j => M i j + 1, fun i => v i + 2) }

/-- A task of dimension `6` (a wrench) of type Force, freshly constructed next
to `sampleLists`. -/
def sampleWrench : Setup ℚ 6 :=
  { task := OneLevelTask.create "wrench" { nbDofs := 7, nbInternalDofs := 6 } TYPETASK.FORCETASK
    solver := sampleLists
    modelContacts := [] }

/-- A server that answers the stiffness request with the matrix `[5]`, the
damping request with the matrix `[2]`, and fails on every other message. -/
def sampleServer : List TASK_MESSAGE → Reply ℚ := fun message =>
  if message = [TASK_MESSAGE.GET_STIFFNESS] then ⟨1, ⟨1, 1, !![5]⟩⟩
  else if message = [TASK_MESSAGE.GET_DAMPING] then ⟨1, ⟨1, 1, !![2]⟩⟩
  else ⟨0, ⟨0, 0, 0⟩⟩

/-- An Acceleration task of dimension `1` that uses the reduced problem and
holds a function. -/
def sampleReducedTask : OneLevelTask ℚ 1 :=
  { (OneLevelTask.create "reach" { nbDofs := 1, nbInternalDofs := 1 }
      TYPETASK.ACCELERATIONTASK : OneLevelTask ℚ 1) with
    solver := some 0
    dynamicEquation := some { id := 0, actionVariableSize := 1 }
    useReducedProblem := true
    serial := 1
    innerObjectiveFunction := some { size := 1, A := 0, b := 0 } }

/-- Signals with the Jacobian `[1]` and the inertia product `M⁻¹ Jᵀ = [1]`;
every error and the other inertia product are zero. -/
def sampleReducedSignals : TaskSignals ℚ 1 :=
  { nDofs := 1, nChi := 1, jacobian := !![1], stiffness := !![0], damping := !![0]
    error := ![0], errorDot := ![0], errorDdot := ![0], effort := ![0]
    comAngularJacobian := !![0], comAngularVelocity := ![0]
    inertiaMatrixInverseJchiT := !![1], inertiaMatrixInverseLinNonLinGrav := ![0] }

/-- Storage of a QLD solver that has not assembled any constraint yet. -/
def sampleStorage : QLDStorage ℚ :=
  { AandG := ⟨0, 0, 0⟩, bandh := ⟨0, 0⟩, xl := ⟨0, 0⟩, xu := ⟨0, 0⟩ }

/-! ## Cost assembly: helper lemmas -/

theorem addCoeff2d_apply {n : Nat} (M : Matrix (Fin n) (Fin n) K) (r c : Fin n) (v : K)
    (a b : Fin n) :
    utils.addCoeff2d M r c v a b = M a b + if r = a ∧ c = b then v else 0 := by
  unfold utils.addCoeff2d
  by_cases ha : a = r
  · subst ha
    by_cases hb : b = c
    · subst hb; simp
    · simp [Function.update_noteq hb, Ne.symm hb]
  · simp [Function.update_noteq ha, Ne.symm ha]

theorem addCoeff_apply {n : Nat} (w : Fin n → K) (r : Fin n) (v : K) (a : Fin n) :
    utils.addCoeff w r v a = w a + if r = a then v else 0 := by
  unfold utils.addCoeff
  by_cases ha : a = r
  · subst ha; simp
  · simp [Function.update_noteq ha, Ne.symm ha]

theorem addCompressedByRow_foldl {p n : Nat} (inV : Fin p → K) (mapping : Fin p → Fin n)
    (scale : K) (l : List (Fin p)) (out : Fin n → K) (a : Fin n) :
    l.foldl (fun acc i => utils.addCoeff acc (mapping i) (scale * inV i)) out a
      = out a + (l.map (fun i => if mapping i = a then scale * inV i else 0)).sum := by
  induction l generalizing out with
  | nil => simp
  | cons i l ih =>
    rw [List.foldl_cons, ih, List.map_cons, List.sum_cons, ← add_assoc, addCoeff_apply]

theorem addCompressedByRow_apply {p n : Nat} (inV : Fin p → K) (out : Fin n → K)
    (mapping : Fin p → Fin n) (scale : K) (a : Fin n) :
    utils.addCompressedByRow inV out mapping scale a
      = out a + ∑ i, if mapping i = a then scale * inV i else 0 := by
  unfold utils.addCompressedByRow
  rw [addCompressedByRow_foldl, Fin.sum_univ_def]

theorem addCompressed2d_inner {p n : Nat} (inM : Matrix (Fin p) (Fin p) K)
    (mapping : Fin p → Fin n) (scale : K) (i : Fin p) (l : List (Fin p))
    (out : Matrix (Fin n) (Fin n) K) (a b : Fin n) :
    l.foldl (fun acc2 j => utils.addCoeff2d acc2 (mapping i) (mapping j) (scale * inM i j))
        out a b
      = out a b
        + (l.map (fun j =>
            if mapping i = a ∧ mapping j = b then scale * inM i j else 0)).sum := by
  induction l generalizing out with
  | nil => simp
  | cons j l ih =>
    rw [List.foldl_cons, ih, List.map_cons, List.sum_cons, ← add_assoc, addCoeff2d_apply]

theorem addCompressed2d_outer {p n : Nat} (inM : Matrix (Fin p) (Fin p) K)
    (mapping : Fin p → Fin n) (scale : K) (l : List (Fin p))
    (out : Matrix (Fin n) (Fin n) K) (a b : Fin n) :
    l.foldl
        (fun acc i =>
          (List.finRange p).foldl
            (fun acc2 j => utils.addCoeff2d acc2 (mapping i) (mapping j) (scale * inM i j))
            acc)
        out a b
      = out a b
        + (l.map (fun i =>
            ∑ j, if mapping i = a ∧ mapping j = b then scale * inM i j else 0)).sum := by
  induction l generalizing out with
  | nil => simp
  | cons i l ih =>
    rw [List.foldl_cons, ih, List.map_cons, List.sum_cons, ← add_assoc,
      addCompressed2d_inner, Fin.sum_univ_def]

theorem addCompressed2d_apply {p n : Nat} (inM : Matrix (Fin p) (Fin p) K)
    (out : Matrix (Fin n) (Fin n) K) (mapping : Fin p → Fin n) (scale : K) (a b : Fin n) :
    utils.addCompressed2d inM out mapping scale a b
      = out a b
        + ∑ i, ∑ j, if mapping i = a ∧ mapping j = b then scale * inM i j else 0 := by
  unfold utils.addCompressed2d
  rw [addCompressed2d_outer, Fin.sum_univ_def]

theorem accumulateObjectives_fst {n : Nat} (objs : List (QuadraticObjective K n))
    (C : Matrix (Fin n) (Fin n) K) (d : Fin n → K) (a b : Fin n) :
    (accumulateObjectives objs C d).1 a b
      = C a b + (objs.map (fun o =>
          o.weight * ∑ i, ∑ j, if o.objMap i = a ∧ o.objMap j = b then o.Pi i j else 0)).sum := by
  unfold accumulateObjectives
  induction objs generalizing C d with
  | nil => simp
  | cons o objs ih =>
    rw [List.foldl_cons, ih, List.map_cons, List.sum_cons, ← add_assoc, addCompressed2d_apply]
    congr 2
    rw [Finset.mul_sum]
    refine Finset.sum_congr rfl (fun i _ => ?_)
    rw [Finset.mul_sum]
    refine Finset.sum_congr rfl (fun j _ => ?_)
    split_ifs <;> simp

theorem accumulateObjectives_snd {n : Nat} (objs : List (QuadraticObjective K n))
    (C : Matrix (Fin n) (Fin n) K) (d : Fin n → K) (a : Fin n) :
    (accumulateObjectives objs C d).2 a
      = d a + (objs.map (fun o =>
          o.weight * ∑ i, if o.objMap i = a then o.qi i else 0)).sum := by
  unfold accumulateObjectives
  induction objs generalizing C d with
  | nil => simp
  | cons o objs ih =>
    rw [List.foldl_cons, ih, List.map_cons, List.sum_cons, ← add_assoc, addCompressedByRow_apply]
    congr 2
    rw [Finset.mul_sum]
    refine Finset.sum_congr rfl (fun i _ => ?_)
    split_ifs <;> simp

theorem list_sum_matrix_apply {α : Type} {m n : Nat} (l : List α)
    (f : α → Matrix (Fin m) (Fin n) K) (a : Fin m) (b : Fin n) :
    (l.map f).sum a b = (l.map (fun o => f o a b)).sum := by
  induction l with
  | nil => simp
  | cons o l ih => simp [ih]

theorem list_sum_vector_apply {α : Type} {n : Nat} (l : List α)
    (f : α → (Fin n → K)) (a : Fin n) :
    (l.map f).sum a = (l.map (fun o => f o a)).sum := by
  induction l with
  | nil => simp
  | cons o l ih => simp [ih]

theorem toQuadratic_Pi_compressed {n : Nat} (o : SquaredLinearObjective K n) (a b : Fin n) :
    (∑ i, ∑ j, if o.toQuadratic.objMap i = a ∧ o.toQuadratic.objMap j = b
        then o.toQuadratic.Pi i j else 0)
      = (o.fullAᵀ * o.fullA) a b := by
  show (∑ i, ∑ j, if o.varMap i = a ∧ o.varMap j = b then (o.f.Aᵀ * o.f.A) i j else 0) = _
  simp only [Matrix.mul_apply, Matrix.transpose_apply, SquaredLinearObjective.fullA,
    Finset.sum_mul_sum]
  symm
  rw [Finset.sum_comm]
  refine Finset.sum_congr rfl (fun i _ => ?_)
  rw [Finset.sum_comm]
  refine Finset.sum_congr rfl (fun j _ => ?_)
  by_cases h1 : o.varMap i = a <;> by_cases h2 : o.varMap j = b <;> simp [h1, h2]

theorem toQuadratic_qi_compressed {n : Nat} (o : SquaredLinearObjective K n) (a : Fin n) :
    (∑ i, if o.toQuadratic.objMap i = a then o.toQuadratic.qi i else 0)
      = (o.fullAᵀ *ᵥ o.f.b) a := by
  show (∑ i, if o.varMap i = a then (o.f.Aᵀ *ᵥ o.f.b) i else 0) = _
  simp only [Matrix.mulVec, Matrix.dotProduct, Matrix.transpose_apply,
    SquaredLinearObjective.fullA, Finset.sum_mul]
  rw [Finset.sum_comm]
  refine Finset.sum_congr rfl (fun i _ => ?_)
  by_cases h1 : o.varMap i = a <;> simp [h1]

theorem assembled_C_of_linear (s : OneLevelSolver K) (lin : List (SquaredLinearObjective K s.n)) :
    (OneLevelSolverWithQuadProg.updateObjectiveEquations
        { s with objectives := lin.map SquaredLinearObjective.toQuadratic }).C
      = ⟨s.n, s.n, (lin.map (fun o => o.weight • (o.fullAᵀ * o.fullA))).sum⟩ := by
  show MatrixXd.mk s.n s.n _ = _
  congr 1
  funext a b
  rw [accumulateObjectives_fst, list_sum_matrix_apply, List.map_map]
  simp only [Matrix.zero_apply, zero_add, Function.comp_def, toQuadratic_Pi_compressed]
  rfl

theorem gram_isSymm_nonneg {r n : Nat} (B : Matrix (Fin r) (Fin n) K) (w : K) (hw : 0 ≤ w) :
    (w • (Bᵀ * B)).IsSymm ∧ ∀ x : Fin n → K, 0 ≤ x ⬝ᵥ ((w • (Bᵀ * B)) *ᵥ x) := by
  constructor
  · unfold Matrix.IsSymm
    rw [Matrix.transpose_smul, Matrix.transpose_mul, Matrix.transpose_transpose]
  · intro x
    rw [Matrix.smul_mulVec_assoc, Matrix.dotProduct_smul, ← Matrix.mulVec_mulVec,
      Matrix.dotProduct_mulVec, Matrix.vecMul_transpose, smul_eq_mul]
    refine mul_nonneg hw (Finset.sum_nonneg (fun i _ => mul_self_nonneg _))

theorem list_sum_isSymm_nonneg {n : Nat} (l : List (Matrix (Fin n) (Fin n) K))
    (h : ∀ M ∈ l, M.IsSymm ∧ ∀ x : Fin n → K, 0 ≤ x ⬝ᵥ (M *ᵥ x)) :
    l.sum.IsSymm ∧ ∀ x : Fin n → K, 0 ≤ x ⬝ᵥ (l.sum *ᵥ x) := by
  induction l with
  | nil =>
    refine ⟨?_, fun x => ?_⟩
    · simp [Matrix.IsSymm]
    · simp
  | cons M l ih =>
    obtain ⟨hM1, hM2⟩ := h M (List.mem_cons_self _ _)
    obtain ⟨hl1, hl2⟩ := ih (fun N hN => h N (List.mem_cons_of_mem _ hN))
    rw [List.sum_cons]
    refine ⟨hM1.add hl1, fun x => ?_⟩
    rw [Matrix.add_mulVec, Matrix.dotProduct_add]
    exact add_nonneg (hM2 x) (hl2 x)

/-! ## Cost assembly: the assembled cost -/

/-- C1: for both solver variants and every list of registered objectives,
`updateObjectiveEquations` yields an `n × n` matrix `C` and an `n`-vector `d`
that do not depend on the cost stored before the call; entry `(a, b)` of `C` is
the sum over the objectives of `weight * Pi[j,k]` over the positions `(j, k)`
mapped to `(a, b)`, entry `a` of `d` the sum of `weight * qi[j]` over the
positions `j` mapped to `a`; for objectives with `Pi = AᵀA`, `qi = Aᵀb` this is
`C = Σ w AᵀA` and `d = Σ w Aᵀb`, with each `A` written over the whole problem
variable through its mapping. -/
theorem updateObjectiveEquations_assembles_cost (s : OneLevelSolver K)
    (lin : List (SquaredLinearObjective K s.n)) :
    (OneLevelSolverWithQuadProg.updateObjectiveEquations s).C
        = ⟨s.n, s.n, fun a b => (s.objectives.map (fun o =>
            o.weight * ∑ j, ∑ k,
              if o.objMap j = a ∧ o.objMap k = b then o.Pi j k else 0)).sum⟩
    ∧ (OneLevelSolverWithQuadProg.updateObjectiveEquations s).d
        = ⟨s.n, fun a => (s.objectives.map (fun o =>
            o.weight * ∑ j, if o.objMap j = a then o.qi j else 0)).sum⟩
    ∧ OneLevelSolverWithQLD.updateObjectiveEquations s
        = OneLevelSolverWithQuadProg.updateObjectiveEquations s
    ∧ (∀ (C0 : MatrixXd K) (d0 : VectorXd K),
        OneLevelSolverWithQuadProg.updateObjectiveEquations { s with C := C0, d := d0 }
          = OneLevelSolverWithQuadProg.updateObjectiveEquations s)
    ∧ (OneLevelSolverWithQuadProg.updateObjectiveEquations
          { s with objectives := lin.map SquaredLinearObjective.toQuadratic }).C
        = ⟨s.n, s.n, (lin.map (fun o => o.weight • (o.fullAᵀ * o.fullA))).sum⟩
    ∧ (OneLevelSolverWithQuadProg.updateObjectiveEquations
          { s with objectives := lin.map SquaredLinearObjective.toQuadratic }).d
        = ⟨s.n, (lin.map (fun o => o.weight • (o.fullAᵀ *ᵥ o.f.b))).sum⟩ := by
  refine ⟨?_, ?_, rfl, fun _ _ => rfl, ?_, ?_⟩
  · show MatrixXd.mk s.n s.n _ = _
    congr 1
    funext a b
    rw [accumulateObjectives_fst]
    simp
  · show VectorXd.mk s.n _ = _
    congr 1
    funext a
    rw [accumulateObjectives_snd]
    simp
  · exact assembled_C_of_linear s lin
  · show VectorXd.mk s.n _ = _
    congr 1
    funext a
    rw [accumulateObjectives_snd, list_sum_vector_apply, List.map_map]
    simp only [Pi.zero_apply, zero_add, Function.comp_def, toQuadratic_qi_compressed]
    rfl

/-- C7: for objectives with non-negative weights and quadratic terms `AᵀA`, the
cost matrix assembled by `updateObjectiveEquations` (either variant) is
symmetric and positive semi-definite, whatever the variable mappings. -/
theorem updateObjectiveEquations_cost_symmetric_psd (s : OneLevelSolver K)
    (lin : List (SquaredLinearObjective K s.n)) (hw : ∀ o ∈ lin, 0 ≤ o.weight) :
    ∃ C : Matrix (Fin s.n) (Fin s.n) K,
      (OneLevelSolverWithQuadProg.updateObjectiveEquations
          { s with objectives := lin.map SquaredLinearObjective.toQuadratic }).C = ⟨s.n, s.n, C⟩
      ∧ (OneLevelSolverWithQLD.updateObjectiveEquations
          { s with objectives := lin.map SquaredLinearObjective.toQuadratic }).C = ⟨s.n, s.n, C⟩
      ∧ C.IsSymm ∧ ∀ x : Fin s.n → K, 0 ≤ x ⬝ᵥ (C *ᵥ x) := by
  refine ⟨_, assembled_C_of_linear s lin, assembled_C_of_linear s lin, ?_⟩
  apply list_sum_isSymm_nonneg
  intro M hM
  rw [List.mem_map] at hM
  obtain ⟨o, ho, rfl⟩ := hM
  exact gram_isSymm_nonneg o.fullA o.weight (hw o ho)

/-- C7, evaluated on the two sample tasks. -/
theorem updateObjectiveEquations_cost_symmetric_psd_witness :
    (∀ o ∈ sampleObjectives, 0 ≤ o.weight)
      ∧ ∃ C : Matrix (Fin 3) (Fin 3) ℚ,
        (OneLevelSolverWithQuadProg.updateObjectiveEquations
            { n := 3, objectives := sampleObjectives.map SquaredLinearObjective.toQuadratic,
              C := ⟨1, 1, !![7]⟩, d := ⟨1, ![7]⟩ }).C = ⟨3, 3, C⟩
        ∧ (OneLevelSolverWithQLD.updateObjectiveEquations
            { n := 3, objectives := sampleObjectives.map SquaredLinearObjective.toQuadratic,
              C := ⟨1, 1, !![7]⟩, d := ⟨1, ![7]⟩ }).C = ⟨3, 3, C⟩
        ∧ C.IsSymm ∧ ∀ x : Fin 3 → ℚ, 0 ≤ x ⬝ᵥ (C *ᵥ x) :=
  ⟨by simp [sampleObjectives],
    updateObjectiveEquations_cost_symmetric_psd
      ({ n := 3, objectives := [], C := ⟨1, 1, !![7]⟩, d := ⟨1, ![7]⟩ } : OneLevelSolver ℚ)
      sampleObjectives (by simp [sampleObjectives])⟩

/-! ## Reduction of the equality constraints: helper lemmas -/

theorem rankLoop_spec {k : Nat} (S : Fin k → K) (tolerance : K) (fuel r : Nat) (h : r ≤ k)
    (hfuel : k - r ≤ fuel) :
    r ≤ (rankLoop S tolerance fuel r h).1
      ∧ (∀ i : Fin k, r ≤ i.1 → i.1 < (rankLoop S tolerance fuel r h).1 → tolerance < S i)
      ∧ (∀ i : Fin k, i.1 = (rankLoop S tolerance fuel r h).1 → S i ≤ tolerance) := by
  induction fuel generalizing r with
  | zero =>
    have hk : r = k := by omega
    subst hk
    refine ⟨le_refl _, fun i h1 h2 => ?_, fun i hi => ?_⟩
    · simp only [rankLoop] at h2; omega
    · simp only [rankLoop] at hi; have := i.2; omega
  | succ fuel ih =>
    unfold rankLoop
    by_cases hlt : r < k
    · rw [dif_pos hlt]
      by_cases hS : S ⟨r, hlt⟩ ≤ tolerance
      · rw [if_pos hS]
        refine ⟨le_refl _, fun i h1 h2 => absurd h2 (by simpa using h1), fun i hi => ?_⟩
        have : i = ⟨r, hlt⟩ := Fin.ext hi
        rw [this]; exact hS
      · rw [if_neg hS]
        obtain ⟨h1, h2, h3⟩ := ih (r + 1) hlt (by omega)
        refine ⟨by omega, fun i hi1 hi2 => ?_, h3⟩
        by_cases hir : i.1 = r
        · have : i = ⟨r, hlt⟩ := Fin.ext hir
          rw [this]; exact lt_of_not_le hS
        · exact h2 i (by omega) hi2
    · rw [dif_neg hlt]
      refine ⟨le_refl _, fun i h1 h2 => absurd h2 (by simpa using h1), fun i hi => ?_⟩
      have := i.2
      simp only at hi
      omega

theorem card_filter_val_lt (k r : Nat) (h : r ≤ k) :
    (Finset.univ.filter (fun i : Fin k => i.1 < r)).card = r := by
  have : (Finset.univ.filter (fun i : Fin k => i.1 < r))
      = (Finset.univ : Finset (Fin r)).map (Fin.castLEEmb h) := by
    ext i
    simp only [Finset.mem_filter, Finset.mem_univ, true_and, Finset.mem_map, Fin.castLEEmb_apply]
    constructor
    · intro hi; exact ⟨⟨i.1, hi⟩, Fin.ext rfl⟩
    · rintro ⟨a, rfl⟩; exact a.2
  rw [this, Finset.card_map, Finset.card_univ, Fintype.card_fin]

theorem reduceConstraints_pos {m n : Nat} (svd : Matrix (Fin m) (Fin n) K → JacobiSVD K m n)
    (A : Matrix (Fin m) (Fin n) K) (b : Fin m → K) (tolerance : K) (hm : 0 < m) :
    OneLevelSolver.reduceConstraints svd A b tolerance
      = { rows := (rankLoop (svd A).singularValues tolerance (min m n) 0 (Nat.zero_le _)).1
          Ar := Matrix.diagonal (segment (svd A).singularValues _
                  (rankLoop (svd A).singularValues tolerance (min m n) 0 (Nat.zero_le _)).2)
                * (leftCols (svd A).matrixV _
                  (rankLoop (svd A).singularValues tolerance (min m n) 0 (Nat.zero_le _)).2)ᵀ
          br := (leftCols (svd A).matrixU _
                  (rankLoop (svd A).singularValues tolerance (min m n) 0 (Nat.zero_le _)).2)ᵀ
                *ᵥ b } := by
  unfold OneLevelSolver.reduceConstraints
  rw [if_pos hm]

theorem truncated_apply {n k : Nat} (S : Fin k → K) (V : Matrix (Fin n) (Fin k) K)
    (r : Nat) (h : r ≤ k) (i : Fin r) (j : Fin n) :
    (Matrix.diagonal (segment S r h) * (leftCols V r h)ᵀ) i j
      = S (Fin.castLE h i) * V j (Fin.castLE h i) := by
  rw [Matrix.diagonal_mul]; rfl

theorem truncated_mulVec {n k : Nat} (S : Fin k → K) (V : Matrix (Fin n) (Fin k) K)
    (r : Nat) (h : r ≤ k) (x : Fin n → K) (i : Fin r) :
    ((Matrix.diagonal (segment S r h) * (leftCols V r h)ᵀ) *ᵥ x) i
      = ((Matrix.diagonal S * Vᵀ) *ᵥ x) (Fin.castLE h i) := by
  simp only [Matrix.mulVec, Matrix.dotProduct, Matrix.diagonal_mul, Matrix.transpose_apply]
  rfl

theorem truncated_rhs {m k : Nat} (U : Matrix (Fin m) (Fin k) K)
    (r : Nat) (h : r ≤ k) (b : Fin m → K) (i : Fin r) :
    ((leftCols U r h)ᵀ *ᵥ b) i = (Uᵀ *ᵥ b) (Fin.castLE h i) := rfl

/-- The reduced system holds at `x` iff the first `r` rows of `diag(S) Vᵀ x = Uᵀ b` hold. -/
theorem truncated_system_iff {m n k : Nat} (S : Fin k → K) (U : Matrix (Fin m) (Fin k) K)
    (V : Matrix (Fin n) (Fin k) K) (r : Nat) (h : r ≤ k) (b : Fin m → K) (x : Fin n → K) :
    (Matrix.diagonal (segment S r h) * (leftCols V r h)ᵀ) *ᵥ x = (leftCols U r h)ᵀ *ᵥ b
      ↔ ∀ i : Fin k, i.1 < r → ((Matrix.diagonal S * Vᵀ) *ᵥ x) i = (Uᵀ *ᵥ b) i := by
  constructor
  · intro hx i hi
    have := congrFun hx ⟨i.1, hi⟩
    rw [truncated_mulVec, truncated_rhs] at this
    exact this
  · intro hx
    funext i
    rw [truncated_mulVec, truncated_rhs]
    exact hx _ i.2

/-- Under an exact decomposition with orthonormal `U`, a solution of `A x = b`
solves every row of `diag(S) Vᵀ x = Uᵀ b`. -/
theorem full_system_of_solution {m n : Nat} {A : Matrix (Fin m) (Fin n) K}
    {svd : JacobiSVD K m n}
    (hA : A = svd.matrixU * Matrix.diagonal svd.singularValues * svd.matrixVᵀ)
    (hU : svd.matrixUᵀ * svd.matrixU = 1)
    (b : Fin m → K) (x : Fin n → K) (hx : A *ᵥ x = b) :
    (Matrix.diagonal svd.singularValues * svd.matrixVᵀ) *ᵥ x = svd.matrixUᵀ *ᵥ b := by
  rw [← hx, Matrix.mulVec_mulVec]
  rw [hA, Matrix.mul_assoc, ← Matrix.mul_assoc svd.matrixUᵀ, hU, Matrix.one_mul]

theorem diag_mul_mulVec_apply {n k : Nat} (S : Fin k → K) (V : Matrix (Fin n) (Fin k) K)
    (x : Fin n → K) (i : Fin k) :
    ((Matrix.diagonal S * Vᵀ) *ᵥ x) i = S i * (Vᵀ *ᵥ x) i := by
  rw [← Matrix.mulVec_mulVec, Matrix.mulVec_diagonal]

/-- When the singular values from index `r` on vanish and `A y = b` has a solution,
the first `r` rows of `diag(S) Vᵀ x = Uᵀ b` imply `A x = b`. -/
theorem solution_of_truncated {m n : Nat} {A : Matrix (Fin m) (Fin n) K}
    {svd : JacobiSVD K m n}
    (hA : A = svd.matrixU * Matrix.diagonal svd.singularValues * svd.matrixVᵀ)
    (hU : svd.matrixUᵀ * svd.matrixU = 1)
    (r : Nat) (hzero : ∀ i : Fin (min m n), r ≤ i.1 → svd.singularValues i = 0)
    (b : Fin m → K) (y : Fin n → K) (hy : A *ᵥ y = b) (x : Fin n → K)
    (hx : ∀ i : Fin (min m n), i.1 < r →
      ((Matrix.diagonal svd.singularValues * svd.matrixVᵀ) *ᵥ x) i = (svd.matrixUᵀ *ᵥ b) i) :
    A *ᵥ x = b := by
  have hFy := full_system_of_solution hA hU b y hy
  have hFx : (Matrix.diagonal svd.singularValues * svd.matrixVᵀ) *ᵥ x
      = (Matrix.diagonal svd.singularValues * svd.matrixVᵀ) *ᵥ y := by
    funext i
    by_cases hi : i.1 < r
    · rw [hx i hi, hFy]
    · rw [diag_mul_mulVec_apply, diag_mul_mulVec_apply, hzero i (by omega), zero_mul, zero_mul]
  have hsplit : ∀ z : Fin n → K,
      A *ᵥ z = svd.matrixU *ᵥ ((Matrix.diagonal svd.singularValues * svd.matrixVᵀ) *ᵥ z) := by
    intro z
    rw [Matrix.mulVec_mulVec, ← Matrix.mul_assoc, ← hA]
  rw [hsplit x, hFx, ← hsplit y, hy]

theorem rank_eq_card_singularValues_ne_zero {m n : Nat} {A : Matrix (Fin m) (Fin n) K}
    {svd : JacobiSVD K m n}
    (hA : A = svd.matrixU * Matrix.diagonal svd.singularValues * svd.matrixVᵀ)
    (hU : svd.matrixUᵀ * svd.matrixU = 1) (hV : svd.matrixVᵀ * svd.matrixV = 1) :
    A.rank = (Finset.univ.filter (fun i => svd.singularValues i ≠ 0)).card := by
  have hD : Matrix.diagonal svd.singularValues = svd.matrixUᵀ * A * svd.matrixV := by
    rw [hA]
    calc Matrix.diagonal svd.singularValues
        = 1 * Matrix.diagonal svd.singularValues * 1 := by rw [Matrix.one_mul, Matrix.mul_one]
      _ = (svd.matrixUᵀ * svd.matrixU) * Matrix.diagonal svd.singularValues
            * (svd.matrixVᵀ * svd.matrixV) := by rw [hU, hV]
      _ = svd.matrixUᵀ * (svd.matrixU * Matrix.diagonal svd.singularValues * svd.matrixVᵀ)
            * svd.matrixV := by simp only [Matrix.mul_assoc]
  have h1 : A.rank ≤ (Matrix.diagonal svd.singularValues).rank := by
    rw [hA]
    exact (Matrix.rank_mul_le_left _ _).trans (Matrix.rank_mul_le_right _ _)
  have h2 : (Matrix.diagonal svd.singularValues).rank ≤ A.rank := by
    conv_lhs => rw [hD]
    exact (Matrix.rank_mul_le_left _ _).trans (Matrix.rank_mul_le_right _ _)
  rw [le_antisymm h1 h2, Matrix.rank_diagonal, Fintype.card_subtype]

theorem tail_zero_of_sorted {k : Nat} (S : Fin k → K) (tolerance : K) (r : Nat)
    (hstop : ∀ i : Fin k, i.1 = r → S i ≤ tolerance)
    (hsorted : ∀ i j : Fin k, i ≤ j → S j ≤ S i)
    (hgap : ∀ i, S i ≠ 0 → tolerance < S i) :
    ∀ i : Fin k, r ≤ i.1 → S i = 0 := by
  intro i hi
  by_contra hne
  have h1 : S ⟨r, lt_of_le_of_lt hi i.2⟩ ≤ tolerance := hstop _ rfl
  have h2 : S i ≤ S ⟨r, lt_of_le_of_lt hi i.2⟩ := hsorted _ _ (by simpa [Fin.le_def] using hi)
  exact absurd (hgap i hne) (not_lt.mpr (h2.trans h1))

theorem card_above_of_sorted {k : Nat} (S : Fin k → K) (tolerance : K) (r : Nat) (hr : r ≤ k)
    (hhead : ∀ i : Fin k, i.1 < r → tolerance < S i)
    (hstop : ∀ i : Fin k, i.1 = r → S i ≤ tolerance)
    (hsorted : ∀ i j : Fin k, i ≤ j → S j ≤ S i) :
    (Finset.univ.filter (fun i => tolerance < S i)).card = r := by
  have : (Finset.univ.filter (fun i => tolerance < S i))
      = Finset.univ.filter (fun i : Fin k => i.1 < r) := by
    ext i
    simp only [Finset.mem_filter, Finset.mem_univ, true_and]
    constructor
    · intro hi
      by_contra hge
      have hge' : r ≤ i.1 := by omega
      have h1 : S ⟨r, lt_of_le_of_lt hge' i.2⟩ ≤ tolerance := hstop _ rfl
      have h2 : S i ≤ S ⟨r, lt_of_le_of_lt hge' i.2⟩ :=
        hsorted _ _ (by simpa [Fin.le_def] using hge')
      exact absurd hi (not_lt.mpr (h2.trans h1))
    · exact hhead i
  rw [this, card_filter_val_lt k r hr]

theorem leftCols_orthonormal {n k : Nat} (V : Matrix (Fin n) (Fin k) K) (hV : Vᵀ * V = 1)
    (r : Nat) (h : r ≤ k) : (leftCols V r h)ᵀ * leftCols V r h = 1 := by
  ext i j
  have := congrFun (congrFun hV (Fin.castLE h i)) (Fin.castLE h j)
  rw [Matrix.mul_apply] at this
  rw [Matrix.mul_apply]
  simp only [Matrix.transpose_apply, leftCols] at this ⊢
  rw [this, Matrix.one_apply, Matrix.one_apply]
  simp [Fin.ext_iff]

theorem truncated_rows_linearIndependent {n k : Nat} (S : Fin k → K)
    (V : Matrix (Fin n) (Fin k) K) (hV : Vᵀ * V = 1) (r : Nat) (h : r ≤ k)
    (hS : ∀ i : Fin k, i.1 < r → S i ≠ 0) :
    LinearIndependent K (fun i => (Matrix.diagonal (segment S r h) * (leftCols V r h)ᵀ) i) := by
  rw [Fintype.linearIndependent_iff]
  intro g hg c
  have hmul : (Matrix.diagonal (segment S r h) * (leftCols V r h)ᵀ) * leftCols V r h
      = Matrix.diagonal (segment S r h) := by
    rw [Matrix.mul_assoc, leftCols_orthonormal V hV, Matrix.mul_one]
  have hvec : g ᵥ* (Matrix.diagonal (segment S r h) * (leftCols V r h)ᵀ) = 0 := by
    funext j
    have := congrFun hg j
    simpa [Matrix.vecMul, Matrix.dotProduct, Finset.sum_apply] using this
  have h2 : g ᵥ* Matrix.diagonal (segment S r h) = 0 := by
    rw [← hmul, ← Matrix.vecMul_vecMul, hvec, Matrix.zero_vecMul]
  have h3 := congrFun h2 c
  rw [Matrix.vecMul_diagonal] at h3
  have hne : segment S r h c ≠ 0 := hS _ c.2
  simpa [hne] using h3

theorem reduceConstraints_rows_spec {m n : Nat}
    (svd : Matrix (Fin m) (Fin n) K → JacobiSVD K m n)
    (A : Matrix (Fin m) (Fin n) K) (b : Fin m → K) (tolerance : K) (hm : 0 < m) :
    (OneLevelSolver.reduceConstraints svd A b tolerance).rows ≤ min m n
      ∧ (∀ i : Fin (min m n), i.1 < (OneLevelSolver.reduceConstraints svd A b tolerance).rows →
          tolerance < (svd A).singularValues i)
      ∧ (∀ i : Fin (min m n), i.1 = (OneLevelSolver.reduceConstraints svd A b tolerance).rows →
          (svd A).singularValues i ≤ tolerance) := by
  rw [reduceConstraints_pos svd A b tolerance hm]
  obtain ⟨_, h2, h3⟩ :=
    rankLoop_spec (svd A).singularValues tolerance (min m n) 0 (Nat.zero_le _) (by omega)
  exact ⟨(rankLoop (svd A).singularValues tolerance (min m n) 0 (Nat.zero_le _)).2,
    fun i hi => h2 i (Nat.zero_le _) hi, h3⟩

theorem reduceConstraints_system_iff {m n : Nat}
    (svd : Matrix (Fin m) (Fin n) K → JacobiSVD K m n)
    (A : Matrix (Fin m) (Fin n) K) (b : Fin m → K) (tolerance : K) (hm : 0 < m)
    (x : Fin n → K) :
    (OneLevelSolver.reduceConstraints svd A b tolerance).Ar *ᵥ x
        = (OneLevelSolver.reduceConstraints svd A b tolerance).br
      ↔ ∀ i : Fin (min m n), i.1 < (OneLevelSolver.reduceConstraints svd A b tolerance).rows →
          ((Matrix.diagonal (svd A).singularValues * (svd A).matrixVᵀ) *ᵥ x) i
            = ((svd A).matrixUᵀ *ᵥ b) i := by
  rw [reduceConstraints_pos svd A b tolerance hm]
  exact truncated_system_iff _ _ _ _ _ b x

theorem reduceConstraints_rows_independent {m n : Nat}
    (svd : Matrix (Fin m) (Fin n) K → JacobiSVD K m n)
    (A : Matrix (Fin m) (Fin n) K) (b : Fin m → K) (tolerance : K) (hm : 0 < m)
    (htol : 0 ≤ tolerance) (hV : (svd A).matrixVᵀ * (svd A).matrixV = 1) :
    LinearIndependent K (fun i => (OneLevelSolver.reduceConstraints svd A b tolerance).Ar i) := by
  have hspec := (reduceConstraints_rows_spec svd A b tolerance hm).2.1
  rw [reduceConstraints_pos svd A b tolerance hm] at hspec ⊢
  exact truncated_rows_linearIndependent _ _ hV _ _
    (fun i hi => ne_of_gt (lt_of_le_of_lt htol (hspec i hi)))

theorem reduceConstraints_no_row {n : Nat}
    (svd : Matrix (Fin 0) (Fin n) K → JacobiSVD K 0 n)
    (A : Matrix (Fin 0) (Fin n) K) (b : Fin 0 → K) (tolerance : K) :
    OneLevelSolver.reduceConstraints svd A b tolerance = { rows := 0, Ar := A, br := b } :=
  rfl

/-- C3: with at least one row and singular values in non-increasing order,
`reduceConstraints` keeps `r` rows, `r` being the number of singular values
strictly above the tolerance (the loop stops at the first value not above it),
and returns `Ar = diag(S[0..r)) V[:,0..r)ᵀ` and `br = U[:,0..r)ᵀ b`. -/
theorem reduceConstraints_truncates_svd {m n : Nat}
    (svd : Matrix (Fin m) (Fin n) K → JacobiSVD K m n)
    (A : Matrix (Fin m) (Fin n) K) (b : Fin m → K) (tolerance : K) (hm : 0 < m)
    (hsorted : ∀ i j, i ≤ j → (svd A).singularValues j ≤ (svd A).singularValues i) :
    (OneLevelSolver.reduceConstraints svd A b tolerance).rows
        = (Finset.univ.filter (fun i => tolerance < (svd A).singularValues i)).card
      ∧ (∀ i : Fin (min m n), i.1 = (OneLevelSolver.reduceConstraints svd A b tolerance).rows →
          (svd A).singularValues i ≤ tolerance)
      ∧ ∃ hr : (OneLevelSolver.reduceConstraints svd A b tolerance).rows ≤ min m n,
          (∀ i j, (OneLevelSolver.reduceConstraints svd A b tolerance).Ar i j
              = (svd A).singularValues (Fin.castLE hr i) * (svd A).matrixV j (Fin.castLE hr i))
          ∧ (∀ i, (OneLevelSolver.reduceConstraints svd A b tolerance).br i
              = ∑ l, (svd A).matrixU l (Fin.castLE hr i) * b l) := by
  obtain ⟨h1, h2, h3⟩ := reduceConstraints_rows_spec svd A b tolerance hm
  refine ⟨(card_above_of_sorted _ tolerance _ h1 h2 h3 hsorted).symm, h3, ?_⟩
  rw [reduceConstraints_pos svd A b tolerance hm]
  exact ⟨(rankLoop (svd A).singularValues tolerance (min m n) 0 (Nat.zero_le _)).2,
    fun i j => truncated_apply _ _ _ _ i j, fun i => rfl⟩

/-- C4: a system without rows is handed back unchanged, whatever the number of
columns, the right-hand side and the tolerance. -/
theorem reduceConstraints_zero_rows {n : Nat}
    (svd : Matrix (Fin 0) (Fin n) K → JacobiSVD K 0 n)
    (A : Matrix (Fin 0) (Fin n) K) (b : Fin 0 → K) (tolerance : K) :
    OneLevelSolver.reduceConstraints svd A b tolerance = { rows := 0, Ar := A, br := b } :=
  rfl

/-- C5: with an exact thin decomposition and a non-negative tolerance, `Ar` has
at most `rank A` rows and its rows are linearly independent. -/
theorem reduceConstraints_full_row_rank {m n : Nat}
    (svd : Matrix (Fin m) (Fin n) K → JacobiSVD K m n)
    (A : Matrix (Fin m) (Fin n) K) (b : Fin m → K) (tolerance : K)
    (htol : 0 ≤ tolerance) (hsvd : (svd A).IsThin A) :
    (OneLevelSolver.reduceConstraints svd A b tolerance).rows ≤ A.rank
      ∧ LinearIndependent K
          (fun i => (OneLevelSolver.reduceConstraints svd A b tolerance).Ar i) := by
  by_cases hm : 0 < m
  · refine ⟨?_, reduceConstraints_rows_independent svd A b tolerance hm htol hsvd.orthoV⟩
    obtain ⟨h1, h2, h3⟩ := reduceConstraints_rows_spec svd A b tolerance hm
    rw [rank_eq_card_singularValues_ne_zero hsvd.factor hsvd.orthoU hsvd.orthoV,
      ← card_above_of_sorted _ tolerance _ h1 h2 h3 hsvd.sorted]
    refine Finset.card_le_card (fun i hi => ?_)
    simp only [Finset.mem_filter, Finset.mem_univ, true_and] at hi ⊢
    exact ne_of_gt (lt_of_le_of_lt htol hi)
  · have h0 : m = 0 := by omega
    subst h0
    rw [reduceConstraints_no_row]
    exact ⟨Nat.zero_le _, linearIndependent_empty_type⟩

/-- Core of the rank reduction: with an exact thin decomposition and a tolerance
in `[0, smallest non-zero singular value)`, the number of rows kept is the number
of non-zero singular values, every solution of `A x = b` solves the reduced
system, and for a solvable system every solution of the reduced one solves it. -/
theorem reduceConstraints_core {m n : Nat}
    (svd : Matrix (Fin m) (Fin n) K → JacobiSVD K m n)
    (A : Matrix (Fin m) (Fin n) K) (b : Fin m → K) (tolerance : K)
    (hsvd : (svd A).IsThin A) (htol : 0 ≤ tolerance)
    (hgap : ∀ i, (svd A).singularValues i ≠ 0 → tolerance < (svd A).singularValues i) :
    (OneLevelSolver.reduceConstraints svd A b tolerance).rows
        = (Finset.univ.filter (fun i => (svd A).singularValues i ≠ 0)).card
      ∧ (∀ x, A *ᵥ x = b →
          (OneLevelSolver.reduceConstraints svd A b tolerance).Ar *ᵥ x
            = (OneLevelSolver.reduceConstraints svd A b tolerance).br)
      ∧ ((∃ y, A *ᵥ y = b) → ∀ x,
          (OneLevelSolver.reduceConstraints svd A b tolerance).Ar *ᵥ x
            = (OneLevelSolver.reduceConstraints svd A b tolerance).br → A *ᵥ x = b) := by
  by_cases hm : 0 < m
  · obtain ⟨h1, h2, h3⟩ := reduceConstraints_rows_spec svd A b tolerance hm
    refine ⟨?_, fun x hx => ?_, fun ⟨y, hy⟩ x hx => ?_⟩
    · rw [← card_above_of_sorted _ tolerance _ h1 h2 h3 hsvd.sorted]
      congr 1
      ext i
      simp only [Finset.mem_filter, Finset.mem_univ, true_and]
      exact ⟨fun hi => ne_of_gt (lt_of_le_of_lt htol hi), hgap i⟩
    · rw [reduceConstraints_system_iff svd A b tolerance hm]
      intro i _
      rw [full_system_of_solution hsvd.factor hsvd.orthoU b x hx]
    · rw [reduceConstraints_system_iff svd A b tolerance hm] at hx
      exact solution_of_truncated hsvd.factor hsvd.orthoU _
        (tail_zero_of_sorted _ tolerance _ h3 hsvd.sorted hgap) b y hy x hx
  · have h0 : m = 0 := by omega
    subst h0
    rw [reduceConstraints_no_row]
    refine ⟨?_, fun x hx => hx, fun _ x hx => hx⟩
    symm
    rw [Finset.card_eq_zero, Finset.filter_eq_empty_iff]
    intro i
    exact absurd i.2 (by simp)

/-- C2 (amended): with an exact thin decomposition and a tolerance in
`[0, smallest non-zero singular value)`, `Ar` has exactly `rank A` rows (also
when `rank A < rows A`), every solution of `A x = b` solves `Ar x = br`, and
when `A x = b` has a solution at all the two systems have the same solutions. -/
theorem reduceConstraints_equivalent_of_consistent {m n : Nat}
    (svd : Matrix (Fin m) (Fin n) K → JacobiSVD K m n)
    (A : Matrix (Fin m) (Fin n) K) (b : Fin m → K) (tolerance : K)
    (hsvd : (svd A).IsThin A) (htol : 0 ≤ tolerance)
    (hgap : ∀ i, (svd A).singularValues i ≠ 0 → tolerance < (svd A).singularValues i) :
    (OneLevelSolver.reduceConstraints svd A b tolerance).rows = A.rank
      ∧ (∀ x, A *ᵥ x = b →
          (OneLevelSolver.reduceConstraints svd A b tolerance).Ar *ᵥ x
            = (OneLevelSolver.reduceConstraints svd A b tolerance).br)
      ∧ ((∃ y, A *ᵥ y = b) → ∀ x,
          (A *ᵥ x = b ↔
            (OneLevelSolver.reduceConstraints svd A b tolerance).Ar *ᵥ x
              = (OneLevelSolver.reduceConstraints svd A b tolerance).br)) := by
  obtain ⟨h1, h2, h3⟩ := reduceConstraints_core svd A b tolerance hsvd htol hgap
  refine ⟨?_, h2, fun hy x => ⟨h2 x, h3 hy x⟩⟩
  rw [h1, rank_eq_card_singularValues_ne_zero hsvd.factor hsvd.orthoU hsvd.orthoV]

/-- C2, counterexample: for `A = [[1],[0]]` (rank `1`, two rows), `b = (0, 1)`,
the exact thin decomposition `U = [[1],[0]]`, `S = (1)`, `V = [[1]]` and
tolerance `0`, the reduced system is `1 · x = 0`; it holds at `x = 0` while
`A x = b` has no solution, so the two systems are not equivalent. -/
theorem reduceConstraints_inconsistent_counterexample :
    (⟨![1], !![1; 0], !![1]⟩ : JacobiSVD ℝ 2 1).IsThin !![1; 0]
      ∧ (!![1; 0] : Matrix (Fin 2) (Fin 1) ℝ).rank = 1
      ∧ (∀ i, (⟨![1], !![1; 0], !![1]⟩ : JacobiSVD ℝ 2 1).singularValues i ≠ 0 →
          (0 : ℝ) < (⟨![1], !![1; 0], !![1]⟩ : JacobiSVD ℝ 2 1).singularValues i)
      ∧ ¬ ((OneLevelSolver.reduceConstraints (fun _ => (⟨![1], !![1; 0], !![1]⟩ : JacobiSVD ℝ 2 1))
              !![1; 0] ![0, 1] 0).rows = (!![1; 0] : Matrix (Fin 2) (Fin 1) ℝ).rank
            ∧ ∀ x : Fin 1 → ℝ,
              ((!![1; 0] : Matrix (Fin 2) (Fin 1) ℝ) *ᵥ x = ![0, 1] ↔
                (OneLevelSolver.reduceConstraints
                    (fun _ => (⟨![1], !![1; 0], !![1]⟩ : JacobiSVD ℝ 2 1))
                    !![1; 0] ![0, 1] 0).Ar *ᵥ x
                  = (OneLevelSolver.reduceConstraints
                    (fun _ => (⟨![1], !![1; 0], !![1]⟩ : JacobiSVD ℝ 2 1))
                    !![1; 0] ![0, 1] 0).br)) := by
  have hthin : (⟨![1], !![1; 0], !![1]⟩ : JacobiSVD ℝ 2 1).IsThin !![1; 0] := by
    refine ⟨?_, ?_, ?_, ?_, ?_⟩
    · show (!![1; 0] : Matrix (Fin 2) (Fin 1) ℝ)
        = (!![1; 0] : Matrix (Fin 2) (Fin 1) ℝ) * Matrix.diagonal (![1] : Fin 1 → ℝ)
          * (!![1] : Matrix (Fin 1) (Fin 1) ℝ)ᵀ
      ext i j
      fin_cases i <;> fin_cases j <;> simp [Matrix.mul_apply, Matrix.vecMul_diagonal]
    · ext i j
      fin_cases i; fin_cases j
      simp [Matrix.mul_apply, Fin.sum_univ_two]
    · ext i j
      fin_cases i; fin_cases j
      simp [Matrix.mul_apply]
    · intro i; fin_cases i; simp
    · intro i j _; fin_cases i; fin_cases j; simp
  have hgap : ∀ i, (⟨![1], !![1; 0], !![1]⟩ : JacobiSVD ℝ 2 1).singularValues i ≠ 0 →
      (0 : ℝ) < (⟨![1], !![1; 0], !![1]⟩ : JacobiSVD ℝ 2 1).singularValues i := by
    intro i _; fin_cases i; simp
  refine ⟨hthin, ?_, hgap, ?_⟩
  · rw [rank_eq_card_singularValues_ne_zero hthin.factor hthin.orthoU hthin.orthoV]
    show (Finset.univ.filter (fun i : Fin 1 => (![1] : Fin 1 → ℝ) i ≠ 0)).card = 1
    rw [Finset.filter_true_of_mem (by intro i _; fin_cases i; simp)]
    rfl
  · rintro ⟨-, h⟩
    have h0 := (h 0).mpr
    rw [reduceConstraints_system_iff _ _ _ _ (by decide)] at h0
    have hA : (!![1; 0] : Matrix (Fin 2) (Fin 1) ℝ) *ᵥ 0 = ![0, 1] := by
      apply h0
      intro i _
      fin_cases i
      simp [Matrix.mulVec, Matrix.dotProduct, Fin.sum_univ_two]
    have := congrFun hA 1
    simp at this

theorem sum_mul_self_singularValues {K : Type} [LinearOrderedField K] {m n : Nat}
    {A : Matrix (Fin m) (Fin n) K} {svd : JacobiSVD K m n}
    (hA : A = svd.matrixU * Matrix.diagonal svd.singularValues * svd.matrixVᵀ)
    (hU : svd.matrixUᵀ * svd.matrixU = 1) (hV : svd.matrixVᵀ * svd.matrixV = 1) :
    ∑ i, svd.singularValues i * svd.singularValues i = Matrix.trace (Aᵀ * A) := by
  have h1 : Aᵀ * A = svd.matrixV
      * (Matrix.diagonal (fun i => svd.singularValues i * svd.singularValues i)
        * svd.matrixVᵀ) := by
    rw [← Matrix.diagonal_mul_diagonal]
    conv_lhs => rw [hA]
    simp only [Matrix.transpose_mul, Matrix.transpose_transpose, Matrix.diagonal_transpose]
    calc svd.matrixV * (Matrix.diagonal svd.singularValues * svd.matrixUᵀ)
          * (svd.matrixU * Matrix.diagonal svd.singularValues * svd.matrixVᵀ)
        = svd.matrixV * (Matrix.diagonal svd.singularValues
            * ((svd.matrixUᵀ * svd.matrixU) * (Matrix.diagonal svd.singularValues
              * svd.matrixVᵀ))) := by
          simp only [Matrix.mul_assoc]
      _ = _ := by rw [hU, Matrix.one_mul, Matrix.mul_assoc]
  rw [h1, Matrix.trace_mul_comm, Matrix.mul_assoc, hV, Matrix.mul_one, Matrix.trace_diagonal]

/-- C6: for the stacked system `[[1,0],[1,0]] x = [1,1]`, an exact thin
decomposition and a tolerance in `[0, √2)`, the reduced system has exactly one
row and holds at `x` iff `x₀ = 1`. -/
theorem reduceConstraints_stacked_identical_rows
    (svd : Matrix (Fin 2) (Fin 2) ℝ → JacobiSVD ℝ 2 2) (tolerance : ℝ)
    (hsvd : (svd !![1, 0; 1, 0]).IsThin !![1, 0; 1, 0])
    (h0 : 0 ≤ tolerance) (h1 : tolerance < Real.sqrt 2) :
    (OneLevelSolver.reduceConstraints svd !![1, 0; 1, 0] ![1, 1] tolerance).rows = 1
      ∧ ∀ x : Fin 2 → ℝ,
          ((OneLevelSolver.reduceConstraints svd !![1, 0; 1, 0] ![1, 1] tolerance).Ar *ᵥ x
              = (OneLevelSolver.reduceConstraints svd !![1, 0; 1, 0] ![1, 1] tolerance).br
            ↔ x 0 = 1) := by
  have hrank : (!![1, 0; 1, 0] : Matrix (Fin 2) (Fin 2) ℝ).rank ≤ 1 := by
    have hprod : (!![1, 0; 1, 0] : Matrix (Fin 2) (Fin 2) ℝ)
        = (!![1; 1] : Matrix (Fin 2) (Fin 1) ℝ) * (!![1, 0] : Matrix (Fin 1) (Fin 2) ℝ) := by
      ext i j
      fin_cases i <;> fin_cases j <;> simp [Matrix.mul_apply]
    rw [hprod]
    exact (Matrix.rank_mul_le_left _ _).trans (Matrix.rank_le_width _)
  have hcard := rank_eq_card_singularValues_ne_zero hsvd.factor hsvd.orthoU hsvd.orthoV
  rw [hcard] at hrank
  have htrace : ∑ i, (svd !![1, 0; 1, 0]).singularValues i
      * (svd !![1, 0; 1, 0]).singularValues i = 2 := by
    rw [sum_mul_self_singularValues hsvd.factor hsvd.orthoU hsvd.orthoV]
    simp only [Matrix.trace_fin_two, Matrix.mul_apply, Fin.sum_univ_two, Matrix.transpose_apply]
    norm_num
  have hsingle : ∀ i, (svd !![1, 0; 1, 0]).singularValues i ≠ 0 →
      (svd !![1, 0; 1, 0]).singularValues i = Real.sqrt 2 := by
    intro i hi
    have hothers : ∀ j ∈ Finset.univ, j ≠ i →
        (svd !![1, 0; 1, 0]).singularValues j * (svd !![1, 0; 1, 0]).singularValues j = 0 := by
      intro j _ hji
      by_contra hne
      have hj : (svd !![1, 0; 1, 0]).singularValues j ≠ 0 := fun h => hne (by rw [h, zero_mul])
      exact hji (Finset.card_le_one.mp hrank j (by simp [hj]) i (by simp [hi]))
    rw [Finset.sum_eq_single i hothers (fun h => absurd (Finset.mem_univ i) h)] at htrace
    exact ((Real.sqrt_eq_iff_mul_self_eq (by norm_num) (hsvd.nonneg i)).mpr htrace.symm).symm
  have hgap : ∀ i, (svd !![1, 0; 1, 0]).singularValues i ≠ 0 →
      tolerance < (svd !![1, 0; 1, 0]).singularValues i := by
    intro i hi
    rw [hsingle i hi]; exact h1
  obtain ⟨c1, c2, c3⟩ := reduceConstraints_core svd !![1, 0; 1, 0] ![1, 1] tolerance hsvd h0 hgap
  have hAx : ∀ x : Fin 2 → ℝ,
      ((!![1, 0; 1, 0] : Matrix (Fin 2) (Fin 2) ℝ) *ᵥ x = ![1, 1] ↔ x 0 = 1) := by
    intro x
    constructor
    · intro h
      have := congrFun h 0
      simpa [Matrix.mulVec, Matrix.dotProduct, Fin.sum_univ_two] using this
    · intro h
      funext i
      fin_cases i <;> simp [Matrix.mulVec, Matrix.dotProduct, Fin.sum_univ_two, h]
  refine ⟨?_, fun x => ⟨fun h => (hAx x).mp (c3 ⟨![1, 0], (hAx _).mpr rfl⟩ x h),
    fun h => c2 x ((hAx x).mpr h)⟩⟩
  rw [c1]
  refine le_antisymm hrank ?_
  rw [Nat.succ_le_iff, Finset.card_pos]
  by_contra hempty
  rw [Finset.not_nonempty_iff_eq_empty, Finset.filter_eq_empty_iff] at hempty
  have : ∑ i, (svd !![1, 0; 1, 0]).singularValues i
      * (svd !![1, 0; 1, 0]).singularValues i = 0 := by
    refine Finset.sum_eq_zero (fun i hi => ?_)
    have := hempty hi
    simp only [ne_eq, not_not] at this
    rw [this, zero_mul]
  rw [this] at htrace
  norm_num at htrace

/-- The sample decomposition is an exact thin decomposition of the sample matrix. -/
theorem sampleSVD_isThin : sampleSVD.IsThin sampleA := by
  refine ⟨?_, ?_, ?_, by decide, by decide⟩
  · show (!![0, 3; 0, 0] : Matrix (Fin 2) (Fin 2) ℚ)
      = (!![1, 0; 0, 1] : Matrix (Fin 2) (Fin 2) ℚ) * Matrix.diagonal (![3, 0] : Fin 2 → ℚ)
        * (!![0, 1; 1, 0] : Matrix (Fin 2) (Fin 2) ℚ)ᵀ
    ext i j
    fin_cases i <;> fin_cases j <;>
      simp only [Matrix.mul_apply, Matrix.transpose_apply, Fin.sum_univ_two, Matrix.diagonal_apply] <;>
      norm_num
  · show (!![1, 0; 0, 1] : Matrix (Fin 2) (Fin 2) ℚ)ᵀ * !![1, 0; 0, 1] = 1
    ext i j
    fin_cases i <;> fin_cases j <;>
      simp only [Matrix.mul_apply, Matrix.transpose_apply, Fin.sum_univ_two] <;>
      norm_num
  · show (!![0, 1; 1, 0] : Matrix (Fin 2) (Fin 2) ℚ)ᵀ * !![0, 1; 1, 0] = 1
    ext i j
    fin_cases i <;> fin_cases j <;>
      simp only [Matrix.mul_apply, Matrix.transpose_apply, Fin.sum_univ_two] <;>
      norm_num

/-- C2 (amended), evaluated on the sample system with right-hand side `(3, 0)`
and tolerance `1`. -/
theorem reduceConstraints_equivalent_of_consistent_witness :
    sampleSVD.IsThin sampleA ∧ (0 : ℚ) ≤ 1
      ∧ (∀ i, sampleSVD.singularValues i ≠ 0 → 1 < sampleSVD.singularValues i)
      ∧ (OneLevelSolver.reduceConstraints (fun _ => sampleSVD) sampleA ![3, 0] 1).rows
          = sampleA.rank
      ∧ (∀ x, sampleA *ᵥ x = ![3, 0] →
          (OneLevelSolver.reduceConstraints (fun _ => sampleSVD) sampleA ![3, 0] 1).Ar *ᵥ x
            = (OneLevelSolver.reduceConstraints (fun _ => sampleSVD) sampleA ![3, 0] 1).br)
      ∧ ((∃ y, sampleA *ᵥ y = ![3, 0]) → ∀ x,
          (sampleA *ᵥ x = ![3, 0] ↔
            (OneLevelSolver.reduceConstraints (fun _ => sampleSVD) sampleA ![3, 0] 1).Ar *ᵥ x
              = (OneLevelSolver.reduceConstraints (fun _ => sampleSVD) sampleA ![3, 0] 1).br)) :=
  ⟨sampleSVD_isThin, by decide, by decide,
    reduceConstraints_equivalent_of_consistent (fun _ => sampleSVD) sampleA ![3, 0] 1
      sampleSVD_isThin (by decide) (by decide)⟩

/-- C3, evaluated on the sample system with right-hand side `(5, 7)` and tolerance `1`. -/
theorem reduceConstraints_truncates_svd_witness :
    0 < 2 ∧ (∀ i j, i ≤ j → sampleSVD.singularValues j ≤ sampleSVD.singularValues i)
      ∧ (OneLevelSolver.reduceConstraints (fun _ => sampleSVD) sampleA ![5, 7] 1).rows
        = (Finset.univ.filter (fun i => 1 < sampleSVD.singularValues i)).card
      ∧ (∀ i : Fin (min 2 2),
          i.1 = (OneLevelSolver.reduceConstraints (fun _ => sampleSVD) sampleA ![5, 7] 1).rows →
          sampleSVD.singularValues i ≤ 1)
      ∧ ∃ hr : (OneLevelSolver.reduceConstraints (fun _ => sampleSVD) sampleA ![5, 7] 1).rows
            ≤ min 2 2,
          (∀ i j, (OneLevelSolver.reduceConstraints (fun _ => sampleSVD) sampleA ![5, 7] 1).Ar i j
              = sampleSVD.singularValues (Fin.castLE hr i)
                * sampleSVD.matrixV j (Fin.castLE hr i))
          ∧ (∀ i, (OneLevelSolver.reduceConstraints (fun _ => sampleSVD) sampleA ![5, 7] 1).br i
              = ∑ l, sampleSVD.matrixU l (Fin.castLE hr i) * (![5, 7] : Fin 2 → ℚ) l) :=
  ⟨by decide, by decide,
    reduceConstraints_truncates_svd (fun _ => sampleSVD) sampleA ![5, 7] 1 (by decide)
      (by decide)⟩

/-- C5, evaluated on the sample system with right-hand side `(5, 7)` and tolerance `1`. -/
theorem reduceConstraints_full_row_rank_witness :
    (0 : ℚ) ≤ 1 ∧ sampleSVD.IsThin sampleA
      ∧ (OneLevelSolver.reduceConstraints (fun _ => sampleSVD) sampleA ![5, 7] 1).rows
          ≤ sampleA.rank
      ∧ LinearIndependent ℚ
          (fun i => (OneLevelSolver.reduceConstraints (fun _ => sampleSVD) sampleA ![5, 7] 1).Ar i) :=
  ⟨by decide, sampleSVD_isThin,
    reduceConstraints_full_row_rank (fun _ => sampleSVD) sampleA ![5, 7] 1 (by decide)
      sampleSVD_isThin⟩

/-- C6, evaluated at tolerance `1` with the decomposition
`U = (√2/2) [[1, 1], [1, -1]]`, `S = (√2, 0)`, `V = 1`. -/
theorem reduceConstraints_stacked_identical_rows_witness :
    (⟨![Real.sqrt 2, 0],
        !![Real.sqrt 2 / 2, Real.sqrt 2 / 2; Real.sqrt 2 / 2, -(Real.sqrt 2 / 2)],
        !![1, 0; 0, 1]⟩ : JacobiSVD ℝ 2 2).IsThin !![1, 0; 1, 0]
      ∧ (0 : ℝ) ≤ 1 ∧ (1 : ℝ) < Real.sqrt 2
      ∧ (OneLevelSolver.reduceConstraints
          (fun _ => (⟨![Real.sqrt 2, 0],
            !![Real.sqrt 2 / 2, Real.sqrt 2 / 2; Real.sqrt 2 / 2, -(Real.sqrt 2 / 2)],
            !![1, 0; 0, 1]⟩ : JacobiSVD ℝ 2 2))
          !![1, 0; 1, 0] ![1, 1] 1).rows = 1
      ∧ ∀ x : Fin 2 → ℝ,
          ((OneLevelSolver.reduceConstraints
              (fun _ => (⟨![Real.sqrt 2, 0],
                !![Real.sqrt 2 / 2, Real.sqrt 2 / 2; Real.sqrt 2 / 2, -(Real.sqrt 2 / 2)],
                !![1, 0; 0, 1]⟩ : JacobiSVD ℝ 2 2))
              !![1, 0; 1, 0] ![1, 1] 1).Ar *ᵥ x
            = (OneLevelSolver.reduceConstraints
              (fun _ => (⟨![Real.sqrt 2, 0],
                !![Real.sqrt 2 / 2, Real.sqrt 2 / 2; Real.sqrt 2 / 2, -(Real.sqrt 2 / 2)],
                !![1, 0; 0, 1]⟩ : JacobiSVD ℝ 2 2))
              !![1, 0; 1, 0] ![1, 1] 1).br
            ↔ x 0 = 1) := by
  have hs : Real.sqrt 2 * Real.sqrt 2 = 2 := Real.mul_self_sqrt (by norm_num)
  have h1 : (1 : ℝ) < Real.sqrt 2 := by
    rw [Real.lt_sqrt (by norm_num)]; norm_num
  have hthin : (⟨![Real.sqrt 2, 0],
        !![Real.sqrt 2 / 2, Real.sqrt 2 / 2; Real.sqrt 2 / 2, -(Real.sqrt 2 / 2)],
        !![1, 0; 0, 1]⟩ : JacobiSVD ℝ 2 2).IsThin !![1, 0; 1, 0] := by
    refine ⟨?_, ?_, ?_, ?_, ?_⟩
    · show (!![1, 0; 1, 0] : Matrix (Fin 2) (Fin 2) ℝ)
        = (!![Real.sqrt 2 / 2, Real.sqrt 2 / 2; Real.sqrt 2 / 2, -(Real.sqrt 2 / 2)] :
            Matrix (Fin 2) (Fin 2) ℝ) * Matrix.diagonal (![Real.sqrt 2, 0] : Fin 2 → ℝ)
          * (!![1, 0; 0, 1] : Matrix (Fin 2) (Fin 2) ℝ)ᵀ
      ext i j
      fin_cases i <;> fin_cases j <;>
        simp only [Matrix.mul_apply, Matrix.transpose_apply, Fin.sum_univ_two,
          Matrix.diagonal_apply] <;>
        norm_num <;> linarith
    · show (!![Real.sqrt 2 / 2, Real.sqrt 2 / 2; Real.sqrt 2 / 2, -(Real.sqrt 2 / 2)] :
          Matrix (Fin 2) (Fin 2) ℝ)ᵀ
          * !![Real.sqrt 2 / 2, Real.sqrt 2 / 2; Real.sqrt 2 / 2, -(Real.sqrt 2 / 2)] = 1
      ext i j
      fin_cases i <;> fin_cases j <;>
        simp only [Matrix.mul_apply, Matrix.transpose_apply, Fin.sum_univ_two] <;>
        norm_num <;> linarith
    · show (!![1, 0; 0, 1] : Matrix (Fin 2) (Fin 2) ℝ)ᵀ * !![1, 0; 0, 1] = 1
      ext i j
      fin_cases i <;> fin_cases j <;>
        simp only [Matrix.mul_apply, Matrix.transpose_apply, Fin.sum_univ_two] <;>
        norm_num
    · intro i
      show 0 ≤ (![Real.sqrt 2, 0] : Fin 2 → ℝ) i
      fin_cases i
      · exact Real.sqrt_nonneg 2
      · exact le_refl _
    · intro i j hij
      show (![Real.sqrt 2, 0] : Fin 2 → ℝ) j ≤ (![Real.sqrt 2, 0] : Fin 2 → ℝ) i
      fin_cases i <;> fin_cases j
      · exact le_refl _
      · exact Real.sqrt_nonneg 2
      · exact absurd hij (by decide)
      · exact le_refl _
  exact ⟨hthin, by norm_num, h1,
    reduceConstraints_stacked_identical_rows _ 1 hthin (by norm_num) h1⟩

/-! ## Per cycle update of a task: the linear model -/

/-- C8: for an Acceleration task connected with the full formalism, `doUpdate`
sets `A = J` and `b = -(errDdot + Kp err + Kd errDot)`; with `J = [1]`,
`Kp = 100`, `Kd = 0`, `err = 1/10` and no velocity or acceleration error this is
`A = [1]`, `b = [-10]`. -/
theorem doUpdate_acceleration_full {dim : Nat} (t : OneLevelTask K dim)
    (f : LinearFunction K dim) (sig : TaskSignals K dim)
    (t1 : OneLevelTask K 1) (f1 : LinearFunction K 1) (sig1 : TaskSignals K 1) :
    OneLevelTask.doUpdate
        { t with taskType := TYPETASK.ACCELERATIONTASK, useReducedProblem := false,
                 innerObjectiveFunction := some f } sig
      = Except.ok
        { t with taskType := TYPETASK.ACCELERATIONTASK, useReducedProblem := false,
                 innerObjectiveFunction := some
                  { size := sig.nDofs
                    A := sig.jacobian
                    b := -(sig.errorDdot + sig.stiffness *ᵥ sig.error
                          + sig.damping *ᵥ sig.errorDot) } }
    ∧ OneLevelTask.doUpdate
        { t1 with taskType := TYPETASK.ACCELERATIONTASK, useReducedProblem := false,
                  innerObjectiveFunction := some f1 }
        { sig1 with nDofs := 1, jacobian := !![1], stiffness := !![100], damping := !![0],
                    error := ![1 / 10], errorDot := ![0], errorDdot := ![0],
                    comAngularJacobian := 0, inertiaMatrixInverseJchiT := 0,
                    inertiaMatrixInverseLinNonLinGrav := 0 }
      = Except.ok
        { t1 with taskType := TYPETASK.ACCELERATIONTASK, useReducedProblem := false,
                  innerObjectiveFunction := some { size := 1, A := !![1], b := ![-10] } } := by
  refine ⟨rfl, ?_⟩
  show Except.ok _ = Except.ok _
  congr 3
  simp only [LinearFunction.changeb, LinearFunction.changeA]
  congr 1
  funext i
  fin_cases i
  simp only [Pi.neg_apply, Pi.add_apply, Matrix.mulVec, Matrix.dotProduct, Fin.sum_univ_one]
  norm_num

/-- C9: for an Acceleration task connected with the reduced formalism, `doUpdate`
sets `A = -J (M⁻¹ J_actionᵀ)` and `b = accDes + J (M⁻¹ (lin + nonlin + grav))`
with `accDes = -(errDdot + Kp err + Kd errDot)`, the two inertia products being
the values handed over by the dynamic equation. -/
theorem doUpdate_acceleration_reduced {dim : Nat} (t : OneLevelTask K dim)
    (f : LinearFunction K dim) (sig : TaskSignals K dim) :
    OneLevelTask.doUpdate
        { t with taskType := TYPETASK.ACCELERATIONTASK, useReducedProblem := true,
                 innerObjectiveFunction := some f } sig
      = Except.ok
        { t with taskType := TYPETASK.ACCELERATIONTASK, useReducedProblem := true,
                 innerObjectiveFunction := some
                  { size := sig.nChi
                    A := -sig.jacobian * sig.inertiaMatrixInverseJchiT
                    b := -(sig.errorDdot + sig.stiffness *ᵥ sig.error
                            + sig.damping *ᵥ sig.errorDot)
                          + sig.jacobian *ᵥ sig.inertiaMatrixInverseLinNonLinGrav } }
    ∧ -sig.jacobian * sig.inertiaMatrixInverseJchiT
        = -(sig.jacobian * sig.inertiaMatrixInverseJchiT) :=
  ⟨rfl, Matrix.neg_mul _ _⟩

/-- C10: for a CoMMomentum task, `doUpdate` uses the centroidal angular Jacobian
as `J` and `accDes = -Kd ω` with `ω` the angular velocity of the centre of
mass: `A = J`, `b = accDes` in the full formalism, `A = -J (M⁻¹ J_actionᵀ)`,
`b = accDes + J (M⁻¹ (…))` in the reduced one; the outcome does not change with
the stiffness, the error, its rate or its acceleration (nor with the Jacobian
of the task or its effort). -/
theorem doUpdate_comMomentum {dim : Nat} (t : OneLevelTask K dim)
    (f : LinearFunction K dim) (sig : TaskSignals K dim) :
    OneLevelTask.doUpdate
        { t with taskType := TYPETASK.COMMOMENTUMTASK, useReducedProblem := false,
                 innerObjectiveFunction := some f } sig
      = Except.ok
        { t with taskType := TYPETASK.COMMOMENTUMTASK, useReducedProblem := false,
                 innerObjectiveFunction := some
                  { size := sig.nDofs
                    A := sig.comAngularJacobian
                    b := -sig.damping *ᵥ sig.comAngularVelocity } }
    ∧ OneLevelTask.doUpdate
        { t with taskType := TYPETASK.COMMOMENTUMTASK, useReducedProblem := true,
                 innerObjectiveFunction := some f } sig
      = Except.ok
        { t with taskType := TYPETASK.COMMOMENTUMTASK, useReducedProblem := true,
                 innerObjectiveFunction := some
                  { size := sig.nChi
                    A := -sig.comAngularJacobian * sig.inertiaMatrixInverseJchiT
                    b := -sig.damping *ᵥ sig.comAngularVelocity
                          + sig.comAngularJacobian *ᵥ sig.inertiaMatrixInverseLinNonLinGrav } }
    ∧ -sig.damping *ᵥ sig.comAngularVelocity = -(sig.damping *ᵥ sig.comAngularVelocity)
    ∧ ∀ (Kp : Matrix (Fin dim) (Fin dim) K) (err errDot errDdot eff : Fin dim → K)
        (J : Matrix (Fin dim) (Fin sig.nDofs) K),
        OneLevelTask.doUpdate { t with taskType := TYPETASK.COMMOMENTUMTASK }
            { sig with stiffness := Kp, error := err, errorDot := errDot,
                       errorDdot := errDdot, effort := eff, jacobian := J }
          = OneLevelTask.doUpdate { t with taskType := TYPETASK.COMMOMENTUMTASK } sig :=
  ⟨rfl, rfl, Matrix.neg_mulVec _ _, fun _ _ _ _ _ _ => rfl⟩

/-! ## Connection and per cycle update of Torque and Force tasks -/

theorem doUpdate_force_step {dim : Nat} (t : OneLevelTask K dim) (b : Fin dim → K)
    (sig : TaskSignals K dim) :
    OneLevelTask.doUpdate
        { t with taskType := TYPETASK.FORCETASK,
                 innerObjectiveFunction := some { size := dim, A := 1, b := b } } sig
      = Except.ok
        { t with taskType := TYPETASK.FORCETASK,
                 innerObjectiveFunction := some { size := dim, A := 1, b := -sig.effort } } :=
  rfl

theorem doUpdate_force_fold {dim : Nat} (t : OneLevelTask K dim) (b : Fin dim → K)
    (sigs : List (TaskSignals K dim)) :
    sigs.foldlM (fun t sig => OneLevelTask.doUpdate t sig)
        { t with taskType := TYPETASK.FORCETASK,
                 innerObjectiveFunction := some { size := dim, A := 1, b := b } }
      = Except.ok
        { t with taskType := TYPETASK.FORCETASK,
                 innerObjectiveFunction := some
                  { size := dim, A := 1,
                    b := match sigs.getLast? with
                      | none => b
                      | some sig => -sig.effort } } := by
  induction sigs generalizing b with
  | nil => rfl
  | cons sig sigs ih =>
    rw [List.foldlM_cons, doUpdate_force_step]
    show List.foldlM _ _ sigs = _
    rw [ih (-sig.effort)]
    cases sigs with
    | nil => rfl
    | cons sig2 rest =>
      have h2 : (sig :: sig2 :: rest).getLast? = (sig2 :: rest).getLast? :=
        List.getLast?_cons_cons
      obtain ⟨x, hx⟩ : ∃ x, (sig2 :: rest).getLast? = some x :=
        ⟨_, List.getLast?_eq_getLast _ (List.cons_ne_nil _ _)⟩
      rw [h2, hx]

/-- C11: for a Torque task `doUpdate` sets `A = J` and `b = -effort`; a Force
task is connected with `A` the identity of its dimension, and after every
number of successive updates `A` is still that identity while `b` is minus the
effort of the last update (zero when there was none). -/
theorem doUpdate_torque_and_force {dim : Nat} (t : OneLevelTask K dim)
    (f : LinearFunction K dim) (sig : TaskSignals K dim)
    (w : Setup K dim) (solver : Nat) (dynamicEquation : FullDynamicEquationFunction)
    (useReducedProblem : Bool) (sigs : List (TaskSignals K dim)) :
    OneLevelTask.doUpdate
        { t with taskType := TYPETASK.TORQUETASK, innerObjectiveFunction := some f } sig
      = Except.ok
        { t with taskType := TYPETASK.TORQUETASK,
                 innerObjectiveFunction := some
                  { size := sig.nDofs, A := sig.jacobian, b := -sig.effort } }
    ∧ ∃ w1 : Setup K dim,
        Setup.connectToController
            { w with task := { w.task with taskType := TYPETASK.FORCETASK } }
            solver dynamicEquation useReducedProblem = Except.ok w1
        ∧ w1.task.innerObjectiveFunction = some { size := dim, A := 1, b := 0 }
        ∧ sigs.foldlM (fun t sig => OneLevelTask.doUpdate t sig) w1.task
            = Except.ok
              { w1.task with
                innerObjectiveFunction := some
                  { size := dim, A := 1,
                    b := match sigs.getLast? with
                      | none => 0
                      | some sig => -sig.effort } } := by
  refine ⟨rfl, _, rfl, rfl, ?_⟩
  exact doUpdate_force_fold
    (OneLevelTask.setAsForceTask
      { w.task with taskType := TYPETASK.FORCETASK, solver := some solver,
                    dynamicEquation := some dynamicEquation,
                    useReducedProblem := useReducedProblem }) 0 sigs

/-! ## Registration of a task in the solver: helper lemmas -/

theorem Except.ok_bind {ε α β : Type} (a : α) (f : α → Except ε β) :
    (Except.ok a >>= f) = f a := rfl

theorem Except.error_bind {ε α β : Type} (e : ε) (f : α → Except ε β) :
    ((Except.error e : Except ε α) >>= f) = Except.error e := rfl

theorem Except.pure_eq_ok {ε α : Type} (a : α) : (pure a : Except ε α) = Except.ok a := rfl

/-- Outcome of `doActivateAsObjective` on a connected task whose zero-force flag
mirrors the solver. -/
theorem doActivateAsObjective_eq {K : Type} {dim : Nat} (w : Setup K dim) (sv : Nat)
    (f : LinearFunction K dim)
    (hs : w.task.solver = some sv) (hf : w.task.innerObjectiveFunction = some f)
    (hcf : w.task.contactForceConstraintHasBeenSavedInSolver = true →
      dim = 3 ∧ ({ owner := w.task.name, member := ConstraintMember.ContactForceConstraint,
                   serial := 0 } : LinearConstraint) ∈ w.solver.equalityConstraints) :
    w.doActivateAsObjective = Except.ok
      { task := { w.task with
          isRegisteredAsObjective := true
          contactPointHasBeenSavedInModel :=
            if w.task.taskType = TYPETASK.FORCETASK then true
            else w.task.contactPointHasBeenSavedInModel
          contactForceConstraintHasBeenSavedInSolver :=
            if w.task.taskType = TYPETASK.FORCETASK then false
            else w.task.contactForceConstraintHasBeenSavedInSolver }
        solver :=
          { objectives :=
              if w.task.isRegisteredAsObjective then w.solver.objectives
              else w.solver.objectives ++ [{ owner := w.task.name, serial := w.task.serial }]
            equalityConstraints :=
              if w.task.taskType = TYPETASK.FORCETASK
                  ∧ w.task.contactForceConstraintHasBeenSavedInSolver = true then
                w.solver.equalityConstraints.erase
                  { owner := w.task.name, member := ConstraintMember.ContactForceConstraint,
                    serial := 0 }
              else w.solver.equalityConstraints
            inequalityConstraints := w.solver.inequalityConstraints }
        modelContacts :=
          if w.task.taskType = TYPETASK.FORCETASK
              ∧ w.task.contactPointHasBeenSavedInModel = false then
            w.modelContacts ++ [w.task.name]
          else w.modelContacts } := by
  obtain ⟨⟨name, ty, model, solver, dq, red, cf, cp, fr, ro, rc, serial, fn, cone⟩, s, contacts⟩ :=
    w
  obtain ⟨objs, eqs, ineqs⟩ := s
  simp only at hs hf hcf
  subst hs hf
  cases cf
  · cases ty <;> cases ro <;> cases cp <;> rfl
  · obtain ⟨hd, hmem⟩ := hcf rfl
    subst hd
    cases ty <;> cases ro <;> cases cp <;>
      simp only [Setup.doActivateAsObjective, Setup.checkIfConnectedToController,
        Setup.solverAddObjective, Setup.derefSolver, Setup.addContactPointInModel,
        Setup.solverRemoveConstraint, OneLevelTask.innerTaskAsObjective,
        OneLevelTask.ContactForceConstraint, OneLevelSolver.addObjective,
        OneLevelSolver.removeConstraint, LinearConstraint.isEquality,
        Except.ok_bind, Except.error_bind, Except.pure_eq_ok, if_true, if_false,
        Bool.false_eq_true, reduceIte, hmem, reduceCtorEq, and_self, and_true, and_false,
        true_and, false_and]

/-- Outcome of `doActivateAsConstraint` on a connected task whose zero-force
flag mirrors the solver. -/
theorem doActivateAsConstraint_eq {K : Type} {dim : Nat} (w : Setup K dim) (sv : Nat)
    (f : LinearFunction K dim)
    (hs : w.task.solver = some sv) (hf : w.task.innerObjectiveFunction = some f)
    (hcf : w.task.contactForceConstraintHasBeenSavedInSolver = true →
      dim = 3 ∧ ({ owner := w.task.name, member := ConstraintMember.ContactForceConstraint,
                   serial := 0 } : LinearConstraint) ∈ w.solver.equalityConstraints) :
    w.doActivateAsConstraint = Except.ok
      { task := { w.task with
          isRegisteredAsConstraint := true
          contactPointHasBeenSavedInModel :=
            if w.task.taskType = TYPETASK.FORCETASK then true
            else w.task.contactPointHasBeenSavedInModel
          contactForceConstraintHasBeenSavedInSolver :=
            if w.task.taskType = TYPETASK.FORCETASK then false
            else w.task.contactForceConstraintHasBeenSavedInSolver }
        solver :=
          { objectives := w.solver.objectives
            equalityConstraints :=
              if w.task.taskType = TYPETASK.FORCETASK
                  ∧ w.task.contactForceConstraintHasBeenSavedInSolver = true then
                (if w.task.isRegisteredAsConstraint then w.solver.equalityConstraints
                  else w.solver.equalityConstraints
                    ++ [{ owner := w.task.name, member := ConstraintMember.innerTaskAsConstraint,
                          serial := w.task.serial }]).erase
                  { owner := w.task.name, member := ConstraintMember.ContactForceConstraint,
                    serial := 0 }
              else
                (if w.task.isRegisteredAsConstraint then w.solver.equalityConstraints
                  else w.solver.equalityConstraints
                    ++ [{ owner := w.task.name, member := ConstraintMember.innerTaskAsConstraint,
                          serial := w.task.serial }])
            inequalityConstraints := w.solver.inequalityConstraints }
        modelContacts :=
          if w.task.taskType = TYPETASK.FORCETASK
              ∧ w.task.contactPointHasBeenSavedInModel = false then
            w.modelContacts ++ [w.task.name]
          else w.modelContacts } := by
  obtain ⟨⟨name, ty, model, solver, dq, red, cf, cp, fr, ro, rc, serial, fn, cone⟩, s, contacts⟩ :=
    w
  obtain ⟨objs, eqs, ineqs⟩ := s
  simp only at hs hf hcf
  subst hs hf
  cases cf
  · cases ty <;> cases rc <;> cases cp <;> rfl
  · obtain ⟨hd, hmem⟩ := hcf rfl
    subst hd
    have hmem2 : (⟨name, ConstraintMember.ContactForceConstraint, 0⟩ : LinearConstraint)
        ∈ eqs ++ [⟨name, ConstraintMember.innerTaskAsConstraint, serial⟩] :=
      List.mem_append_left _ hmem
    cases ty <;> cases rc <;> cases cp <;>
      simp only [Setup.doActivateAsConstraint, Setup.checkIfConnectedToController,
        Setup.solverAddConstraint, Setup.derefSolver, Setup.addContactPointInModel,
        Setup.solverRemoveConstraint, OneLevelTask.innerTaskAsConstraint,
        OneLevelTask.ContactForceConstraint, OneLevelSolver.addConstraint,
        OneLevelSolver.removeConstraint, LinearConstraint.isEquality,
        Except.ok_bind, Except.error_bind, Except.pure_eq_ok, if_true, if_false,
        Bool.false_eq_true, reduceIte, hmem, hmem2, reduceCtorEq, and_self, and_true,
        and_false, true_and, false_and]

/-- A second `doActivateAsObjective` changes nothing. -/
theorem doActivateAsObjective_noop {K : Type} {dim : Nat} (w : Setup K dim) (sv : Nat)
    (f : LinearFunction K dim)
    (hs : w.task.solver = some sv) (hf : w.task.innerObjectiveFunction = some f)
    (hro : w.task.isRegisteredAsObjective = true)
    (hforce : w.task.taskType = TYPETASK.FORCETASK →
      w.task.contactPointHasBeenSavedInModel = true
        ∧ w.task.contactForceConstraintHasBeenSavedInSolver = false) :
    w.doActivateAsObjective = Except.ok w := by
  obtain ⟨⟨name, ty, model, solver, dq, red, cf, cp, fr, ro, rc, serial, fn, cone⟩, s, contacts⟩ :=
    w
  simp only at hs hf hro hforce
  subst hs hf hro
  cases ty
  case FORCETASK =>
    obtain ⟨h1, h2⟩ := hforce rfl
    subst h1 h2
    rfl
  all_goals rfl

/-- A second `doActivateAsConstraint` changes nothing. -/
theorem doActivateAsConstraint_noop {K : Type} {dim : Nat} (w : Setup K dim) (sv : Nat)
    (f : LinearFunction K dim)
    (hs : w.task.solver = some sv) (hf : w.task.innerObjectiveFunction = some f)
    (hrc : w.task.isRegisteredAsConstraint = true)
    (hforce : w.task.taskType = TYPETASK.FORCETASK →
      w.task.contactPointHasBeenSavedInModel = true
        ∧ w.task.contactForceConstraintHasBeenSavedInSolver = false) :
    w.doActivateAsConstraint = Except.ok w := by
  obtain ⟨⟨name, ty, model, solver, dq, red, cf, cp, fr, ro, rc, serial, fn, cone⟩, s, contacts⟩ :=
    w
  simp only at hs hf hrc hforce
  subst hs hf hrc
  cases ty
  case FORCETASK =>
    obtain ⟨h1, h2⟩ := hforce rfl
    subst h1 h2
    rfl
  all_goals rfl

theorem erase_append_singleton {α : Type} [DecidableEq α] (l : List α) (a : α) (h : a ∉ l) :
    (l ++ [a]).erase a = l := by
  rw [List.erase_append_right _ h]
  simp

/-- Outcome of `doActivateContactMode` on a connected task of dimension `3`
whose zero-force flag mirrors the solver. -/
theorem doActivateContactMode_eq {K : Type} (w : Setup K 3) (sv : Nat)
    (hs : w.task.solver = some sv)
    (hcf : w.task.contactForceConstraintHasBeenSavedInSolver = true →
      ({ owner := w.task.name, member := ConstraintMember.ContactForceConstraint,
         serial := 0 } : LinearConstraint) ∈ w.solver.equalityConstraints) :
    w.doActivateContactMode = Except.ok
      { task := { w.task with
          contactPointHasBeenSavedInModel := true
          contactForceConstraintHasBeenSavedInSolver := false
          frictionConstraintIsRegisteredInConstraint := true }
        solver :=
          { objectives := w.solver.objectives
            equalityConstraints :=
              if w.task.contactForceConstraintHasBeenSavedInSolver then
                w.solver.equalityConstraints.erase
                  { owner := w.task.name, member := ConstraintMember.ContactForceConstraint,
                    serial := 0 }
              else w.solver.equalityConstraints
            inequalityConstraints :=
              w.solver.inequalityConstraints
                ++ [{ owner := w.task.name, member := ConstraintMember.frictionConstraint,
                      serial := 0 }] }
        modelContacts :=
          if w.task.contactPointHasBeenSavedInModel then w.modelContacts
          else w.modelContacts ++ [w.task.name] } := by
  obtain ⟨⟨name, ty, model, solver, dq, red, cf, cp, fr, ro, rc, serial, fn, cone⟩, s, contacts⟩ :=
    w
  obtain ⟨objs, eqs, ineqs⟩ := s
  simp only at hs hcf
  subst hs
  cases cf
  · cases cp <;> rfl
  · have hmem := hcf rfl
    cases cp <;>
      simp only [Setup.doActivateContactMode, Setup.checkIfConnectedToController,
        Setup.solverAddConstraint, Setup.derefSolver, Setup.addContactPointInModel,
        Setup.solverRemoveConstraint, OneLevelTask.frictionConstraint,
        OneLevelTask.ContactForceConstraint, OneLevelSolver.addConstraint,
        OneLevelSolver.removeConstraint, LinearConstraint.isEquality,
        Except.ok_bind, Except.error_bind, Except.pure_eq_ok, if_true, if_false,
        Bool.false_eq_true, reduceIte, hmem, reduceCtorEq]

/-- Outcome of `doDeactivateContactMode` on a connected task of dimension `3`
whose friction cone is in the inequality list. -/
theorem doDeactivateContactMode_eq {K : Type} (w : Setup K 3) (sv : Nat)
    (hs : w.task.solver = some sv)
    (hfr : ({ owner := w.task.name, member := ConstraintMember.frictionConstraint,
              serial := 0 } : LinearConstraint) ∈ w.solver.inequalityConstraints) :
    w.doDeactivateContactMode = Except.ok
      { task := { w.task with
          contactForceConstraintHasBeenSavedInSolver := true
          frictionConstraintIsRegisteredInConstraint := false }
        solver :=
          { objectives := w.solver.objectives
            equalityConstraints :=
              if w.task.contactForceConstraintHasBeenSavedInSolver then
                w.solver.equalityConstraints
              else
                w.solver.equalityConstraints
                  ++ [{ owner := w.task.name, member := ConstraintMember.ContactForceConstraint,
                        serial := 0 }]
            inequalityConstraints :=
              w.solver.inequalityConstraints.erase
                { owner := w.task.name, member := ConstraintMember.frictionConstraint,
                  serial := 0 } }
        modelContacts := w.modelContacts } := by
  obtain ⟨⟨name, ty, model, solver, dq, red, cf, cp, fr, ro, rc, serial, fn, cone⟩, s, contacts⟩ :=
    w
  obtain ⟨objs, eqs, ineqs⟩ := s
  simp only at hs hfr
  subst hs
  cases cf <;>
    simp only [Setup.doDeactivateContactMode, Setup.checkIfConnectedToController,
      Setup.solverAddConstraint, Setup.derefSolver, Setup.removeContactPointInModel,
      Setup.solverRemoveConstraint, OneLevelTask.frictionConstraint,
      OneLevelTask.ContactForceConstraint, OneLevelSolver.addConstraint,
      OneLevelSolver.removeConstraint, LinearConstraint.isEquality,
      Except.ok_bind, Except.error_bind, Except.pure_eq_ok, if_true, if_false,
      Bool.false_eq_true, reduceIte, hfr, reduceCtorEq]

/-- Outcome of `doDeactivateAsObjective` on a connected task of dimension `3`
whose objective, if flagged as registered, is in the objective list. -/
theorem doDeactivateAsObjective_eq {K : Type} (w : Setup K 3) (sv : Nat)
    (f : LinearFunction K 3)
    (hs : w.task.solver = some sv) (hf : w.task.innerObjectiveFunction = some f)
    (hro : w.task.isRegisteredAsObjective = true →
      ({ owner := w.task.name, serial := w.task.serial } : ObjectiveRef) ∈ w.solver.objectives) :
    w.doDeactivateAsObjective = Except.ok
      { task := { w.task with
          isRegisteredAsObjective := false
          contactForceConstraintHasBeenSavedInSolver :=
            if w.task.taskType = TYPETASK.FORCETASK then true
            else w.task.contactForceConstraintHasBeenSavedInSolver }
        solver :=
          { objectives :=
              if w.task.isRegisteredAsObjective then
                w.solver.objectives.erase { owner := w.task.name, serial := w.task.serial }
              else w.solver.objectives
            equalityConstraints :=
              if w.task.taskType = TYPETASK.FORCETASK
                  ∧ w.task.contactForceConstraintHasBeenSavedInSolver = false then
                w.solver.equalityConstraints
                  ++ [{ owner := w.task.name, member := ConstraintMember.ContactForceConstraint,
                        serial := 0 }]
              else w.solver.equalityConstraints
            inequalityConstraints := w.solver.inequalityConstraints }
        modelContacts := w.modelContacts } := by
  obtain ⟨⟨name, ty, model, solver, dq, red, cf, cp, fr, ro, rc, serial, fn, cone⟩, s, contacts⟩ :=
    w
  obtain ⟨objs, eqs, ineqs⟩ := s
  simp only at hs hf hro
  subst hs hf
  cases ro
  · cases ty <;> cases cf <;> rfl
  · have hmem := hro rfl
    cases ty <;> cases cf <;>
      simp only [Setup.doDeactivateAsObjective, Setup.checkIfConnectedToController,
        Setup.solverRemoveObjective, Setup.derefSolver, Setup.removeContactPointInModel,
        Setup.solverAddConstraint, OneLevelTask.innerTaskAsObjective,
        OneLevelTask.ContactForceConstraint, OneLevelSolver.removeObjective,
        OneLevelSolver.internalRemoveObjective,
        OneLevelSolver.addConstraint, LinearConstraint.isEquality,
        Except.ok_bind, Except.error_bind, Except.pure_eq_ok, if_true, if_false,
        Bool.false_eq_true, reduceIte, hmem, reduceCtorEq, and_self, and_true, and_false,
        true_and, false_and]

/-- Outcome of `doDeactivateAsConstraint` on a connected task of dimension `3`
whose task constraint, if flagged as registered, is in the equality list. -/
theorem doDeactivateAsConstraint_eq {K : Type} (w : Setup K 3) (sv : Nat)
    (f : LinearFunction K 3)
    (hs : w.task.solver = some sv) (hf : w.task.innerObjectiveFunction = some f)
    (hrc : w.task.isRegisteredAsConstraint = true →
      ({ owner := w.task.name, member := ConstraintMember.innerTaskAsConstraint,
         serial := w.task.serial } : LinearConstraint) ∈ w.solver.equalityConstraints) :
    w.doDeactivateAsConstraint = Except.ok
      { task := { w.task with
          isRegisteredAsConstraint := false
          contactForceConstraintHasBeenSavedInSolver :=
            if w.task.taskType = TYPETASK.FORCETASK then true
            else w.task.contactForceConstraintHasBeenSavedInSolver }
        solver :=
          { objectives := w.solver.objectives
            equalityConstraints :=
              if w.task.taskType = TYPETASK.FORCETASK
                  ∧ w.task.contactForceConstraintHasBeenSavedInSolver = false then
                (if w.task.isRegisteredAsConstraint then
                    w.solver.equalityConstraints.erase
                      { owner := w.task.name, member := ConstraintMember.innerTaskAsConstraint,
                        serial := w.task.serial }
                  else w.solver.equalityConstraints)
                  ++ [{ owner := w.task.name, member := ConstraintMember.ContactForceConstraint,
                        serial := 0 }]
              else
                (if w.task.isRegisteredAsConstraint then
                    w.solver.equalityConstraints.erase
                      { owner := w.task.name, member := ConstraintMember.innerTaskAsConstraint,
                        serial := w.task.serial }
                  else w.solver.equalityConstraints)
            inequalityConstraints := w.solver.inequalityConstraints }
        modelContacts := w.modelContacts } := by
  obtain ⟨⟨name, ty, model, solver, dq, red, cf, cp, fr, ro, rc, serial, fn, cone⟩, s, contacts⟩ :=
    w
  obtain ⟨objs, eqs, ineqs⟩ := s
  simp only at hs hf hrc
  subst hs hf
  cases rc
  · cases ty <;> cases cf <;> rfl
  · have hmem := hrc rfl
    cases ty <;> cases cf <;>
      simp only [Setup.doDeactivateAsConstraint, Setup.checkIfConnectedToController,
        Setup.solverRemoveConstraint, Setup.derefSolver, Setup.removeContactPointInModel,
        Setup.solverAddConstraint, OneLevelTask.innerTaskAsConstraint,
        OneLevelTask.ContactForceConstraint, OneLevelSolver.removeConstraint,
        OneLevelSolver.addConstraint, LinearConstraint.isEquality,
        Except.ok_bind, Except.error_bind, Except.pure_eq_ok, if_true, if_false,
        Bool.false_eq_true, reduceIte, hmem, reduceCtorEq, and_self, and_true, and_false,
        true_and, false_and]

/-- Appending an entry and erasing its first occurrence permutes the list. -/
theorem erase_append_singleton_perm {α : Type} [DecidableEq α] (l : List α) (a : α) :
    ((l ++ [a]).erase a).Perm l := by
  have h1 : (l ++ [a]).Perm (a :: l) := List.perm_append_singleton a l
  have h2 := List.Perm.erase a h1
  simpa using h2

/-- Erasing a member and appending it again permutes the list. -/
theorem erase_append_self_perm {α : Type} [DecidableEq α] (l : List α) (a : α) (h : a ∈ l) :
    (l.erase a ++ [a]).Perm l := by
  have h1 : (l.erase a ++ [a]).Perm (a :: l.erase a) := List.perm_append_singleton a _
  exact h1.trans (List.perm_cons_erase h).symm

/-- An entry that a flag says is held once is not held after the flagged removal. -/
theorem count_after_removal {α : Type} [DecidableEq α] (l : List α) (a : α) (flag : Bool)
    (h : l.count a = if flag then 1 else 0) :
    (if flag = true then l.erase a else l).count a = 0 := by
  cases flag
  · simpa using h
  · simp only [if_true, List.count_erase_self]
    simp only [if_true] at h
    omega

/-! ## Registration of a task in the solver: connection, activation, disconnection -/

/-- C12: `connectToController` throws exactly for the unset type
(`UNKNOWNTASK`); for Acceleration and CoMMomentum it builds the zero function
over `nbDofs()` columns (over the action variable in the reduced problem), for
Torque the zero function over `nbInternalDofs()` columns, for Force the
identity of the task dimension; it writes no registration flag and touches
neither the solver lists nor the contact points, so a freshly constructed task
is left registered nowhere. -/
theorem connectToController_builds_model {dim : Nat} (w : Setup K dim) (taskType : TYPETASK)
    (solver : Nat) (dynamicEquation : FullDynamicEquationFunction) (useReducedProblem : Bool)
    (name : String) (innerModel : Model) :
    Setup.connectToController { w with task := { w.task with taskType := taskType } }
        solver dynamicEquation useReducedProblem
      = (match taskType with
        | TYPETASK.UNKNOWNTASK =>
          Except.error
            { message := "[OneLevelTask::connectToController]: The task type has not been set during creation."
              state :=
                { w with task := { w.task with
                    taskType := taskType, solver := some solver,
                    dynamicEquation := some dynamicEquation,
                    useReducedProblem := useReducedProblem } } }
        | TYPETASK.TORQUETASK =>
          Except.ok
            { w with task := { w.task with
                taskType := taskType, solver := some solver,
                dynamicEquation := some dynamicEquation,
                useReducedProblem := useReducedProblem,
                serial := w.task.serial + 1,
                innerObjectiveFunction :=
                  some { size := w.task.innerModel.nbInternalDofs, A := 0, b := 0 } } }
        | TYPETASK.FORCETASK =>
          Except.ok
            { w with task := { w.task with
                taskType := taskType, solver := some solver,
                dynamicEquation := some dynamicEquation,
                useReducedProblem := useReducedProblem,
                serial := w.task.serial + 1,
                innerObjectiveFunction := some { size := dim, A := 1, b := 0 } } }
        | _ =>
          Except.ok
            { w with task := { w.task with
                taskType := taskType, solver := some solver,
                dynamicEquation := some dynamicEquation,
                useReducedProblem := useReducedProblem,
                serial := w.task.serial + 1,
                innerObjectiveFunction :=
                  some
                    { size := if useReducedProblem then dynamicEquation.actionVariableSize
                              else w.task.innerModel.nbDofs
                      A := 0, b := 0 } } })
    ∧ ((∃ e, Setup.connectToController { w with task := { w.task with taskType := taskType } }
              solver dynamicEquation useReducedProblem = Except.error e)
        ↔ taskType = TYPETASK.UNKNOWNTASK)
    ∧ (match Setup.connectToController
              ({ w with task := OneLevelTask.create name innerModel taskType } : Setup K dim)
              solver dynamicEquation useReducedProblem with
        | Except.error _ => taskType = TYPETASK.UNKNOWNTASK
        | Except.ok w1 =>
          w1.task.isRegisteredAsObjective = false
            ∧ w1.task.isRegisteredAsConstraint = false
            ∧ w1.task.frictionConstraintIsRegisteredInConstraint = false
            ∧ w1.task.contactForceConstraintHasBeenSavedInSolver = false
            ∧ w1.solver = w.solver ∧ w1.modelContacts = w.modelContacts) := by
  refine ⟨?_, ?_, ?_⟩
  · cases taskType <;> cases useReducedProblem <;> rfl
  · cases taskType <;> simp [Setup.connectToController]
  · cases taskType <;> cases useReducedProblem <;>
      simp [Setup.connectToController, OneLevelTask.create,
        OneLevelTask.setAsAccelerationTask, OneLevelTask.setAsTorqueTask,
        OneLevelTask.setAsForceTask, OneLevelTask.connectFunctionnWithObjectiveAndConstraint]

/-- C13: on a task that was never connected (`pimpl->solver` null), each of the
six activation, deactivation and contact-mode calls throws the not-connected
error and leaves the task with all its flags, the solver lists and the contact
points as they were. -/
theorem activation_requires_connection {K : Type} {dim : Nat} (w : Setup K dim) :
    Setup.doActivateAsObjective { w with task := { w.task with solver := none } }
        = Except.error
          { message := "[OneLevelTask::doActivateAsObjective]: task not connected to any solver"
            state := { w with task := { w.task with solver := none } } }
    ∧ Setup.doActivateAsConstraint { w with task := { w.task with solver := none } }
        = Except.error
          { message := "[OneLevelTask::doActivateAsObjective]: task not connected to any solver"
            state := { w with task := { w.task with solver := none } } }
    ∧ Setup.doDeactivateAsObjective { w with task := { w.task with solver := none } }
        = Except.error
          { message := "[OneLevelTask::doActivateAsObjective]: task not connected to any solver"
            state := { w with task := { w.task with solver := none } } }
    ∧ Setup.doDeactivateAsConstraint { w with task := { w.task with solver := none } }
        = Except.error
          { message := "[OneLevelTask::doActivateAsObjective]: task not connected to any solver"
            state := { w with task := { w.task with solver := none } } }
    ∧ Setup.doActivateContactMode { w with task := { w.task with solver := none } }
        = Except.error
          { message := "[OneLevelTask::doActivateAsObjective]: task not connected to any solver"
            state := { w with task := { w.task with solver := none } } }
    ∧ Setup.doDeactivateContactMode { w with task := { w.task with solver := none } }
        = Except.error
          { message := "[OneLevelTask::doActivateAsObjective]: task not connected to any solver"
            state := { w with task := { w.task with solver := none } } } :=
  ⟨rfl, rfl, rfl, rfl, rfl, rfl⟩

/-- C14, evaluated: a task of unset type is constructed and `connectToController`
throws; the solver pointer was stored before the throw, so afterwards
`checkIfConnectedToController` passes and `doActivateAsObjective` /
`doActivateAsConstraint` go on to the null `innerTaskAsObjective` /
`innerTaskAsConstraint` instead of throwing the not-connected error, which the
same calls do throw on the task as constructed. -/
theorem activation_after_failed_connect :
    ∃ e : Fault (Setup ℚ 3),
      (sampleSetup TYPETASK.UNKNOWNTASK).connectToController 0 sampleDynamicEquation false
          = Except.error e
      ∧ e.state.task.solver = some 0
      ∧ e.state.task.innerObjectiveFunction = none
      ∧ e.state.checkIfConnectedToController = Except.ok ()
      ∧ e.state.doActivateAsObjective
          = Except.error { message := "innerTaskAsObjective is NULL", state := e.state }
      ∧ e.state.doActivateAsConstraint
          = Except.error { message := "constraint is NULL", state := e.state }
      ∧ (sampleSetup TYPETASK.UNKNOWNTASK).doActivateAsObjective
          = Except.error
            { message := "[OneLevelTask::doActivateAsObjective]: task not connected to any solver"
              state := sampleSetup TYPETASK.UNKNOWNTASK } :=
  ⟨_, rfl, rfl, rfl, rfl, rfl, rfl, rfl⟩

/-- C16, counterexample: the sample Acceleration task is connected, activated
as objective and then activated as constraint; all three calls return, and the
task ends up registered both ways: its objective is in the objective list, its
constraint in the equality list, and both flags are set. -/
theorem activation_modes_not_exclusive_counterexample :
    ∃ w : Setup ℚ 3,
      ((sampleSetup TYPETASK.ACCELERATIONTASK).connectToController 0 sampleDynamicEquation false
          >>= Setup.doActivateAsObjective >>= Setup.doActivateAsConstraint) = Except.ok w
      ∧ w.task.isRegisteredAsObjective = true ∧ w.task.isRegisteredAsConstraint = true
      ∧ ({ owner := "contact", serial := 1 } : ObjectiveRef) ∈ w.solver.objectives
      ∧ ({ owner := "contact", member := ConstraintMember.innerTaskAsConstraint, serial := 1 } :
            LinearConstraint) ∈ w.solver.equalityConstraints :=
  ⟨_, rfl, rfl, rfl, by decide, by decide⟩

/-- C18, evaluated: on the sample task as constructed `disconnectFromController`
returns and changes nothing; after connect, `doActivateAsObjective` and a first
`disconnectFromController` (which empties the lists of the task but leaves
`isRegisteredAsObjective` set), a second `disconnectFromController` asks the
solver to remove an objective it does not hold and does not return normally. -/
theorem disconnect_twice_fails :
    (sampleSetup TYPETASK.ACCELERATIONTASK).disconnectFromController
        = Except.ok (sampleSetup TYPETASK.ACCELERATIONTASK)
    ∧ ∃ w : Setup ℚ 3,
        ((sampleSetup TYPETASK.ACCELERATIONTASK).connectToController 0 sampleDynamicEquation false
            >>= Setup.doActivateAsObjective >>= Setup.disconnectFromController) = Except.ok w
        ∧ w.solver = sampleLists
        ∧ w.task.isRegisteredAsObjective = true
        ∧ w.disconnectFromController
            = Except.error { message := "removeObjective: objective not registered", state := w } :=
  ⟨rfl, _, rfl, rfl, rfl, rfl⟩

/-- C19, evaluated: the sample task is connected, activated as objective,
disconnected, connected again to the same solver and activated as objective
again; every call returns, but `isRegisteredAsObjective` is still set from the
first activation, so the second one adds nothing and the objective list holds
no objective of the task. -/
theorem reconnect_does_not_register :
    ∃ w : Setup ℚ 3,
      ((sampleSetup TYPETASK.ACCELERATIONTASK).connectToController 0 sampleDynamicEquation false
          >>= Setup.doActivateAsObjective >>= Setup.disconnectFromController
          >>= (fun w => w.connectToController 0 sampleDynamicEquation false)
          >>= Setup.doActivateAsObjective) = Except.ok w
      ∧ w.task.innerTaskAsObjective = some { owner := "contact", serial := 2 }
      ∧ w.solver.objectives = [{ owner := "posture", serial := 1 }]
      ∧ ∀ o ∈ w.solver.objectives, o.owner ≠ "contact" :=
  ⟨_, rfl, rfl, rfl, by decide⟩

/-- C20, counterexample: the sample task, connected to solver `0`, is connected
again, to solver `1` and with the reduced problem; the call returns, the task
now points to solver `1` and its function is rebuilt over the action variable. -/
theorem connect_twice_counterexample :
    ∃ w1 w2 : Setup ℚ 3,
      (sampleSetup TYPETASK.ACCELERATIONTASK).connectToController 0 sampleDynamicEquation false
          = Except.ok w1
      ∧ w1.task.solver = some 0
      ∧ w1.task.innerObjectiveFunction = some { size := 7, A := 0, b := 0 }
      ∧ w1.connectToController 1 sampleDynamicEquation true = Except.ok w2
      ∧ w2.task.solver = some 1
      ∧ w2.task.innerObjectiveFunction = some { size := 4, A := 0, b := 0 } :=
  ⟨_, _, rfl, rfl, rfl, rfl, rfl, rfl⟩

/-- Activation is idempotent while the flags mirror the lists: for a connected
task whose flags mirror the solver lists, `doActivateAsObjective` returns, leaves exactly one entry for the objective of
the task in the objective list, and a second call in succession returns the very
same state; likewise for `doActivateAsConstraint` and the equality list. -/
theorem activate_twice_is_once {K : Type} {dim : Nat} (w : Setup K dim) (sv : Nat)
    (f : LinearFunction K dim)
    (hs : w.task.solver = some sv) (hf : w.task.innerObjectiveFunction = some f)
    (hobj : w.solver.objectives.count { owner := w.task.name, serial := w.task.serial }
      = if w.task.isRegisteredAsObjective then 1 else 0)
    (hcstr : w.solver.equalityConstraints.count
        { owner := w.task.name, member := ConstraintMember.innerTaskAsConstraint,
          serial := w.task.serial }
      = if w.task.isRegisteredAsConstraint then 1 else 0)
    (hcf : w.task.contactForceConstraintHasBeenSavedInSolver = true →
      dim = 3 ∧ ({ owner := w.task.name, member := ConstraintMember.ContactForceConstraint,
                   serial := 0 } : LinearConstraint) ∈ w.solver.equalityConstraints) :
    (∃ w1 : Setup K dim, w.doActivateAsObjective = Except.ok w1
      ∧ w1.solver.objectives.count { owner := w.task.name, serial := w.task.serial } = 1
      ∧ w1.doActivateAsObjective = Except.ok w1)
    ∧ (∃ w1 : Setup K dim, w.doActivateAsConstraint = Except.ok w1
      ∧ w1.solver.equalityConstraints.count
          { owner := w.task.name, member := ConstraintMember.innerTaskAsConstraint,
            serial := w.task.serial } = 1
      ∧ w1.doActivateAsConstraint = Except.ok w1) := by
  constructor
  · refine ⟨_, doActivateAsObjective_eq w sv f hs hf hcf, ?_, ?_⟩
    · show List.count _ (if w.task.isRegisteredAsObjective = true then _ else _) = 1
      cases hro : w.task.isRegisteredAsObjective
      · rw [hro] at hobj
        simp only [Bool.false_eq_true, if_false] at hobj ⊢
        rw [List.count_append, hobj]
        simp
      · rw [hro] at hobj
        simpa using hobj
    · refine doActivateAsObjective_noop _ sv f hs hf rfl ?_
      intro hty
      have hty' : w.task.taskType = TYPETASK.FORCETASK := hty
      simp [hty']
  · refine ⟨_, doActivateAsConstraint_eq w sv f hs hf hcf, ?_, ?_⟩
    · have hne : (⟨w.task.name, ConstraintMember.ContactForceConstraint, 0⟩ : LinearConstraint)
          ≠ ⟨w.task.name, ConstraintMember.innerTaskAsConstraint, w.task.serial⟩ := by
        intro h
        have := congrArg LinearConstraint.member h
        exact ConstraintMember.noConfusion this
      have hcount : List.count
          (⟨w.task.name, ConstraintMember.innerTaskAsConstraint, w.task.serial⟩ :
            LinearConstraint)
          (if w.task.isRegisteredAsConstraint = true then w.solver.equalityConstraints
            else w.solver.equalityConstraints
              ++ [⟨w.task.name, ConstraintMember.innerTaskAsConstraint, w.task.serial⟩]) = 1 := by
        cases hrc : w.task.isRegisteredAsConstraint
        · rw [hrc] at hcstr
          simp only [Bool.false_eq_true, if_false] at hcstr ⊢
          rw [List.count_append, hcstr]
          simp
        · rw [hrc] at hcstr
          simpa using hcstr
      show List.count _ (if _ then List.erase _ _ else _) = 1
      by_cases hcond : w.task.taskType = TYPETASK.FORCETASK
          ∧ w.task.contactForceConstraintHasBeenSavedInSolver = true
      · rw [if_pos hcond, List.count_erase_of_ne hne.symm]
        exact hcount
      · rw [if_neg hcond]
        exact hcount
    · refine doActivateAsConstraint_noop _ sv f hs hf rfl ?_
      intro hty
      have hty' : w.task.taskType = TYPETASK.FORCETASK := hty
      simp [hty']

/-- Idempotent activation, evaluated on the connected sample Force task. -/
theorem activate_twice_is_once_witness :
    (∃ w1 : Setup ℚ 3, sampleConnected.doActivateAsObjective = Except.ok w1
      ∧ w1.solver.objectives.count { owner := "contact", serial := 1 } = 1
      ∧ w1.doActivateAsObjective = Except.ok w1)
    ∧ (∃ w1 : Setup ℚ 3, sampleConnected.doActivateAsConstraint = Except.ok w1
      ∧ w1.solver.equalityConstraints.count
          { owner := "contact", member := ConstraintMember.innerTaskAsConstraint,
            serial := 1 } = 1
      ∧ w1.doActivateAsConstraint = Except.ok w1) :=
  activate_twice_is_once sampleConnected 0 { size := 3, A := 1, b := 0 } rfl rfl
    (by decide) (by decide) (by decide)

/-- C16 (amended): on a connected task registered in neither mode,
`doActivateAsObjective` followed by `doActivateAsConstraint` returns, the second
call leaves the objective list as the first one made it (with the objective of
the task appended), and the task ends up registered both as objective and as
equality constraint; the same holds in the other order. -/
theorem activation_modes_independent {K : Type} {dim : Nat} (w : Setup K dim) (sv : Nat)
    (f : LinearFunction K dim)
    (hs : w.task.solver = some sv) (hf : w.task.innerObjectiveFunction = some f)
    (hro : w.task.isRegisteredAsObjective = false)
    (hrc : w.task.isRegisteredAsConstraint = false)
    (hcf : w.task.contactForceConstraintHasBeenSavedInSolver = true →
      dim = 3 ∧ ({ owner := w.task.name, member := ConstraintMember.ContactForceConstraint,
                   serial := 0 } : LinearConstraint) ∈ w.solver.equalityConstraints) :
    (∃ w1 w2 : Setup K dim,
      w.doActivateAsObjective = Except.ok w1 ∧ w1.doActivateAsConstraint = Except.ok w2
      ∧ w1.solver.objectives
          = w.solver.objectives ++ [{ owner := w.task.name, serial := w.task.serial }]
      ∧ w2.solver.objectives = w1.solver.objectives
      ∧ w2.task.isRegisteredAsObjective = true ∧ w2.task.isRegisteredAsConstraint = true
      ∧ ({ owner := w.task.name, member := ConstraintMember.innerTaskAsConstraint,
           serial := w.task.serial } : LinearConstraint) ∈ w2.solver.equalityConstraints)
    ∧ (∃ w1 w2 : Setup K dim,
      w.doActivateAsConstraint = Except.ok w1 ∧ w1.doActivateAsObjective = Except.ok w2
      ∧ ({ owner := w.task.name, member := ConstraintMember.innerTaskAsConstraint,
           serial := w.task.serial } : LinearConstraint) ∈ w1.solver.equalityConstraints
      ∧ w2.solver.equalityConstraints = w1.solver.equalityConstraints
      ∧ w2.solver.objectives
          = w.solver.objectives ++ [{ owner := w.task.name, serial := w.task.serial }]
      ∧ w2.task.isRegisteredAsObjective = true ∧ w2.task.isRegisteredAsConstraint = true) := by
  have hne : (⟨w.task.name, ConstraintMember.innerTaskAsConstraint, w.task.serial⟩ :
      LinearConstraint) ≠ ⟨w.task.name, ConstraintMember.ContactForceConstraint, 0⟩ := by
    intro h
    exact ConstraintMember.noConfusion (congrArg LinearConstraint.member h)
  have h1 := doActivateAsObjective_eq w sv f hs hf hcf
  have h2 := doActivateAsConstraint_eq w sv f hs hf hcf
  constructor
  · refine ⟨_, _, h1, doActivateAsConstraint_eq _ sv f hs hf ?_, ?_, rfl, rfl, rfl, ?_⟩
    · intro hcf1
      by_cases hty : w.task.taskType = TYPETASK.FORCETASK
      · simp [hty] at hcf1
      · simp only [hty, if_false, false_and] at hcf1 ⊢
        exact hcf hcf1
    · simp [hro]
    · show _ ∈ (if _ then List.erase _ _ else _)
      simp only [hrc, Bool.false_eq_true, if_false]
      by_cases hty : w.task.taskType = TYPETASK.FORCETASK
      · simp [hty, List.mem_erase_of_ne hne]
      · simp [hty]
  · refine ⟨_, _, h2, doActivateAsObjective_eq _ sv f hs hf ?_, ?_, ?_, ?_, rfl, rfl⟩
    · intro hcf1
      by_cases hty : w.task.taskType = TYPETASK.FORCETASK
      · simp [hty] at hcf1
      · simp only [hty, if_false, false_and] at hcf1 ⊢
        obtain ⟨hd, hmem⟩ := hcf hcf1
        refine ⟨hd, ?_⟩
        simp only [hrc, Bool.false_eq_true, if_false]
        exact List.mem_append_left _ hmem
    · show _ ∈ (if _ then List.erase _ _ else _)
      simp only [hrc, Bool.false_eq_true, if_false]
      by_cases hcond : w.task.taskType = TYPETASK.FORCETASK
          ∧ w.task.contactForceConstraintHasBeenSavedInSolver = true
      · rw [if_pos hcond, List.mem_erase_of_ne hne]
        simp
      · rw [if_neg hcond]
        simp
    · by_cases hty : w.task.taskType = TYPETASK.FORCETASK
      · simp [hty]
      · simp [hty]
    · simp [hro]

/-- C17: a Force task of dimension `3` is constructed next to a solver that
holds no entry of it, and connected; after no activation, `doActivateAsObjective`
or `doActivateAsConstraint`, then optionally one `doActivateContactMode`, then
`disconnectFromController`, every call has returned and the three lists of the
solver are what they were before, hence without any entry of the task (its
objective, its task constraint, its friction cone, its zero-force constraint). -/
theorem disconnect_removes_all_registrations {K : Type} [LinearOrderedField K]
    (name : String) (innerModel : Model) (s : SolverLists) (contacts : List String)
    (sv : Nat) (dynamicEquation : FullDynamicEquationFunction) (useReducedProblem : Bool)
    (hs : s.holdsNoEntryOf name) :
    (∃ w : Setup K 3,
      ((Setup.connectToController
          { task := OneLevelTask.create name innerModel TYPETASK.FORCETASK
            solver := s, modelContacts := contacts } sv dynamicEquation useReducedProblem)
        >>= Setup.disconnectFromController) = Except.ok w
      ∧ w.solver = s ∧ w.solver.holdsNoEntryOf name)
    ∧ (∃ w : Setup K 3,
      ((Setup.connectToController
          { task := OneLevelTask.create name innerModel TYPETASK.FORCETASK
            solver := s, modelContacts := contacts } sv dynamicEquation useReducedProblem)
        >>= Setup.doActivateAsObjective
        >>= Setup.disconnectFromController) = Except.ok w
      ∧ w.solver = s ∧ w.solver.holdsNoEntryOf name)
    ∧ (∃ w : Setup K 3,
      ((Setup.connectToController
          { task := OneLevelTask.create name innerModel TYPETASK.FORCETASK
            solver := s, modelContacts := contacts } sv dynamicEquation useReducedProblem)
        >>= Setup.doActivateAsConstraint
        >>= Setup.disconnectFromController) = Except.ok w
      ∧ w.solver = s ∧ w.solver.holdsNoEntryOf name)
    ∧ (∃ w : Setup K 3,
      ((Setup.connectToController
          { task := OneLevelTask.create name innerModel TYPETASK.FORCETASK
            solver := s, modelContacts := contacts } sv dynamicEquation useReducedProblem)
        >>= Setup.doActivateContactMode
        >>= Setup.disconnectFromController) = Except.ok w
      ∧ w.solver = s ∧ w.solver.holdsNoEntryOf name)
    ∧ (∃ w : Setup K 3,
      ((Setup.connectToController
          { task := OneLevelTask.create name innerModel TYPETASK.FORCETASK
            solver := s, modelContacts := contacts } sv dynamicEquation useReducedProblem)
        >>= Setup.doActivateAsObjective >>= Setup.doActivateContactMode
        >>= Setup.disconnectFromController) = Except.ok w
      ∧ w.solver = s ∧ w.solver.holdsNoEntryOf name)
    ∧ (∃ w : Setup K 3,
      ((Setup.connectToController
          { task := OneLevelTask.create name innerModel TYPETASK.FORCETASK
            solver := s, modelContacts := contacts } sv dynamicEquation useReducedProblem)
        >>= Setup.doActivateAsConstraint >>= Setup.doActivateContactMode
        >>= Setup.disconnectFromController) = Except.ok w
      ∧ w.solver = s ∧ w.solver.holdsNoEntryOf name) := by
  obtain ⟨objs, eqs, ineqs⟩ := s
  have h1 : (⟨name, 1⟩ : ObjectiveRef) ∉ objs := fun h => hs.1 _ h rfl
  have h2 : (⟨name, ConstraintMember.innerTaskAsConstraint, 1⟩ : LinearConstraint) ∉ eqs :=
    fun h => hs.2.1 _ h rfl
  have h3 : (⟨name, ConstraintMember.frictionConstraint, 0⟩ : LinearConstraint) ∉ ineqs :=
    fun h => hs.2.2 _ h rfl
  refine ⟨?_, ?_, ?_, ?_, ?_, ?_⟩
  · exact ⟨_, rfl, rfl, hs⟩
  all_goals
    simp only [Setup.connectToController, OneLevelTask.create, OneLevelTask.setAsForceTask,
      OneLevelTask.connectFunctionnWithObjectiveAndConstraint,
      Setup.doActivateAsObjective, Setup.doActivateAsConstraint, Setup.doActivateContactMode,
      Setup.disconnectFromController, Setup.checkIfConnectedToController,
      Setup.solverAddObjective, Setup.solverRemoveObjective, Setup.solverAddConstraint,
      Setup.solverRemoveConstraint, Setup.derefSolver, Setup.addContactPointInModel,
      OneLevelTask.innerTaskAsObjective, OneLevelTask.innerTaskAsConstraint,
      OneLevelTask.frictionConstraint, OneLevelTask.ContactForceConstraint,
      OneLevelSolver.addObjective, OneLevelSolver.removeObjective,
      OneLevelSolver.internalRemoveObjective,
      OneLevelSolver.addConstraint, OneLevelSolver.removeConstraint,
      LinearConstraint.isEquality, Except.ok_bind, Except.error_bind, Except.pure_eq_ok,
      if_true, if_false, Bool.false_eq_true, reduceIte, reduceCtorEq,
      List.mem_append, List.mem_singleton, or_true, erase_append_singleton _ _ h1,
      erase_append_singleton _ _ h2, erase_append_singleton _ _ h3, zero_add]
    exact ⟨_, rfl, rfl, hs⟩

/-- The sample solver holds no entry of the sample task. -/
theorem sampleLists_holdsNoEntryOf : sampleLists.holdsNoEntryOf "contact" := by
  refine ⟨?_, ?_, ?_⟩ <;> decide

/-- C17, evaluated on the sample task and solver. -/
theorem disconnect_removes_all_registrations_witness :
    sampleLists.holdsNoEntryOf "contact"
    ∧ ∃ w : Setup ℚ 3,
      ((Setup.connectToController
          { task := OneLevelTask.create "contact" { nbDofs := 7, nbInternalDofs := 6 }
              TYPETASK.FORCETASK
            solver := sampleLists, modelContacts := [] } 0 sampleDynamicEquation false)
        >>= Setup.doActivateAsObjective >>= Setup.doActivateContactMode
        >>= Setup.disconnectFromController) = Except.ok w
      ∧ w.solver = sampleLists ∧ w.solver.holdsNoEntryOf "contact" :=
  ⟨sampleLists_holdsNoEntryOf,
    (disconnect_removes_all_registrations "contact" { nbDofs := 7, nbInternalDofs := 6 }
      sampleLists [] 0 sampleDynamicEquation false sampleLists_holdsNoEntryOf).2.2.2.2.1⟩

/-- C16 (amended), evaluated on the connected sample Force task. -/
theorem activation_modes_independent_witness :
    sampleConnected.task.isRegisteredAsObjective = false
    ∧ sampleConnected.task.isRegisteredAsConstraint = false
    ∧ ∃ w1 w2 : Setup ℚ 3,
      sampleConnected.doActivateAsObjective = Except.ok w1
      ∧ w1.doActivateAsConstraint = Except.ok w2
      ∧ w1.solver.objectives = sampleLists.objectives ++ [{ owner := "contact", serial := 1 }]
      ∧ w2.solver.objectives = w1.solver.objectives
      ∧ w2.task.isRegisteredAsObjective = true ∧ w2.task.isRegisteredAsConstraint = true
      ∧ ({ owner := "contact", member := ConstraintMember.innerTaskAsConstraint,
           serial := 1 } : LinearConstraint) ∈ w2.solver.equalityConstraints :=
  ⟨rfl, rfl,
    (activation_modes_independent sampleConnected 0 { size := 3, A := 1, b := 0 }
      rfl rfl rfl rfl (by decide)).1⟩

/-- C20 (amended): `connectToController` on a task that is already connected
is not rejected: it throws for the unset type only; otherwise it returns, the
task points to the solver and the dynamic equation just passed, its function
is rebuilt as on a freshly constructed task, and the registration flags, the
solver lists and the contact points are what they were. -/
theorem connect_again_rebinds {K : Type} [LinearOrderedField K] {dim : Nat}
    (w : Setup K dim) (old solver : Nat) (dynamicEquation : FullDynamicEquationFunction)
    (useReducedProblem : Bool) (taskType : TYPETASK) :
    match Setup.connectToController
        { w with task := { w.task with solver := some old, taskType := taskType } }
        solver dynamicEquation useReducedProblem with
    | Except.error _ => taskType = TYPETASK.UNKNOWNTASK
    | Except.ok w1 =>
      w1.task.solver = some solver
      ∧ w1.task.dynamicEquation = some dynamicEquation
      ∧ w1.task.useReducedProblem = useReducedProblem
      ∧ (match Setup.connectToController
            ({ w with task := OneLevelTask.create w.task.name w.task.innerModel taskType } :
              Setup K dim) solver dynamicEquation useReducedProblem with
          | Except.error _ => False
          | Except.ok w2 => w1.task.innerObjectiveFunction = w2.task.innerObjectiveFunction)
      ∧ w1.task.isRegisteredAsObjective = w.task.isRegisteredAsObjective
      ∧ w1.task.isRegisteredAsConstraint = w.task.isRegisteredAsConstraint
      ∧ w1.task.frictionConstraintIsRegisteredInConstraint
          = w.task.frictionConstraintIsRegisteredInConstraint
      ∧ w1.task.contactForceConstraintHasBeenSavedInSolver
          = w.task.contactForceConstraintHasBeenSavedInSolver
      ∧ w1.task.contactPointHasBeenSavedInModel = w.task.contactPointHasBeenSavedInModel
      ∧ w1.solver = w.solver ∧ w1.modelContacts = w.modelContacts := by
  cases taskType <;> cases useReducedProblem <;>
    simp [Setup.connectToController, OneLevelTask.create,
      OneLevelTask.setAsAccelerationTask, OneLevelTask.setAsTorqueTask,
      OneLevelTask.setAsForceTask, OneLevelTask.connectFunctionnWithObjectiveAndConstraint]

/-! ## Contact mode -/

/-- The sample state `sampleIdle` is the one reached from the connected sample
task by `doDeactivateAsObjective`. -/
theorem sampleIdle_reached : sampleConnected.doDeactivateAsObjective = Except.ok sampleIdle :=
  rfl

/-- C21, counterexample: the sample Force task is constructed and connected;
its equality list is empty. After `doActivateContactMode` followed by
`doDeactivateContactMode` the equality list holds the zero-force constraint of
the task. The same happens when the task is activated as objective before the
pair of calls. -/
theorem contact_round_trip_counterexample :
    (∃ w0 w : Setup ℚ 3,
      (sampleSetup TYPETASK.FORCETASK).connectToController 0 sampleDynamicEquation false
          = Except.ok w0
      ∧ w0.task.frictionConstraintIsRegisteredInConstraint = false
      ∧ w0.solver.equalityConstraints = []
      ∧ (w0.doActivateContactMode >>= Setup.doDeactivateContactMode) = Except.ok w
      ∧ w.solver.equalityConstraints
          = [{ owner := "contact", member := ConstraintMember.ContactForceConstraint,
               serial := 0 }])
    ∧ (∃ w0 w : Setup ℚ 3,
      ((sampleSetup TYPETASK.FORCETASK).connectToController 0 sampleDynamicEquation false
          >>= Setup.doActivateAsObjective) = Except.ok w0
      ∧ w0.task.isRegisteredAsObjective = true
      ∧ w0.task.frictionConstraintIsRegisteredInConstraint = false
      ∧ w0.solver.equalityConstraints = []
      ∧ (w0.doActivateContactMode >>= Setup.doDeactivateContactMode) = Except.ok w
      ∧ w.solver.equalityConstraints
          = [{ owner := "contact", member := ConstraintMember.ContactForceConstraint,
               serial := 0 }]) :=
  ⟨⟨_, _, rfl, rfl, rfl, rfl, rfl⟩, ⟨_, _, rfl, rfl, rfl, rfl, rfl, rfl⟩⟩

/-- C21 (amended): on a connected task of dimension `3` whose zero-force flag
mirrors the solver, `doActivateContactMode` followed by
`doDeactivateContactMode` returns, leaves the objective list as it was and the
inequality list with the same entries (the very same list when the friction
cone was not in it). The equality list keeps its entries only when the
zero-force constraint was registered before the two calls; when it was not, the
equality list ends with the zero-force constraint appended. -/
theorem contact_round_trip {K : Type} (w : Setup K 3) (sv : Nat)
    (hs : w.task.solver = some sv)
    (hcf : w.task.contactForceConstraintHasBeenSavedInSolver = true →
      ({ owner := w.task.name, member := ConstraintMember.ContactForceConstraint,
         serial := 0 } : LinearConstraint) ∈ w.solver.equalityConstraints) :
    ∃ w1 w2 : Setup K 3,
      w.doActivateContactMode = Except.ok w1 ∧ w1.doDeactivateContactMode = Except.ok w2
      ∧ w2.solver.objectives = w.solver.objectives
      ∧ w2.solver.inequalityConstraints.Perm w.solver.inequalityConstraints
      ∧ (({ owner := w.task.name, member := ConstraintMember.frictionConstraint,
            serial := 0 } : LinearConstraint) ∉ w.solver.inequalityConstraints →
          w2.solver.inequalityConstraints = w.solver.inequalityConstraints)
      ∧ (w.task.contactForceConstraintHasBeenSavedInSolver = true →
          w2.solver.equalityConstraints.Perm w.solver.equalityConstraints)
      ∧ (w.task.contactForceConstraintHasBeenSavedInSolver = false →
          w2.solver.equalityConstraints
            = w.solver.equalityConstraints
              ++ [{ owner := w.task.name, member := ConstraintMember.ContactForceConstraint,
                    serial := 0 }]) := by
  refine ⟨_, _, doActivateContactMode_eq w sv hs hcf,
    doDeactivateContactMode_eq _ sv hs (by simp), rfl, ?_, ?_, ?_, ?_⟩
  · exact erase_append_singleton_perm _ _
  · intro h
    exact erase_append_singleton _ _ h
  · intro h
    dsimp only
    simp only [Bool.false_eq_true, if_false]
    rw [if_pos h]
    exact erase_append_self_perm _ _ (hcf h)
  · intro h
    dsimp only
    simp only [Bool.false_eq_true, if_false]
    rw [h]
    simp

/-- C21 (amended), evaluated on the sample task with its zero-force constraint
registered. -/
theorem contact_round_trip_witness :
    sampleIdle.task.contactForceConstraintHasBeenSavedInSolver = true
    ∧ ∃ w1 w2 : Setup ℚ 3,
      sampleIdle.doActivateContactMode = Except.ok w1
      ∧ w1.doDeactivateContactMode = Except.ok w2
      ∧ w2.solver.objectives = sampleIdle.solver.objectives
      ∧ w2.solver.inequalityConstraints.Perm sampleIdle.solver.inequalityConstraints
      ∧ w2.solver.equalityConstraints.Perm sampleIdle.solver.equalityConstraints := by
  obtain ⟨w1, w2, h1, h2, h3, h4, _, h6, _⟩ :=
    contact_round_trip sampleIdle 0 rfl (fun _ => by decide)
  exact ⟨rfl, w1, w2, h1, h2, h3, h4, h6 rfl⟩

/-- Entering and leaving contact mode while the zero-force flag mirrors the
equality list: on a connected task of dimension `3` that is not in contact mode (its
friction cone is not in the inequality list) and whose zero-force flag mirrors
the equality list, `doActivateContactMode` returns with the friction cone in the
inequality list and the zero-force constraint absent from the equality list; a
following `doDeactivateContactMode` returns with the friction cone absent from
the inequality list and the zero-force constraint exactly once in the equality
list. -/
theorem contact_mode_switches_constraints {K : Type} (w : Setup K 3) (sv : Nat)
    (hs : w.task.solver = some sv)
    (hfr : ({ owner := w.task.name, member := ConstraintMember.frictionConstraint,
              serial := 0 } : LinearConstraint) ∉ w.solver.inequalityConstraints)
    (hcf : w.solver.equalityConstraints.count
        { owner := w.task.name, member := ConstraintMember.ContactForceConstraint, serial := 0 }
      = if w.task.contactForceConstraintHasBeenSavedInSolver then 1 else 0) :
    ∃ w1 w2 : Setup K 3,
      w.doActivateContactMode = Except.ok w1
      ∧ ({ owner := w.task.name, member := ConstraintMember.frictionConstraint,
           serial := 0 } : LinearConstraint) ∈ w1.solver.inequalityConstraints
      ∧ ({ owner := w.task.name, member := ConstraintMember.ContactForceConstraint,
           serial := 0 } : LinearConstraint) ∉ w1.solver.equalityConstraints
      ∧ w1.task.frictionConstraintIsRegisteredInConstraint = true
      ∧ w1.doDeactivateContactMode = Except.ok w2
      ∧ ({ owner := w.task.name, member := ConstraintMember.frictionConstraint,
           serial := 0 } : LinearConstraint) ∉ w2.solver.inequalityConstraints
      ∧ w2.solver.equalityConstraints.count
          { owner := w.task.name, member := ConstraintMember.ContactForceConstraint,
            serial := 0 } = 1
      ∧ w2.task.frictionConstraintIsRegisteredInConstraint = false := by
  have hmem : w.task.contactForceConstraintHasBeenSavedInSolver = true →
      ({ owner := w.task.name, member := ConstraintMember.ContactForceConstraint,
         serial := 0 } : LinearConstraint) ∈ w.solver.equalityConstraints := by
    intro h
    rw [h] at hcf
    apply List.count_pos_iff.mp
    rw [hcf]
    decide
  have hzero : List.count
      ({ owner := w.task.name, member := ConstraintMember.ContactForceConstraint,
         serial := 0 } : LinearConstraint)
      (if w.task.contactForceConstraintHasBeenSavedInSolver = true then
        w.solver.equalityConstraints.erase
          { owner := w.task.name, member := ConstraintMember.ContactForceConstraint,
            serial := 0 }
      else w.solver.equalityConstraints) = 0 := by
    cases h : w.task.contactForceConstraintHasBeenSavedInSolver
    · rw [h] at hcf
      simpa using hcf
    · rw [h] at hcf
      simp only [if_true, List.count_erase_self]
      simp only [if_true] at hcf
      omega
  refine ⟨_, _, doActivateContactMode_eq w sv hs hmem, ?_, ?_, rfl,
    doDeactivateContactMode_eq _ sv hs (by simp), ?_, ?_, rfl⟩
  · simp
  · exact List.count_eq_zero.mp hzero
  · show _ ∉ List.erase _ _
    rw [erase_append_singleton _ _ hfr]
    exact hfr
  · dsimp only
    simp only [Bool.false_eq_true, if_false]
    rw [List.count_append, hzero]
    simp

/-- Entering and leaving contact mode, evaluated on the connected sample Force
task. -/
theorem contact_mode_switches_constraints_witness :
    ∃ w1 w2 : Setup ℚ 3,
      sampleConnected.doActivateContactMode = Except.ok w1
      ∧ ({ owner := "contact", member := ConstraintMember.frictionConstraint,
           serial := 0 } : LinearConstraint) ∈ w1.solver.inequalityConstraints
      ∧ ({ owner := "contact", member := ConstraintMember.ContactForceConstraint,
           serial := 0 } : LinearConstraint) ∉ w1.solver.equalityConstraints
      ∧ w1.task.frictionConstraintIsRegisteredInConstraint = true
      ∧ w1.doDeactivateContactMode = Except.ok w2
      ∧ ({ owner := "contact", member := ConstraintMember.frictionConstraint,
           serial := 0 } : LinearConstraint) ∉ w2.solver.inequalityConstraints
      ∧ w2.solver.equalityConstraints.count
          { owner := "contact", member := ConstraintMember.ContactForceConstraint,
            serial := 0 } = 1
      ∧ w2.task.frictionConstraintIsRegisteredInConstraint = false :=
  contact_mode_switches_constraints sampleConnected 0 rfl (by decide) (by decide)

/-- C23, counterexample: the sample Force task is constructed and connected;
after `doActivateAsObjective` (likewise `doActivateAsConstraint`) the equality
list does not hold its zero-force constraint. On the sample task with the
zero-force constraint registered, `doActivateAsObjective` removes it. -/
theorem activation_zero_force_counterexample :
    (∃ w : Setup ℚ 3,
      ((sampleSetup TYPETASK.FORCETASK).connectToController 0 sampleDynamicEquation false
          >>= Setup.doActivateAsObjective) = Except.ok w
      ∧ w.task.frictionConstraintIsRegisteredInConstraint = false
      ∧ ({ owner := "contact", member := ConstraintMember.ContactForceConstraint,
           serial := 0 } : LinearConstraint) ∉ w.solver.equalityConstraints)
    ∧ (∃ w : Setup ℚ 3,
      ((sampleSetup TYPETASK.FORCETASK).connectToController 0 sampleDynamicEquation false
          >>= Setup.doActivateAsConstraint) = Except.ok w
      ∧ w.task.frictionConstraintIsRegisteredInConstraint = false
      ∧ ({ owner := "contact", member := ConstraintMember.ContactForceConstraint,
           serial := 0 } : LinearConstraint) ∉ w.solver.equalityConstraints)
    ∧ (∃ w : Setup ℚ 3,
      ({ owner := "contact", member := ConstraintMember.ContactForceConstraint,
         serial := 0 } : LinearConstraint) ∈ sampleIdle.solver.equalityConstraints
      ∧ sampleIdle.doActivateAsObjective = Except.ok w
      ∧ w.solver.equalityConstraints = []) :=
  ⟨⟨_, rfl, rfl, by decide⟩, ⟨_, rfl, rfl, by decide⟩, ⟨_, by decide, rfl, rfl⟩⟩

/-- C23 (amended): on a connected Force task of dimension `3` whose zero-force
flag mirrors the equality list, `doActivateAsObjective` returns with the contact
point flagged as saved in the model and with the zero-force constraint absent
from the equality list (it is removed when it was registered), and so does
`doActivateAsConstraint`. -/
theorem activation_removes_zero_force_constraint {K : Type} (w : Setup K 3) (sv : Nat)
    (f : LinearFunction K 3)
    (hs : w.task.solver = some sv) (hf : w.task.innerObjectiveFunction = some f)
    (hty : w.task.taskType = TYPETASK.FORCETASK)
    (hcf : w.solver.equalityConstraints.count
        { owner := w.task.name, member := ConstraintMember.ContactForceConstraint, serial := 0 }
      = if w.task.contactForceConstraintHasBeenSavedInSolver then 1 else 0) :
    (∃ w1 : Setup K 3, w.doActivateAsObjective = Except.ok w1
      ∧ w1.task.contactPointHasBeenSavedInModel = true
      ∧ w1.task.contactForceConstraintHasBeenSavedInSolver = false
      ∧ ({ owner := w.task.name, member := ConstraintMember.ContactForceConstraint,
           serial := 0 } : LinearConstraint) ∉ w1.solver.equalityConstraints)
    ∧ (∃ w1 : Setup K 3, w.doActivateAsConstraint = Except.ok w1
      ∧ w1.task.contactPointHasBeenSavedInModel = true
      ∧ w1.task.contactForceConstraintHasBeenSavedInSolver = false
      ∧ ({ owner := w.task.name, member := ConstraintMember.ContactForceConstraint,
           serial := 0 } : LinearConstraint) ∉ w1.solver.equalityConstraints) := by
  have hmem : w.task.contactForceConstraintHasBeenSavedInSolver = true →
      3 = 3 ∧ (⟨w.task.name, ConstraintMember.ContactForceConstraint, 0⟩ : LinearConstraint)
        ∈ w.solver.equalityConstraints := by
    intro h
    rw [h] at hcf
    refine ⟨rfl, List.count_pos_iff.mp ?_⟩
    rw [hcf]
    decide
  have hne : (⟨w.task.name, ConstraintMember.ContactForceConstraint, 0⟩ : LinearConstraint)
      ≠ ⟨w.task.name, ConstraintMember.innerTaskAsConstraint, w.task.serial⟩ := by
    intro h
    exact ConstraintMember.noConfusion (congrArg LinearConstraint.member h)
  constructor
  · refine ⟨_, doActivateAsObjective_eq w sv f hs hf hmem, ?_, ?_, ?_⟩
    · dsimp only
      simp [hty]
    · dsimp only
      simp [hty]
    · dsimp only
      simp only [hty, true_and]
      exact List.count_eq_zero.mp (count_after_removal _ _ _ hcf)
  · refine ⟨_, doActivateAsConstraint_eq w sv f hs hf hmem, ?_, ?_, ?_⟩
    · dsimp only
      simp [hty]
    · dsimp only
      simp [hty]
    · dsimp only
      simp only [hty, true_and]
      apply List.count_eq_zero.mp
      apply count_after_removal
      cases w.task.isRegisteredAsConstraint
      · simp only [Bool.false_eq_true, if_false]
        rw [List.count_append, hcf]
        simp [hne]
      · simpa using hcf

/-- C23 (amended), evaluated on the sample task with its zero-force constraint
registered. -/
theorem activation_removes_zero_force_constraint_witness :
    ({ owner := "contact", member := ConstraintMember.ContactForceConstraint,
       serial := 0 } : LinearConstraint) ∈ sampleIdle.solver.equalityConstraints
    ∧ ∃ w1 : Setup ℚ 3, sampleIdle.doActivateAsObjective = Except.ok w1
      ∧ w1.task.contactPointHasBeenSavedInModel = true
      ∧ w1.task.contactForceConstraintHasBeenSavedInSolver = false
      ∧ ({ owner := "contact", member := ConstraintMember.ContactForceConstraint,
           serial := 0 } : LinearConstraint) ∉ w1.solver.equalityConstraints :=
  ⟨by decide,
    (activation_removes_zero_force_constraint sampleIdle 0 { size := 3, A := 1, b := 0 }
      rfl rfl rfl (by decide)).1⟩

/-- The sample state `sampleInContact` is the one reached from the connected sample
task by `doActivateAsObjective` followed by `doActivateContactMode`. -/
theorem sampleInContact_reached :
    (sampleConnected.doActivateAsObjective >>= Setup.doActivateContactMode)
      = Except.ok sampleInContact := rfl

/-- C25, counterexample: the sample task of type Acceleration (dimension `3`)
is constructed and connected; `doActivateContactMode` is not rejected: it
returns with the friction cone in the inequality list and the friction flag set,
and the following `doDeactivateContactMode` returns as well, with the
zero-force constraint in the equality list. -/
theorem contact_mode_type_counterexample :
    ∃ w0 w1 w2 : Setup ℚ 3,
      (sampleSetup TYPETASK.ACCELERATIONTASK).connectToController 0 sampleDynamicEquation false
          = Except.ok w0
      ∧ w0.task.taskType = TYPETASK.ACCELERATIONTASK
      ∧ w0.solver.inequalityConstraints = []
      ∧ w0.doActivateContactMode = Except.ok w1
      ∧ w1.solver.inequalityConstraints
          = [{ owner := "contact", member := ConstraintMember.frictionConstraint, serial := 0 }]
      ∧ w1.task.frictionConstraintIsRegisteredInConstraint = true
      ∧ w1.doDeactivateContactMode = Except.ok w2
      ∧ w2.solver.equalityConstraints
          = [{ owner := "contact", member := ConstraintMember.ContactForceConstraint,
               serial := 0 }]
      ∧ w2.task.contactForceConstraintHasBeenSavedInSolver = true :=
  ⟨_, _, _, rfl, rfl, rfl, rfl, rfl, rfl, rfl, rfl, rfl⟩

/-- C25 (amended): `doActivateContactMode` and `doDeactivateContactMode` do not
look at the task type. On a connected task of dimension `3` of whatever type
whose zero-force flag mirrors the solver, `doActivateContactMode` returns,
appends the friction cone to the inequality list and sets the friction flag; the
following `doDeactivateContactMode` returns, erases the friction cone, appends
the zero-force constraint to the equality list and sets its flag. -/
theorem contact_mode_ignores_task_type {K : Type} (w : Setup K 3) (sv : Nat)
    (taskType : TYPETASK)
    (hs : w.task.solver = some sv)
    (hcf : w.task.contactForceConstraintHasBeenSavedInSolver = true →
      ({ owner := w.task.name, member := ConstraintMember.ContactForceConstraint,
         serial := 0 } : LinearConstraint) ∈ w.solver.equalityConstraints) :
    ∃ w1 w2 : Setup K 3,
      Setup.doActivateContactMode { w with task := { w.task with taskType := taskType } }
        = Except.ok w1
      ∧ w1.task.taskType = taskType
      ∧ w1.solver.inequalityConstraints
          = w.solver.inequalityConstraints
            ++ [{ owner := w.task.name, member := ConstraintMember.frictionConstraint,
                  serial := 0 }]
      ∧ w1.task.frictionConstraintIsRegisteredInConstraint = true
      ∧ w1.doDeactivateContactMode = Except.ok w2
      ∧ w2.task.taskType = taskType
      ∧ w2.solver.inequalityConstraints
          = List.erase
              (w.solver.inequalityConstraints
                ++ [({ owner := w.task.name, member := ConstraintMember.frictionConstraint,
                       serial := 0 } : LinearConstraint)])
              { owner := w.task.name, member := ConstraintMember.frictionConstraint,
                serial := 0 }
      ∧ ({ owner := w.task.name, member := ConstraintMember.ContactForceConstraint,
           serial := 0 } : LinearConstraint) ∈ w2.solver.equalityConstraints
      ∧ w2.task.frictionConstraintIsRegisteredInConstraint = false
      ∧ w2.task.contactForceConstraintHasBeenSavedInSolver = true := by
  refine ⟨_, _,
    doActivateContactMode_eq
      ({ w with task := { w.task with taskType := taskType } } : Setup K 3) sv hs hcf,
    rfl, rfl, rfl, doDeactivateContactMode_eq _ sv hs (by simp), rfl, rfl, ?_, rfl, rfl⟩
  dsimp only
  simp

/-- C25 (amended), evaluated on the connected sample task with its type set to
Torque. -/
theorem contact_mode_ignores_task_type_witness :
    ∃ w1 w2 : Setup ℚ 3,
      Setup.doActivateContactMode
          { sampleConnected with
            task := { sampleConnected.task with taskType := TYPETASK.TORQUETASK } }
        = Except.ok w1
      ∧ w1.task.taskType = TYPETASK.TORQUETASK
      ∧ w1.solver.inequalityConstraints
          = [{ owner := "contact", member := ConstraintMember.frictionConstraint, serial := 0 }]
      ∧ w1.task.frictionConstraintIsRegisteredInConstraint = true
      ∧ w1.doDeactivateContactMode = Except.ok w2 := by
  obtain ⟨w1, w2, h1, h2, h3, h4, h5, _⟩ :=
    contact_mode_ignores_task_type sampleConnected 0 TYPETASK.TORQUETASK rfl (by decide)
  exact ⟨w1, w2, h1, h2, h3, h4, h5⟩

/-- C30, evaluated: the sample Force task is constructed and connected, and
`doActivateContactMode` is called twice in succession. Both calls return, and
the inequality list then holds the friction cone of the task twice. A following
`disconnectFromController` erases one of the two entries and leaves the other
in the solver. -/
theorem activateContactMode_twice_duplicates_cone :
    ∃ w w1 : Setup ℚ 3,
      ((sampleSetup TYPETASK.FORCETASK).connectToController 0 sampleDynamicEquation false
          >>= Setup.doActivateContactMode >>= Setup.doActivateContactMode) = Except.ok w
      ∧ w.solver.inequalityConstraints
          = [{ owner := "contact", member := ConstraintMember.frictionConstraint, serial := 0 },
             { owner := "contact", member := ConstraintMember.frictionConstraint, serial := 0 }]
      ∧ w.solver.inequalityConstraints.count
          { owner := "contact", member := ConstraintMember.frictionConstraint, serial := 0 } = 2
      ∧ w.disconnectFromController = Except.ok w1
      ∧ w1.solver.inequalityConstraints
          = [{ owner := "contact", member := ConstraintMember.frictionConstraint,
               serial := 0 }] :=
  ⟨_, _, rfl, rfl, by decide, rfl, rfl⟩

/-! ## The lists of the solver -/

/-- C28, counterexample: the equality list holds the zero-force constraint `c`
followed by the task constraint; `addConstraint c` followed by
`removeConstraint c` returns with the two entries in the other order. -/
theorem addConstraint_removeConstraint_counterexample :
    OneLevelSolver.removeConstraint
        (OneLevelSolver.addConstraint sampleTwoEqualities
          { owner := "contact", member := ConstraintMember.ContactForceConstraint, serial := 0 })
        { owner := "contact", member := ConstraintMember.ContactForceConstraint, serial := 0 }
      = Except.ok
          { objectives := []
            equalityConstraints :=
              [{ owner := "contact", member := ConstraintMember.innerTaskAsConstraint,
                 serial := 1 },
               { owner := "contact", member := ConstraintMember.ContactForceConstraint,
                 serial := 0 }]
            inequalityConstraints := [] }
    ∧ sampleTwoEqualities.equalityConstraints
      ≠ [{ owner := "contact", member := ConstraintMember.innerTaskAsConstraint, serial := 1 },
         { owner := "contact", member := ConstraintMember.ContactForceConstraint,
           serial := 0 }] :=
  ⟨rfl, by decide⟩

/-- C28 (amended): `addConstraint` appends the constraint to the equality list
when `isEquality()` holds and to the inequality list otherwise, and leaves the
two other lists as they were. `removeConstraint` right after it returns; the
list chosen by `isEquality()` is restored exactly when it did not hold the
constraint before, and otherwise holds the same entries with the first
occurrence of the constraint moved to the end; the two other lists are as
before. -/
theorem addConstraint_removeConstraint (s : SolverLists) (c : LinearConstraint) :
    (OneLevelSolver.addConstraint s c).objectives = s.objectives
    ∧ (OneLevelSolver.addConstraint s c).equalityConstraints
        = (if c.isEquality then s.equalityConstraints ++ [c] else s.equalityConstraints)
    ∧ (OneLevelSolver.addConstraint s c).inequalityConstraints
        = (if c.isEquality then s.inequalityConstraints else s.inequalityConstraints ++ [c])
    ∧ ∃ s1 : SolverLists,
        OneLevelSolver.removeConstraint (OneLevelSolver.addConstraint s c) c = Except.ok s1
        ∧ s1.objectives = s.objectives
        ∧ s1.equalityConstraints
            = (if c.isEquality = true ∧ c ∈ s.equalityConstraints then
                s.equalityConstraints.erase c ++ [c]
              else s.equalityConstraints)
        ∧ s1.inequalityConstraints
            = (if c.isEquality = false ∧ c ∈ s.inequalityConstraints then
                s.inequalityConstraints.erase c ++ [c]
              else s.inequalityConstraints)
        ∧ s1.equalityConstraints.Perm s.equalityConstraints
        ∧ s1.inequalityConstraints.Perm s.inequalityConstraints := by
  obtain ⟨objs, eqs, ineqs⟩ := s
  cases hc : c.isEquality
  · refine ⟨by simp [OneLevelSolver.addConstraint, hc], by simp [OneLevelSolver.addConstraint, hc],
      by simp [OneLevelSolver.addConstraint, hc], ?_⟩
    refine ⟨⟨objs, eqs, (ineqs ++ [c]).erase c⟩, ?_, rfl, by simp, ?_, List.Perm.refl _,
      erase_append_singleton_perm _ _⟩
    · simp [OneLevelSolver.addConstraint, OneLevelSolver.removeConstraint, hc]
    · by_cases hmem : c ∈ ineqs
      · simp [hmem, List.erase_append_left _ hmem]
      · simp [hmem, erase_append_singleton _ _ hmem]
  · refine ⟨by simp [OneLevelSolver.addConstraint, hc], by simp [OneLevelSolver.addConstraint, hc],
      by simp [OneLevelSolver.addConstraint, hc], ?_⟩
    refine ⟨⟨objs, (eqs ++ [c]).erase c, ineqs⟩, ?_, rfl, ?_, by simp,
      erase_append_singleton_perm _ _, List.Perm.refl _⟩
    · simp [OneLevelSolver.addConstraint, OneLevelSolver.removeConstraint, hc]
    · by_cases hmem : c ∈ eqs
      · simp [hmem, List.erase_append_left _ hmem]
      · simp [hmem, erase_append_singleton _ _ hmem]

/-- C29: for an objective that is not in the objective list `removeObjective`
reports an error (and hands back no changed list); for an objective that is in
the list it returns, the first occurrence is the one erased, the entries before
and after it keep their order, the count of the objective drops by one, the
count of every other objective and the two constraint lists are as before. -/
theorem removeObjective_member_or_error (s : SolverLists) (obj : ObjectiveRef) :
    (obj ∉ s.objectives →
      OneLevelSolver.removeObjective s obj
        = Except.error "removeObjective: objective not registered")
    ∧ (∀ pre post : List ObjectiveRef, s.objectives = pre ++ obj :: post → obj ∉ pre →
        OneLevelSolver.removeObjective s obj = Except.ok { s with objectives := pre ++ post })
    ∧ (obj ∈ s.objectives →
        ∃ s1 : SolverLists, OneLevelSolver.removeObjective s obj = Except.ok s1
          ∧ s1.objectives.Sublist s.objectives
          ∧ s1.objectives.length + 1 = s.objectives.length
          ∧ s1.objectives.count obj + 1 = s.objectives.count obj
          ∧ (∀ o : ObjectiveRef, o ≠ obj → s1.objectives.count o = s.objectives.count o)
          ∧ s1.equalityConstraints = s.equalityConstraints
          ∧ s1.inequalityConstraints = s.inequalityConstraints) := by
  refine ⟨?_, ?_, ?_⟩
  · intro h
    simp only [OneLevelSolver.removeObjective, OneLevelSolver.internalRemoveObjective, h,
      if_false, Except.error_bind]
  · intro pre post hsplit hpre
    have hmem : obj ∈ s.objectives := by
      rw [hsplit]
      simp
    have herase : s.objectives.erase obj = pre ++ post := by
      rw [hsplit, List.erase_append_right _ hpre, List.erase_cons_head]
    simp only [OneLevelSolver.removeObjective, OneLevelSolver.internalRemoveObjective, hmem,
      if_true, Except.ok_bind, Except.pure_eq_ok, herase]
  · intro hmem
    refine ⟨{ s with objectives := s.objectives.erase obj }, ?_, List.erase_sublist _ _, ?_, ?_,
      ?_, rfl, rfl⟩
    · simp only [OneLevelSolver.removeObjective, OneLevelSolver.internalRemoveObjective, hmem,
        if_true, Except.ok_bind, Except.pure_eq_ok]
    · show (s.objectives.erase obj).length + 1 = _
      rw [List.length_erase_of_mem hmem]
      have : 0 < s.objectives.length := List.length_pos_of_mem hmem
      omega
    · show (s.objectives.erase obj).count obj + 1 = _
      rw [List.count_erase_self]
      have : 0 < s.objectives.count obj := List.count_pos_iff.mpr hmem
      omega
    · intro o ho
      exact List.count_erase_of_ne ho _

/-- C29, evaluated on the sample solver: the objective of the sample task is not
registered, the objective of the other task is. -/
theorem removeObjective_member_or_error_witness :
    OneLevelSolver.removeObjective sampleLists { owner := "contact", serial := 1 }
        = Except.error "removeObjective: objective not registered"
    ∧ OneLevelSolver.removeObjective sampleLists { owner := "posture", serial := 1 }
        = Except.ok { sampleLists with objectives := [] } :=
  ⟨(removeObjective_member_or_error sampleLists { owner := "contact", serial := 1 }).1
      (by decide),
    (removeObjective_member_or_error sampleLists { owner := "posture", serial := 1 }).2.1
      [] [] rfl (by decide)⟩

/-! ## Constraint matrices: helper lemmas -/

/-- The first loop of `updateConstraintEquations` sums the dimensions. -/
theorem countRows_eq_sum {K : Type} {n : Nat} (acc : ConstraintAccess K n)
    (cstrs : List LinearConstraint) :
    acc.countRows cstrs = (cstrs.map acc.getDimension).sum := by
  have h : ∀ (l : List LinearConstraint) (k : Nat),
      l.foldl (fun ne cstr => ne + acc.getDimension cstr) k
        = k + (l.map acc.getDimension).sum := by
    intro l
    induction l with
    | nil => intro k; simp
    | cons c l ih =>
      intro k
      simp only [List.foldl_cons, List.map_cons, List.sum_cons, ih]
      omega
  simpa [ConstraintAccess.countRows] using h cstrs 0

/-- One step of `fillRows` on a constraint of positive dimension. -/
theorem fillRows_cons_pos {K : Type} {n : Nat} (acc : ConstraintAccess K n) (case : ConvertCase)
    (c : LinearConstraint) (rest : List LinearConstraint) (idx : Nat)
    (M : Nat → Fin n → K) (v : Nat → K) (hd : 0 < acc.getDimension c) :
    acc.fillRows case (c :: rest) idx M v
      = acc.fillRows case rest (idx + acc.getDimension c)
          (fun r j =>
            if h : idx ≤ r ∧ r < idx + acc.getDimension c then
              (acc.convert c case (fun i j => M (idx + i.1) j) (fun i => v (idx + i.1))).1
                ⟨r - idx, by omega⟩ j
            else M r j)
          (fun r =>
            if h : idx ≤ r ∧ r < idx + acc.getDimension c then
              (acc.convert c case (fun i j => M (idx + i.1) j) (fun i => v (idx + i.1))).2
                ⟨r - idx, by omega⟩
            else v r) := by
  rw [ConstraintAccess.fillRows, if_pos hd]

/-- One step of `fillRows` on a constraint of dimension zero. -/
theorem fillRows_cons_zero {K : Type} {n : Nat} (acc : ConstraintAccess K n)
    (case : ConvertCase) (c : LinearConstraint) (rest : List LinearConstraint) (idx : Nat)
    (M : Nat → Fin n → K) (v : Nat → K) (hd : ¬ 0 < acc.getDimension c) :
    acc.fillRows case (c :: rest) idx M v = acc.fillRows case rest idx M v := by
  rw [ConstraintAccess.fillRows, if_neg hd]

/-- The rows outside the range from the start index to the start index plus
the sum of the dimensions are not written by `fillRows`. -/
theorem fillRows_outside {K : Type} {n : Nat} (acc : ConstraintAccess K n) (case : ConvertCase)
    (cstrs : List LinearConstraint) :
    ∀ (idx : Nat) (M : Nat → Fin n → K) (v : Nat → K) (r : Nat),
      r < idx ∨ idx + (cstrs.map acc.getDimension).sum ≤ r →
      (acc.fillRows case cstrs idx M v).1 r = M r
        ∧ (acc.fillRows case cstrs idx M v).2 r = v r := by
  induction cstrs with
  | nil => intro idx M v r _; exact ⟨rfl, rfl⟩
  | cons c rest ih =>
    intro idx M v r hr
    simp only [List.map_cons, List.sum_cons] at hr
    by_cases hd : 0 < acc.getDimension c
    · rw [fillRows_cons_pos acc case c rest idx M v hd]
      have hnot : ¬ (idx ≤ r ∧ r < idx + acc.getDimension c) := by omega
      refine ⟨(ih _ _ _ r (by omega)).1.trans ?_, (ih _ _ _ r (by omega)).2.trans ?_⟩
      · funext j
        simp only [dif_neg hnot]
      · simp only [dif_neg hnot]
    · rw [fillRows_cons_zero acc case c rest idx M v hd]
      exact ih idx M v r (by omega)

/-- The rows of a constraint after `fillRows`: the block starts at the start
index plus the sum of the dimensions of the constraints before it, and holds
what `utils::convert` made of the rows found there. -/
theorem fillRows_block {K : Type} {n : Nat} (acc : ConstraintAccess K n) (case : ConvertCase)
    (pre : List LinearConstraint) (c : LinearConstraint) (post : List LinearConstraint) :
    ∀ (idx : Nat) (M : Nat → Fin n → K) (v : Nat → K) (i : Fin (acc.getDimension c)),
      (acc.fillRows case (pre ++ c :: post) idx M v).1
          (idx + (pre.map acc.getDimension).sum + i.1)
        = (acc.convert c case
            (fun k j => M (idx + (pre.map acc.getDimension).sum + k.1) j)
            (fun k => v (idx + (pre.map acc.getDimension).sum + k.1))).1 i
      ∧ (acc.fillRows case (pre ++ c :: post) idx M v).2
          (idx + (pre.map acc.getDimension).sum + i.1)
        = (acc.convert c case
            (fun k j => M (idx + (pre.map acc.getDimension).sum + k.1) j)
            (fun k => v (idx + (pre.map acc.getDimension).sum + k.1))).2 i := by
  induction pre with
  | nil =>
    intro idx M v i
    have hd : 0 < acc.getDimension c := Nat.lt_of_le_of_lt (Nat.zero_le _) i.2
    simp only [List.nil_append, List.map_nil, List.sum_nil, Nat.add_zero]
    rw [fillRows_cons_pos acc case c post idx M v hd]
    have hin : idx ≤ idx + i.1 ∧ idx + i.1 < idx + acc.getDimension c := by omega
    have hfin : (⟨idx + i.1 - idx, by omega⟩ : Fin (acc.getDimension c)) = i := by
      apply Fin.ext
      simp
    refine ⟨(fillRows_outside acc case post _ _ _ (idx + i.1) (by omega)).1.trans ?_,
      (fillRows_outside acc case post _ _ _ (idx + i.1) (by omega)).2.trans ?_⟩
    · funext j
      simp only [dif_pos hin, hfin]
    · simp only [dif_pos hin, hfin]
  | cons p pre ih =>
    intro idx M v i
    simp only [List.cons_append, List.map_cons, List.sum_cons]
    by_cases hd : 0 < acc.getDimension p
    · rw [fillRows_cons_pos acc case p (pre ++ c :: post) idx M v hd]
      have hassoc : idx + (acc.getDimension p + (pre.map acc.getDimension).sum)
          = idx + acc.getDimension p + (pre.map acc.getDimension).sum := by omega
      rw [hassoc]
      have hnot : ∀ k : Nat, ¬ (idx ≤ idx + acc.getDimension p
            + (pre.map acc.getDimension).sum + k
          ∧ idx + acc.getDimension p + (pre.map acc.getDimension).sum + k
            < idx + acc.getDimension p) := by
        intro k
        omega
      refine ⟨(ih _ _ _ i).1.trans ?_, (ih _ _ _ i).2.trans ?_⟩
      · simp only [dif_neg (hnot _)]
      · simp only [dif_neg (hnot _)]
    · rw [fillRows_cons_zero acc case p (pre ++ c :: post) idx M v hd]
      have h0 : acc.getDimension p = 0 := by omega
      rw [h0, Nat.zero_add]
      exact ih idx M v i


/-! ## Constraint matrices: the inequality rows -/

/-- C26: `updateConstraintEquations` builds `G` with as many rows as the sum of
the dimensions of the registered inequality constraints and `n` columns, and `h`
with as many entries. A constraint `c` of the list occupies the rows that start
at the sum of the dimensions of the constraints registered before it: row `i` of
its block is row `i` of what `utils::convert` writes for `c` into a zero block
and a zero segment. A freshly constructed task of dimension `3` carries a
friction cone of coefficient `1`, `6` facets and margin `0`; when that cone is
the only inequality constraint, `G` and `h` have `6` rows. -/
theorem updateConstraintEquations_inequality_rows {K : Type} [LinearOrderedField K] {n : Nat}
    (acc : ConstraintAccess K n)
    (svd : (m : Nat) → Matrix (Fin m) (Fin n) K → JacobiSVD K m n) (tolerance : K)
    (s : SolverLists) (pre : List LinearConstraint) (c : LinearConstraint)
    (post : List LinearConstraint) (hsplit : s.inequalityConstraints = pre ++ c :: post)
    (name : String) (innerModel : Model) (taskType : TYPETASK) :
    (OneLevelSolverWithQuadProg.updateConstraintEquations acc svd tolerance s).G.rows
        = (s.inequalityConstraints.map acc.getDimension).sum
    ∧ (OneLevelSolverWithQuadProg.updateConstraintEquations acc svd tolerance s).G.cols = n
    ∧ (OneLevelSolverWithQuadProg.updateConstraintEquations acc svd tolerance s).h.size
        = (s.inequalityConstraints.map acc.getDimension).sum
    ∧ (∀ i : Fin (acc.getDimension c),
        ∃ (hG : (pre.map acc.getDimension).sum + i.1
              < (OneLevelSolverWithQuadProg.updateConstraintEquations acc svd tolerance s).G.rows)
          (hh : (pre.map acc.getDimension).sum + i.1
              < (OneLevelSolverWithQuadProg.updateConstraintEquations acc svd tolerance s).h.size),
          (∀ j : Fin n,
            (OneLevelSolverWithQuadProg.updateConstraintEquations acc svd tolerance s).G.coeff
                ⟨(pre.map acc.getDimension).sum + i.1, hG⟩ j
              = (acc.convert c ConvertCase.CSTR_PLUS_GREATER (fun _ _ => 0) (fun _ => 0)).1 i j)
          ∧ (OneLevelSolverWithQuadProg.updateConstraintEquations acc svd tolerance s).h.coeff
                ⟨(pre.map acc.getDimension).sum + i.1, hh⟩
              = (acc.convert c ConvertCase.CSTR_PLUS_GREATER (fun _ _ => 0) (fun _ => 0)).2 i)
    ∧ (OneLevelTask.create name innerModel taskType : OneLevelTask K 3).frictionFunction
        = some { frictionCoeff := 1, numberOfFaces := 6, margin := 0 }
    ∧ (OneLevelTask.create name innerModel taskType : OneLevelTask K 3).frictionConstraint
        = some { owner := name, member := ConstraintMember.frictionConstraint, serial := 0 }
    ∧ (∀ s1 : SolverLists,
        s1.inequalityConstraints
            = [{ owner := name, member := ConstraintMember.frictionConstraint, serial := 0 }] →
        acc.getDimension
            { owner := name, member := ConstraintMember.frictionConstraint, serial := 0 }
          = LinearizedCoulombFunction.getDimension
              ({ frictionCoeff := 1, numberOfFaces := 6, margin := 0 } :
                LinearizedCoulombFunction K) →
        (OneLevelSolverWithQuadProg.updateConstraintEquations acc svd tolerance s1).G.rows = 6
        ∧ (OneLevelSolverWithQuadProg.updateConstraintEquations acc svd tolerance s1).h.size
            = 6) := by
  have hrows : ∀ s0 : SolverLists,
      (OneLevelSolverWithQuadProg.updateConstraintEquations acc svd tolerance s0).G.rows
        = (s0.inequalityConstraints.map acc.getDimension).sum :=
    fun s0 => countRows_eq_sum acc s0.inequalityConstraints
  have hsize : ∀ s0 : SolverLists,
      (OneLevelSolverWithQuadProg.updateConstraintEquations acc svd tolerance s0).h.size
        = (s0.inequalityConstraints.map acc.getDimension).sum :=
    fun s0 => countRows_eq_sum acc s0.inequalityConstraints
  refine ⟨hrows s, rfl, hsize s, ?_, rfl, rfl, ?_⟩
  · intro i
    have hlt : (pre.map acc.getDimension).sum + i.1
        < (s.inequalityConstraints.map acc.getDimension).sum := by
      rw [hsplit]
      simp only [List.map_append, List.map_cons, List.sum_append, List.sum_cons]
      have := i.2
      omega
    have hblock := fillRows_block acc ConvertCase.CSTR_PLUS_GREATER pre c post 0
      (fun _ _ => 0) (fun _ => 0) i
    simp only [Nat.zero_add] at hblock
    refine ⟨by rw [hrows s]; exact hlt, by rw [hsize s]; exact hlt, ?_, ?_⟩
    · intro j
      show (acc.fillRows ConvertCase.CSTR_PLUS_GREATER s.inequalityConstraints 0
        (fun _ _ => 0) (fun _ => 0)).1 ((pre.map acc.getDimension).sum + i.1) j = _
      rw [hsplit, hblock.1]
    · show (acc.fillRows ConvertCase.CSTR_PLUS_GREATER s.inequalityConstraints 0
        (fun _ _ => 0) (fun _ => 0)).2 ((pre.map acc.getDimension).sum + i.1) = _
      rw [hsplit, hblock.2]
  · intro s1 hs1 hdim
    rw [hrows s1, hsize s1, hs1]
    simp only [List.map_cons, List.map_nil, List.sum_cons, List.sum_nil, hdim,
      LinearizedCoulombFunction.getDimension]
    exact ⟨rfl, rfl⟩

/-- C26, evaluated on the lists of the sample task in contact mode, with the
sample constraint objects: `G` and `h` have `6` rows, and row `3` of `G` holds
what the sample conversion writes. -/
theorem updateConstraintEquations_inequality_rows_witness :
    sampleInContact.solver.inequalityConstraints
        = [] ++ { owner := "contact", member := ConstraintMember.frictionConstraint,
                  serial := 0 } :: []
    ∧ (OneLevelSolverWithQuadProg.updateConstraintEquations sampleAccess
          (fun _ _ => { singularValues := 0, matrixU := 0, matrixV := 0 }) 0
          sampleInContact.solver).G.rows = 6
    ∧ (OneLevelSolverWithQuadProg.updateConstraintEquations sampleAccess
          (fun _ _ => { singularValues := 0, matrixU := 0, matrixV := 0 }) 0
          sampleInContact.solver).h.size = 6
    ∧ ∃ hG : 3 < (OneLevelSolverWithQuadProg.updateConstraintEquations sampleAccess
          (fun _ _ => { singularValues := 0, matrixU := 0, matrixV := 0 }) 0
          sampleInContact.solver).G.rows,
        ∀ j : Fin 3,
          (OneLevelSolverWithQuadProg.updateConstraintEquations sampleAccess
            (fun _ _ => { singularValues := 0, matrixU := 0, matrixV := 0 }) 0
            sampleInContact.solver).G.coeff ⟨3, hG⟩ j = 1 := by
  have h := updateConstraintEquations_inequality_rows sampleAccess
    (fun _ _ => { singularValues := 0, matrixU := 0, matrixV := 0 }) 0
    sampleInContact.solver [] _ [] rfl "contact" { nbDofs := 7, nbInternalDofs := 6 }
    TYPETASK.FORCETASK
  obtain ⟨hG, _, hrow, _⟩ := h.2.2.2.1 (3 : Fin 6)
  have h6 := h.2.2.2.2.2.2 sampleInContact.solver rfl rfl
  exact ⟨rfl, h6.1, h6.2, hG, fun j => (hrow j).trans (zero_add 1)⟩

/-! ## Parameters of the friction cone -/

/-- C27: on a task that carries a friction cone, `doSetFrictionCoeff` returns and
replaces the coefficient of that cone, `doSetMargin` returns and replaces its
margin; the other two parameters of the cone (hence its number of rows), the
three lists of the solver, the contact points of the model, the five flags and
the constraint object of the cone are as before. Nothing is asked about whether
the cone is registered. -/
theorem doSetFrictionCoeff_doSetMargin_frame {K : Type} (w : Setup K 3)
    (cone : LinearizedCoulombFunction K) (frictionCoeff margin : K)
    (hcone : w.task.frictionFunction = some cone) :
    (∃ w1 : Setup K 3, w.doSetFrictionCoeff frictionCoeff = Except.ok w1
      ∧ w1.task.frictionFunction
          = some { frictionCoeff := frictionCoeff, numberOfFaces := cone.numberOfFaces,
                   margin := cone.margin }
      ∧ (cone.setFrictionCoeff frictionCoeff).getDimension = cone.getDimension
      ∧ w1.solver = w.solver ∧ w1.modelContacts = w.modelContacts
      ∧ w1.task.frictionConstraint = w.task.frictionConstraint
      ∧ w1.task.isRegisteredAsObjective = w.task.isRegisteredAsObjective
      ∧ w1.task.isRegisteredAsConstraint = w.task.isRegisteredAsConstraint
      ∧ w1.task.frictionConstraintIsRegisteredInConstraint
          = w.task.frictionConstraintIsRegisteredInConstraint
      ∧ w1.task.contactForceConstraintHasBeenSavedInSolver
          = w.task.contactForceConstraintHasBeenSavedInSolver
      ∧ w1.task.contactPointHasBeenSavedInModel = w.task.contactPointHasBeenSavedInModel)
    ∧ (∃ w1 : Setup K 3, w.doSetMargin margin = Except.ok w1
      ∧ w1.task.frictionFunction
          = some { frictionCoeff := cone.frictionCoeff, numberOfFaces := cone.numberOfFaces,
                   margin := margin }
      ∧ (cone.setMargin margin).getDimension = cone.getDimension
      ∧ w1.solver = w.solver ∧ w1.modelContacts = w.modelContacts
      ∧ w1.task.frictionConstraint = w.task.frictionConstraint
      ∧ w1.task.isRegisteredAsObjective = w.task.isRegisteredAsObjective
      ∧ w1.task.isRegisteredAsConstraint = w.task.isRegisteredAsConstraint
      ∧ w1.task.frictionConstraintIsRegisteredInConstraint
          = w.task.frictionConstraintIsRegisteredInConstraint
      ∧ w1.task.contactForceConstraintHasBeenSavedInSolver
          = w.task.contactForceConstraintHasBeenSavedInSolver
      ∧ w1.task.contactPointHasBeenSavedInModel = w.task.contactPointHasBeenSavedInModel) := by
  constructor
  · refine ⟨({ w with task := { w.task with
        frictionFunction := some (cone.setFrictionCoeff frictionCoeff) } } : Setup K 3),
      ?_, rfl, rfl, rfl, rfl, rfl, rfl, rfl, rfl, rfl, rfl⟩
    simp only [Setup.doSetFrictionCoeff, hcone]
  · refine ⟨({ w with task := { w.task with
        frictionFunction := some (cone.setMargin margin) } } : Setup K 3),
      ?_, rfl, rfl, rfl, rfl, rfl, rfl, rfl, rfl, rfl, rfl⟩
    simp only [Setup.doSetMargin, hcone]

/-- C27, evaluated on the sample task in contact mode (cone registered): the
coefficient is set to `1/2`, then the margin to `1/10`. -/
theorem doSetFrictionCoeff_doSetMargin_frame_witness :
    sampleInContact.task.frictionFunction
        = some { frictionCoeff := 1, numberOfFaces := 6, margin := 0 }
    ∧ (∃ w1 : Setup ℚ 3, sampleInContact.doSetFrictionCoeff (1 / 2) = Except.ok w1
      ∧ w1.task.frictionFunction
          = some { frictionCoeff := 1 / 2, numberOfFaces := 6, margin := 0 }
      ∧ w1.solver = sampleInContact.solver)
    ∧ (∃ w1 : Setup ℚ 3, sampleInContact.doSetMargin (1 / 10) = Except.ok w1
      ∧ w1.task.frictionFunction
          = some { frictionCoeff := 1, numberOfFaces := 6, margin := 1 / 10 }
      ∧ w1.solver = sampleInContact.solver) := by
  have h := doSetFrictionCoeff_doSetMargin_frame sampleInContact
    { frictionCoeff := 1, numberOfFaces := 6, margin := 0 } (1 / 2) (1 / 10) rfl
  obtain ⟨⟨w1, h1, h2, _, h3, _⟩, ⟨w2, k1, k2, _, k3, _⟩⟩ := h
  exact ⟨rfl, ⟨w1, h1, h2, h3⟩, ⟨w2, k1, k2, k3⟩⟩

/-! ## Reduction of the equality constraints: solutions are kept -/

/-- C36: with an exact thin decomposition, whatever the tolerance (of any
sign) and whatever the number of rows, every solution of `A x = b` solves the
system `Ar x = br` written by `reduceConstraints`. -/
theorem reduceConstraints_keeps_solutions {m n : Nat}
    (svd : Matrix (Fin m) (Fin n) K → JacobiSVD K m n)
    (A : Matrix (Fin m) (Fin n) K) (b : Fin m → K) (tolerance : K)
    (hsvd : (svd A).IsThin A) (x : Fin n → K) (hx : A *ᵥ x = b) :
    (OneLevelSolver.reduceConstraints svd A b tolerance).Ar *ᵥ x
      = (OneLevelSolver.reduceConstraints svd A b tolerance).br := by
  by_cases hm : 0 < m
  · rw [reduceConstraints_system_iff svd A b tolerance hm]
    intro i _
    rw [full_system_of_solution hsvd.factor hsvd.orthoU b x hx]
  · have h0 : m = 0 := by omega
    subst h0
    rw [reduceConstraints_no_row]
    exact hx

/-- C36, evaluated on the sample system with right-hand side `(3, 0)`, the
solution `(5, 1)` and the negative tolerance `-1`, for which both singular
values are kept. -/
theorem reduceConstraints_keeps_solutions_witness :
    sampleSVD.IsThin sampleA ∧ sampleA *ᵥ ![5, 1] = ![3, 0]
      ∧ (OneLevelSolver.reduceConstraints (fun _ => sampleSVD) sampleA ![3, 0] (-1)).rows = 2
      ∧ (OneLevelSolver.reduceConstraints (fun _ => sampleSVD) sampleA ![3, 0] (-1)).Ar
            *ᵥ ![5, 1]
          = (OneLevelSolver.reduceConstraints (fun _ => sampleSVD) sampleA ![3, 0] (-1)).br := by
  have hx : sampleA *ᵥ ![5, 1] = ![3, 0] := by
    funext i
    fin_cases i <;>
      simp [sampleA, Matrix.mulVec, Matrix.dotProduct, Fin.sum_univ_two]
  exact ⟨sampleSVD_isThin, hx, by decide,
    reduceConstraints_keeps_solutions (fun _ => sampleSVD) sampleA ![3, 0] (-1)
      sampleSVD_isThin ![5, 1] hx⟩

/-! ## The contact point of the model -/

/-- C33, evaluated: the sample Force task is constructed and connected; the
model holds no contact point. `doActivateAsObjective` adds the contact point of
the task; the following `doDeactivateAsObjective` returns and the model still
holds it, with `contactPointHasBeenSavedInModel` still set. The same happens
with `doActivateAsConstraint`, `doDeactivateAsConstraint` and with
`doActivateContactMode`, `doDeactivateContactMode`. -/
theorem deactivation_keeps_contact_point :
    (∃ w0 w1 w2 : Setup ℚ 3,
      (sampleSetup TYPETASK.FORCETASK).connectToController 0 sampleDynamicEquation false
          = Except.ok w0
      ∧ w0.modelContacts = []
      ∧ w0.doActivateAsObjective = Except.ok w1 ∧ w1.modelContacts = ["contact"]
      ∧ w1.doDeactivateAsObjective = Except.ok w2 ∧ w2.modelContacts = ["contact"]
      ∧ w2.task.contactPointHasBeenSavedInModel = true)
    ∧ (∃ w1 w2 : Setup ℚ 3,
      sampleConnected.doActivateAsConstraint = Except.ok w1 ∧ w1.modelContacts = ["contact"]
      ∧ w1.doDeactivateAsConstraint = Except.ok w2 ∧ w2.modelContacts = ["contact"]
      ∧ w2.task.contactPointHasBeenSavedInModel = true)
    ∧ (∃ w1 w2 : Setup ℚ 3,
      sampleConnected.doActivateContactMode = Except.ok w1 ∧ w1.modelContacts = ["contact"]
      ∧ w1.doDeactivateContactMode = Except.ok w2 ∧ w2.modelContacts = ["contact"]
      ∧ w2.task.contactPointHasBeenSavedInModel = true) :=
  ⟨⟨_, _, _, rfl, rfl, rfl, rfl, rfl, rfl, rfl⟩, ⟨_, _, rfl, rfl, rfl, rfl, rfl⟩,
    ⟨_, _, rfl, rfl, rfl, rfl, rfl⟩⟩

/-- C40, evaluated: a Force task of dimension `6` is constructed and
connected; it has neither friction cone nor zero-force constraint.
`doActivateAsObjective` returns with the objective appended. The following
`doDeactivateAsObjective` erases the objective, then hands the missing
zero-force constraint to `addConstraint` and does not return. On the sample
task of dimension `3` the same two calls return. -/
theorem deactivation_missing_zero_force_constraint :
    (∃ (w0 w1 : Setup ℚ 6) (e : Fault (Setup ℚ 6)),
      sampleWrench.connectToController 0 sampleDynamicEquation false = Except.ok w0
      ∧ w0.task.frictionConstraint = none ∧ w0.task.ContactForceConstraint = none
      ∧ w0.doActivateAsObjective = Except.ok w1
      ∧ w1.solver.objectives = sampleLists.objectives ++ [{ owner := "wrench", serial := 1 }]
      ∧ w1.doDeactivateAsObjective = Except.error e
      ∧ e.message = "constraint is NULL"
      ∧ e.state.solver.objectives = sampleLists.objectives
      ∧ e.state.task.contactForceConstraintHasBeenSavedInSolver = false)
    ∧ (∃ w1 w2 : Setup ℚ 3,
      sampleConnected.doActivateAsObjective = Except.ok w1
      ∧ w1.doDeactivateAsObjective = Except.ok w2
      ∧ w2.solver.objectives = sampleLists.objectives) :=
  ⟨⟨_, _, _, rfl, rfl, rfl, rfl, rfl, rfl, rfl, rfl, rfl⟩, ⟨_, _, rfl, rfl, rfl⟩⟩

/-! ## Requests of a task connection -/

/-- C35, evaluated: against a server whose stiffness matrix is `[5]` and whose
damping matrix is `[2]`, `getDampingMatrix()(0,0)` is `2` but `getDamping()` is
`5`, the value of `getStiffness()`; against every server `getDamping()` is
`getStiffness()`, the answer to the stiffness request. -/
theorem getDamping_returns_stiffness :
    (TaskConnection.getDampingMatrix sampleServer).coeff00 = some 2
    ∧ TaskConnection.getDamping sampleServer = some 5
    ∧ TaskConnection.getStiffness sampleServer = some 5
    ∧ (TaskConnection.getStiffnessMatrix sampleServer).coeff00 = some 5
    ∧ (∀ write : List TASK_MESSAGE → Reply ℚ,
        TaskConnection.getDamping write = TaskConnection.getStiffness write)
    ∧ (∀ write : List TASK_MESSAGE → Reply ℚ,
        TaskConnection.getDamping write
          = (if (write [TASK_MESSAGE.GET_STIFFNESS]).head ≠ 0 then
              (write [TASK_MESSAGE.GET_STIFFNESS]).matrix
            else ⟨0, 0, 0⟩).coeff00) :=
  ⟨rfl, rfl, rfl, rfl, fun _ => rfl, fun _ => rfl⟩

/-! ## Solving -/

/-- C31: whatever the numeric routine hands back, `doSolve` of the QuadProg
variant and `doSolve` of the QLD variant set the status of the result to
`RETURN_SUCCESS` and its solution to the vector written by the routine; the
return value of the routine (the cost for QuadProg, the return code for QLD)
is not looked at. -/
theorem doSolve_reports_success {K : Type} [LinearOrderedField K] {n : Nat} {Info : Type}
    (RETURN_SUCCESS : Info)
    (solve_quadprog : MatrixXd K → VectorXd K → ReducedSystem K n → MatrixXd K → VectorXd K →
      VectorXd K → K × VectorXd K)
    (solve : MatrixXd K → VectorXd K → MatrixXd K → VectorXd K → Nat → VectorXd K →
      VectorXd K → VectorXd K → Bool → Int × VectorXd K)
    (s : SolverData K n Info) (q : QLDStorage K) :
    (OneLevelSolverWithQuadProg.doSolve RETURN_SUCCESS solve_quadprog s).result.info
        = RETURN_SUCCESS
    ∧ (OneLevelSolverWithQuadProg.doSolve RETURN_SUCCESS solve_quadprog s).result.solution
        = (solve_quadprog s.C s.d.neg s.equations.total s.equations.G s.equations.h
            s.Xsolution).2
    ∧ (OneLevelSolverWithQLD.doSolve RETURN_SUCCESS solve s q).result.info = RETURN_SUCCESS
    ∧ (OneLevelSolverWithQLD.doSolve RETURN_SUCCESS solve s q).result.solution
        = (solve s.C s.d.neg q.AandG q.bandh s.equations.total.rows s.Xsolution q.xl q.xu
            false).2
    ∧ (∀ (value : K) (x : VectorXd K),
        (OneLevelSolverWithQuadProg.doSolve RETURN_SUCCESS
            (fun _ _ _ _ _ _ => (value, x)) s).result
          = { solution := x, info := RETURN_SUCCESS })
    ∧ (∀ (res : Int) (x : VectorXd K),
        (OneLevelSolverWithQLD.doSolve RETURN_SUCCESS
            (fun _ _ _ _ _ _ _ _ _ => (res, x)) s q).result
          = { solution := x, info := RETURN_SUCCESS }) :=
  ⟨rfl, rfl, rfl, rfl, fun _ _ => rfl, fun _ _ => rfl⟩

/-- The assembled cost is the same for two lists of objectives that hold the
same entries in another order. -/
theorem updateObjectiveEquations_perm (s : OneLevelSolver K)
    (objs1 objs2 : List (QuadraticObjective K s.n)) (hperm : objs1.Perm objs2) :
    (OneLevelSolverWithQuadProg.updateObjectiveEquations { s with objectives := objs1 }).C
        = (OneLevelSolverWithQuadProg.updateObjectiveEquations
            { s with objectives := objs2 }).C
    ∧ (OneLevelSolverWithQuadProg.updateObjectiveEquations { s with objectives := objs1 }).d
        = (OneLevelSolverWithQuadProg.updateObjectiveEquations
            { s with objectives := objs2 }).d := by
  constructor
  · show MatrixXd.mk s.n s.n _ = MatrixXd.mk s.n s.n _
    congr 1
    funext a b
    rw [accumulateObjectives_fst, accumulateObjectives_fst]
    congr 1
    exact (hperm.map _).sum_eq
  · show VectorXd.mk s.n _ = VectorXd.mk s.n _
    congr 1
    funext a
    rw [accumulateObjectives_snd, accumulateObjectives_snd]
    congr 1
    exact (hperm.map _).sum_eq

/-! ## The assembled cost and the order of registration -/

/-- C38: for two lists of objectives that are permutations of each other,
`updateObjectiveEquations` (either variant) yields the same `C` and the same
`d`. For the objective list of a solver, `addObjective` followed by
`removeObjective` of the same objective returns, and the cost assembled from the
objects behind the entries of the list is the one assembled before the two
calls. -/
theorem updateObjectiveEquations_order_independent (s : OneLevelSolver K)
    (objs : List (QuadraticObjective K s.n)) (hperm : s.objectives.Perm objs)
    (lists : SolverLists) (obj : ObjectiveRef)
    (resolve : ObjectiveRef → QuadraticObjective K s.n) :
    (OneLevelSolverWithQuadProg.updateObjectiveEquations { s with objectives := objs }).C
        = (OneLevelSolverWithQuadProg.updateObjectiveEquations s).C
    ∧ (OneLevelSolverWithQuadProg.updateObjectiveEquations { s with objectives := objs }).d
        = (OneLevelSolverWithQuadProg.updateObjectiveEquations s).d
    ∧ (OneLevelSolverWithQLD.updateObjectiveEquations { s with objectives := objs }).C
        = (OneLevelSolverWithQLD.updateObjectiveEquations s).C
    ∧ (OneLevelSolverWithQLD.updateObjectiveEquations { s with objectives := objs }).d
        = (OneLevelSolverWithQLD.updateObjectiveEquations s).d
    ∧ ∃ lists1 : SolverLists,
        OneLevelSolver.removeObjective (OneLevelSolver.addObjective lists obj) obj
          = Except.ok lists1
        ∧ (OneLevelSolverWithQuadProg.updateObjectiveEquations
              { s with objectives := lists1.objectives.map resolve }).C
            = (OneLevelSolverWithQuadProg.updateObjectiveEquations
                { s with objectives := lists.objectives.map resolve }).C
        ∧ (OneLevelSolverWithQuadProg.updateObjectiveEquations
              { s with objectives := lists1.objectives.map resolve }).d
            = (OneLevelSolverWithQuadProg.updateObjectiveEquations
                { s with objectives := lists.objectives.map resolve }).d := by
  have h1 := updateObjectiveEquations_perm s objs s.objectives hperm.symm
  have hmem : obj ∈ lists.objectives ++ [obj] := by simp
  have h2 := updateObjectiveEquations_perm s
    (((lists.objectives ++ [obj]).erase obj).map resolve) (lists.objectives.map resolve)
    ((erase_append_singleton_perm lists.objectives obj).map resolve)
  refine ⟨h1.1, h1.2, h1.1, h1.2,
    { lists with objectives := (lists.objectives ++ [obj]).erase obj }, ?_, h2.1, h2.2⟩
  simp only [OneLevelSolver.removeObjective, OneLevelSolver.internalRemoveObjective,
    OneLevelSolver.addObjective, hmem, if_true, Except.ok_bind, Except.pure_eq_ok]

/-- C38, evaluated on the two sample objectives and their exchange. -/
theorem updateObjectiveEquations_order_independent_witness :
    (sampleObjectives.map SquaredLinearObjective.toQuadratic).Perm
        (sampleObjectives.reverse.map SquaredLinearObjective.toQuadratic)
    ∧ (OneLevelSolverWithQuadProg.updateObjectiveEquations
          ({ n := 3, objectives := sampleObjectives.reverse.map SquaredLinearObjective.toQuadratic
             C := ⟨0, 0, 0⟩, d := ⟨0, 0⟩ } : OneLevelSolver ℚ)).C
        = (OneLevelSolverWithQuadProg.updateObjectiveEquations
            ({ n := 3, objectives := sampleObjectives.map SquaredLinearObjective.toQuadratic
               C := ⟨0, 0, 0⟩, d := ⟨0, 0⟩ } : OneLevelSolver ℚ)).C
    ∧ (OneLevelSolverWithQuadProg.updateObjectiveEquations
          ({ n := 3, objectives := sampleObjectives.reverse.map SquaredLinearObjective.toQuadratic
             C := ⟨0, 0, 0⟩, d := ⟨0, 0⟩ } : OneLevelSolver ℚ)).d
        = (OneLevelSolverWithQuadProg.updateObjectiveEquations
            ({ n := 3, objectives := sampleObjectives.map SquaredLinearObjective.toQuadratic
               C := ⟨0, 0, 0⟩, d := ⟨0, 0⟩ } : OneLevelSolver ℚ)).d := by
  have hperm : (sampleObjectives.map SquaredLinearObjective.toQuadratic).Perm
      (sampleObjectives.reverse.map SquaredLinearObjective.toQuadratic) :=
    (List.reverse_perm sampleObjectives).symm.map _
  have h := updateObjectiveEquations_order_independent
    ({ n := 3, objectives := sampleObjectives.map SquaredLinearObjective.toQuadratic
       C := ⟨0, 0, 0⟩, d := ⟨0, 0⟩ } : OneLevelSolver ℚ)
    (sampleObjectives.reverse.map SquaredLinearObjective.toQuadratic) hperm
    sampleLists { owner := "contact", serial := 1 }
    (fun _ => SquaredLinearObjective.toQuadratic
      { dim := 1, f := { size := 1, A := !![1], b := ![0] }, weight := 1, varMap := ![0] })
  exact ⟨hperm, h.1, h.2.1⟩

/-! ## The sign of the reduced acceleration task -/

/-- C34, counterexample: for the Jacobian `[1]` and the inertia product `[1]`
handed over by the dynamic equation, the update of an Acceleration task that
uses the reduced problem writes the matrix `[-1]`, which is not the product
`[1] * [1] = [1]`. -/
theorem doUpdate_acceleration_reduced_sign_counterexample :
    OneLevelTask.doUpdate sampleReducedTask sampleReducedSignals
        = Except.ok
          { sampleReducedTask with
            innerObjectiveFunction := some { size := 1, A := !![-1], b := ![0] } }
    ∧ sampleReducedSignals.jacobian * sampleReducedSignals.inertiaMatrixInverseJchiT = !![1]
    ∧ (!![-1] : Matrix (Fin 1) (Fin 1) ℚ) ≠ !![1] := by
  refine ⟨?_, ?_, ?_⟩
  · show Except.ok _ = Except.ok _
    congr 3
    simp only [LinearFunction.changeb, LinearFunction.changeA]
    congr 1
    · ext i j
      fin_cases i
      fin_cases j
      simp [sampleReducedSignals, Matrix.mul_apply]
    · funext i
      fin_cases i
      simp [sampleReducedSignals, Matrix.mulVec, Matrix.dotProduct]
  · ext i j
    fin_cases i
    fin_cases j
    simp [sampleReducedSignals, Matrix.mul_apply]
  · intro h
    have := congrFun (congrFun h 0) 0
    norm_num at this

/-- C34 (amended): for an Acceleration task that uses the reduced problem,
`doUpdate` writes `A = -(J X)`, the negated product of the task Jacobian `J`
with the inertia product `X` handed over by the dynamic equation, and
`b = accDes + J Y` with `Y` the second inertia product; this `A` is the product
`J X` itself only when that product is zero. -/
theorem doUpdate_acceleration_reduced_negates {dim : Nat} (t : OneLevelTask K dim)
    (f : LinearFunction K dim) (sig : TaskSignals K dim) :
    OneLevelTask.doUpdate
        { t with taskType := TYPETASK.ACCELERATIONTASK, useReducedProblem := true,
                 innerObjectiveFunction := some f } sig
      = Except.ok
        { t with taskType := TYPETASK.ACCELERATIONTASK, useReducedProblem := true,
                 innerObjectiveFunction := some
                  { size := sig.nChi
                    A := -(sig.jacobian * sig.inertiaMatrixInverseJchiT)
                    b := -(sig.errorDdot + sig.stiffness *ᵥ sig.error
                            + sig.damping *ᵥ sig.errorDot)
                          + sig.jacobian *ᵥ sig.inertiaMatrixInverseLinNonLinGrav } }
    ∧ (-(sig.jacobian * sig.inertiaMatrixInverseJchiT)
          = sig.jacobian * sig.inertiaMatrixInverseJchiT
        ↔ sig.jacobian * sig.inertiaMatrixInverseJchiT = 0) := by
  constructor
  · show Except.ok _ = Except.ok _
    congr 3
    simp only [LinearFunction.changeb, LinearFunction.changeA]
    congr 1
    exact Matrix.neg_mul _ _
  · constructor
    · intro h
      ext i j
      have := congrFun (congrFun h i) j
      simp only [Matrix.neg_apply] at this
      show (sig.jacobian * sig.inertiaMatrixInverseJchiT) i j = 0
      linarith
    · intro h
      rw [h, neg_zero]

/-! ## The QLD variant: helper lemmas -/

/-- Negating a vector twice gives it back. -/
theorem VectorXd.neg_neg {K : Type} [LinearOrderedField K] (v : VectorXd K) :
    v.neg.neg = v := by
  obtain ⟨size, coeff⟩ := v
  simp [VectorXd.neg]

/-- After `topRows` and `bottomRows` have been assigned on a matrix of
`k1 + k2` rows, a row of the first block holds the top block. -/
theorem setTopRows_setBottomRows_top {K : Type} {k1 k2 n : Nat} (M : MatrixXd K)
    (A : Matrix (Fin k1) (Fin n) K) (G : Matrix (Fin k2) (Fin n) K)
    (hrows : M.rows = k1 + k2) (r : Fin k1) (c : Fin n)
    (hr : r.1 < M.rows) (hc : c.1 < M.cols) :
    ((M.setTopRows A).setBottomRows G).coeff ⟨r.1, hr⟩ ⟨c.1, hc⟩ = A r c := by
  have h1 : ¬ (M.rows - k2 ≤ r.1 ∧ r.1 - (M.rows - k2) < k2 ∧ c.1 < n) := by
    have := r.2
    omega
  have h2 : r.1 < k1 ∧ c.1 < n := ⟨r.2, c.2⟩
  simp only [MatrixXd.setBottomRows, MatrixXd.setTopRows, dif_neg h1, dif_pos h2]

/-- After `topRows` and `bottomRows` have been assigned on a matrix of
`k1 + k2` rows, a row of the second block holds the bottom block. -/
theorem setTopRows_setBottomRows_bottom {K : Type} {k1 k2 n : Nat} (M : MatrixXd K)
    (A : Matrix (Fin k1) (Fin n) K) (G : Matrix (Fin k2) (Fin n) K)
    (hrows : M.rows = k1 + k2) (r : Fin k2) (c : Fin n)
    (hr : k1 + r.1 < M.rows) (hc : c.1 < M.cols) :
    ((M.setTopRows A).setBottomRows G).coeff ⟨k1 + r.1, hr⟩ ⟨c.1, hc⟩ = G r c := by
  have h1 : M.rows - k2 ≤ k1 + r.1 ∧ k1 + r.1 - (M.rows - k2) < k2 ∧ c.1 < n := by
    have := r.2
    have := c.2
    omega
  have h3 : (⟨k1 + r.1 - (M.rows - k2), h1.2.1⟩ : Fin k2) = r := by
    apply Fin.ext
    show k1 + r.1 - (M.rows - k2) = r.1
    omega
  simp only [MatrixXd.setBottomRows, MatrixXd.setTopRows, dif_pos h1, h3]

/-- After `head` and `tail` have been assigned on a vector of `k1 + k2`
entries, an entry of the first block holds the head. -/
theorem setHead_setTail_head {K : Type} {k1 k2 : Nat} (v : VectorXd K)
    (a : Fin k1 → K) (g : Fin k2 → K) (hsize : v.size = k1 + k2) (r : Fin k1)
    (hr : r.1 < v.size) :
    ((v.setHead a).setTail g).coeff ⟨r.1, hr⟩ = a r := by
  have h1 : ¬ (v.size - k2 ≤ r.1 ∧ r.1 - (v.size - k2) < k2) := by
    have := r.2
    omega
  simp only [VectorXd.setTail, VectorXd.setHead, dif_neg h1, dif_pos r.2]

/-- After `head` and `tail` have been assigned on a vector of `k1 + k2`
entries, an entry of the second block holds the tail. -/
theorem setHead_setTail_tail {K : Type} {k1 k2 : Nat} (v : VectorXd K)
    (a : Fin k1 → K) (g : Fin k2 → K) (hsize : v.size = k1 + k2) (r : Fin k2)
    (hr : k1 + r.1 < v.size) :
    ((v.setHead a).setTail g).coeff ⟨k1 + r.1, hr⟩ = g r := by
  have h1 : v.size - k2 ≤ k1 + r.1 ∧ k1 + r.1 - (v.size - k2) < k2 := by
    have := r.2
    omega
  have h3 : (⟨k1 + r.1 - (v.size - k2), h1.2⟩ : Fin k2) = r := by
    apply Fin.ext
    show k1 + r.1 - (v.size - k2) = r.1
    omega
  simp only [VectorXd.setTail, VectorXd.setHead, dif_pos h1, h3]

/-- Outcome of `updateConstraintEquations` of the QLD variant when the stored
`bandh` has as many entries as the stored `AandG` has rows: the matrices of the
QuadProg variant, and a storage of the right sizes. -/
theorem QLD_updateConstraintEquations_eq {K : Type} [LinearOrderedField K] {n : Nat}
    (acc : ConstraintAccess K n)
    (svd : (m : Nat) → Matrix (Fin m) (Fin n) K → JacobiSVD K m n) (tolerance : K)
    (s : SolverLists) (q : QLDStorage K) (hsize : q.bandh.size = q.AandG.rows) :
    ∃ (M : MatrixXd K) (v : VectorXd K),
      M.rows = (OneLevelSolverWithQuadProg.updateConstraintEquations acc svd tolerance
                  s).total.rows
          + (OneLevelSolverWithQuadProg.updateConstraintEquations acc svd tolerance s).G.rows
      ∧ M.cols = n
      ∧ v.size = M.rows
      ∧ OneLevelSolverWithQLD.updateConstraintEquations acc svd tolerance s q
        = Except.ok
          (OneLevelSolverWithQuadProg.updateConstraintEquations acc svd tolerance s,
           { AandG :=
               (M.setTopRows
                 (OneLevelSolverWithQuadProg.updateConstraintEquations acc svd tolerance
                   s).total.Ar).setBottomRows
                 (fun r j => (acc.fillRows ConvertCase.CSTR_PLUS_GREATER
                   s.inequalityConstraints 0 (fun _ _ => 0) (fun _ => 0)).1 r.1 j :
                   Matrix (Fin (acc.countRows s.inequalityConstraints)) (Fin n) K)
             bandh :=
               (v.setHead
                 (OneLevelSolverWithQuadProg.updateConstraintEquations acc svd tolerance
                   s).total.br).setTail
                 (fun r => (acc.fillRows ConvertCase.CSTR_PLUS_GREATER
                   s.inequalityConstraints 0 (fun _ _ => 0) (fun _ => 0)).2 r.1 :
                   Fin (acc.countRows s.inequalityConstraints) → K)
             xl := if q.xl.size ≠ n then ⟨n, fun _ => -(10 : K) ^ 10 * 1⟩ else q.xl
             xu := if q.xl.size ≠ n then ⟨n, fun _ => (10 : K) ^ 10 * 1⟩ else q.xu }) := by
  by_cases hres : q.AandG.rows ≠
      (OneLevelSolverWithQuadProg.updateConstraintEquations acc svd tolerance s).total.rows
        + acc.countRows s.inequalityConstraints ∨ q.AandG.cols ≠ n
  · refine ⟨⟨_, n, 0⟩, ⟨_, 0⟩, rfl, rfl, rfl, ?_⟩
    have hdec : decide (q.AandG.rows ≠
        (OneLevelSolver.reduceConstraints (svd (acc.countRows s.equalityConstraints))
          (fun r j => (acc.fillRows ConvertCase.CSTR_PLUS_EQUAL s.equalityConstraints 0
            (fun _ _ => 0) (fun _ => 0)).1 r.1 j)
          (fun r => (acc.fillRows ConvertCase.CSTR_PLUS_EQUAL s.equalityConstraints 0
            (fun _ _ => 0) (fun _ => 0)).2 r.1) tolerance).rows
          + acc.countRows s.inequalityConstraints ∨ q.AandG.cols ≠ n) = true :=
      decide_eq_true hres
    simp only [OneLevelSolverWithQLD.updateConstraintEquations, hdec, if_true]
    rw [if_pos ⟨Nat.le_add_right _ _, Nat.le_add_left _ _⟩]
    rfl
  · refine ⟨q.AandG, q.bandh, ?_, ?_, hsize, ?_⟩
    · by_contra h
      exact hres (Or.inl h)
    · by_contra h
      exact hres (Or.inr h)
    · have hdec : decide (q.AandG.rows ≠
          (OneLevelSolver.reduceConstraints (svd (acc.countRows s.equalityConstraints))
            (fun r j => (acc.fillRows ConvertCase.CSTR_PLUS_EQUAL s.equalityConstraints 0
              (fun _ _ => 0) (fun _ => 0)).1 r.1 j)
            (fun r => (acc.fillRows ConvertCase.CSTR_PLUS_EQUAL s.equalityConstraints 0
              (fun _ _ => 0) (fun _ => 0)).2 r.1) tolerance).rows
            + acc.countRows s.inequalityConstraints ∨ q.AandG.cols ≠ n) = false :=
        decide_eq_false hres
      have hrows : q.AandG.rows =
          (OneLevelSolver.reduceConstraints (svd (acc.countRows s.equalityConstraints))
            (fun r j => (acc.fillRows ConvertCase.CSTR_PLUS_EQUAL s.equalityConstraints 0
              (fun _ _ => 0) (fun _ => 0)).1 r.1 j)
            (fun r => (acc.fillRows ConvertCase.CSTR_PLUS_EQUAL s.equalityConstraints 0
              (fun _ _ => 0) (fun _ => 0)).2 r.1) tolerance).rows
            + acc.countRows s.inequalityConstraints := by
        by_contra h
        exact hres (Or.inl h)
      simp only [OneLevelSolverWithQLD.updateConstraintEquations, hdec, Bool.false_eq_true,
        if_false]
      rw [if_pos (by rw [hsize, hrows]; exact ⟨Nat.le_add_right _ _, Nat.le_add_left _ _⟩)]
      rfl


/-! ## The QLD variant: concatenated constraints and bounds -/

/-- C32: when the stored `bandh` has as many entries as the stored `AandG` has
rows (as after construction and after every earlier call),
`updateConstraintEquations` of the QLD variant returns; `AandG` then has
`rows(Ar) + rows(G)` rows and `n` columns, its first `rows(Ar)` rows are `Ar`
and the following ones are `G`; `bandh` is `br` followed by `h`; the bounds are
`-1e10` and `1e10` in each of the `n` components when `_xl` had not `n` entries,
and are kept otherwise; `doSolve` hands the numeric routine `rows(Ar)` as the
number of equalities, next to this matrix, this vector and these bounds. -/
theorem QLD_updateConstraintEquations_concatenates {K : Type} [LinearOrderedField K]
    {n : Nat} {Info : Type} (acc : ConstraintAccess K n)
    (svd : (m : Nat) → Matrix (Fin m) (Fin n) K → JacobiSVD K m n) (tolerance : K)
    (s : SolverLists) (q : QLDStorage K) (hsize : q.bandh.size = q.AandG.rows)
    (RETURN_SUCCESS : Info)
    (solve : MatrixXd K → VectorXd K → MatrixXd K → VectorXd K → Nat → VectorXd K →
      VectorXd K → VectorXd K → Bool → Int × VectorXd K)
    (sd : SolverData K n Info) :
    ∃ (eqs : ConstraintEquations K n) (q1 : QLDStorage K),
      OneLevelSolverWithQLD.updateConstraintEquations acc svd tolerance s q
        = Except.ok (eqs, q1)
      ∧ q1.AandG.rows = eqs.total.rows + eqs.G.rows
      ∧ q1.AandG.cols = n
      ∧ q1.bandh.size = eqs.total.rows + eqs.h.size
      ∧ (∀ (r : Fin eqs.total.rows) (c : Fin n),
          ∃ (hr : r.1 < q1.AandG.rows) (hc : c.1 < q1.AandG.cols),
            q1.AandG.coeff ⟨r.1, hr⟩ ⟨c.1, hc⟩ = eqs.total.Ar r c)
      ∧ (∀ (r : Fin eqs.G.rows) (c : Fin eqs.G.cols),
          ∃ (hr : eqs.total.rows + r.1 < q1.AandG.rows) (hc : c.1 < q1.AandG.cols),
            q1.AandG.coeff ⟨eqs.total.rows + r.1, hr⟩ ⟨c.1, hc⟩ = eqs.G.coeff r c)
      ∧ (∀ r : Fin eqs.total.rows,
          ∃ hr : r.1 < q1.bandh.size, q1.bandh.coeff ⟨r.1, hr⟩ = eqs.total.br r)
      ∧ (∀ r : Fin eqs.h.size,
          ∃ hr : eqs.total.rows + r.1 < q1.bandh.size,
            q1.bandh.coeff ⟨eqs.total.rows + r.1, hr⟩ = eqs.h.coeff r)
      ∧ (q.xl.size ≠ n →
          q1.xl = ⟨n, fun _ => -(10 : K) ^ 10⟩ ∧ q1.xu = ⟨n, fun _ => (10 : K) ^ 10⟩)
      ∧ (q.xl.size = n → q1.xl = q.xl ∧ q1.xu = q.xu)
      ∧ (OneLevelSolverWithQLD.doSolve RETURN_SUCCESS solve { sd with equations := eqs }
            q1).result.solution
          = (solve sd.C sd.d.neg q1.AandG q1.bandh eqs.total.rows sd.Xsolution q1.xl q1.xu
              false).2 := by
  obtain ⟨M, v, hM, hcols, hv, heq⟩ :=
    QLD_updateConstraintEquations_eq acc svd tolerance s q hsize
  refine ⟨_, _, heq, hM, hcols, hv.trans hM, ?_, ?_, ?_, ?_, ?_, ?_, rfl⟩
  · intro r c
    have hr : r.1 < M.rows := by
      have := r.2
      omega
    have hc : c.1 < M.cols := by
      have := c.2
      omega
    exact ⟨hr, hc, setTopRows_setBottomRows_top M _ _ hM r c hr hc⟩
  · intro r c
    have hr : (OneLevelSolverWithQuadProg.updateConstraintEquations acc svd tolerance
        s).total.rows + r.1 < M.rows := by
      have := r.2
      omega
    have hc : c.1 < M.cols := by
      have hc2 : c.1 < n := c.2
      omega
    exact ⟨hr, hc, setTopRows_setBottomRows_bottom M _ _ hM r c hr hc⟩
  · intro r
    have hr : r.1 < v.size := by
      have := r.2
      omega
    exact ⟨hr, setHead_setTail_head v _ _ (hv.trans hM) r hr⟩
  · intro r
    have hr : (OneLevelSolverWithQuadProg.updateConstraintEquations acc svd tolerance
        s).total.rows + r.1 < v.size := by
      have hr2 : r.1 < (OneLevelSolverWithQuadProg.updateConstraintEquations acc svd
        tolerance s).G.rows := r.2
      omega
    exact ⟨hr, setHead_setTail_tail v _ _ (hv.trans hM) r hr⟩
  · intro hxl
    simp only [hxl, ne_eq, not_false_eq_true, if_true, mul_one, and_self]
  · intro hxl
    simp only [hxl, ne_eq, not_true_eq_false, if_false, and_self]

/-- C32, evaluated on the lists of the sample task in contact mode (no equality
constraint, the friction cone as only inequality constraint) and a storage that
has not been written yet. -/
theorem QLD_updateConstraintEquations_concatenates_witness :
    sampleStorage.bandh.size = sampleStorage.AandG.rows
    ∧ ∃ (eqs : ConstraintEquations ℚ 3) (q1 : QLDStorage ℚ),
      OneLevelSolverWithQLD.updateConstraintEquations sampleAccess
          (fun _ _ => { singularValues := 0, matrixU := 0, matrixV := 0 }) 0
          sampleInContact.solver sampleStorage
        = Except.ok (eqs, q1)
      ∧ q1.AandG.rows = eqs.total.rows + eqs.G.rows
      ∧ q1.AandG.cols = 3
      ∧ q1.bandh.size = eqs.total.rows + eqs.h.size
      ∧ q1.xl = ⟨3, fun _ => -(10 : ℚ) ^ 10⟩ ∧ q1.xu = ⟨3, fun _ => (10 : ℚ) ^ 10⟩ := by
  obtain ⟨eqs, q1, h1, h2, h3, h4, _, _, _, _, h5, _⟩ :=
    QLD_updateConstraintEquations_concatenates sampleAccess
      (fun _ _ => { singularValues := 0, matrixU := 0, matrixV := 0 }) 0
      sampleInContact.solver sampleStorage rfl ()
      (fun _ _ _ _ _ x _ _ _ => ((0 : Int), x))
      { C := ⟨0, 0, 0⟩, d := ⟨0, 0⟩
        equations :=
          OneLevelSolverWithQuadProg.updateConstraintEquations sampleAccess
            (fun _ _ => { singularValues := 0, matrixU := 0, matrixV := 0 }) 0
            sampleInContact.solver
        Xsolution := ⟨0, 0⟩
        result := { solution := ⟨0, 0⟩, info := () } }
  exact ⟨rfl, eqs, q1, h1, h2, h3, h4, h5 (by decide)⟩

/-! ## The two variants side by side -/

/-- C39: for the same objectives and constraints the QLD variant assembles the
`C`, `d` and the constraint matrices `Ar`, `br`, `G`, `h` (and `A`, `b`) of the
QuadProg variant. `doSolve` of either variant hands `-d` to its numeric routine;
the QuadProg variant keeps the stored `d`, the QLD variant stores `-d`, so that
a second `doSolve` of the QLD variant hands the routine `d` itself and stores
`d` again. -/
theorem quadprog_and_qld_assemble_alike {K : Type} [LinearOrderedField K] {n : Nat}
    {Info : Type} (s : OneLevelSolver K) (acc : ConstraintAccess K n)
    (svd : (m : Nat) → Matrix (Fin m) (Fin n) K → JacobiSVD K m n) (tolerance : K)
    (lists : SolverLists) (q : QLDStorage K) (hsize : q.bandh.size = q.AandG.rows)
    (RETURN_SUCCESS : Info)
    (solve_quadprog : MatrixXd K → VectorXd K → ReducedSystem K n → MatrixXd K → VectorXd K →
      VectorXd K → K × VectorXd K)
    (solve : MatrixXd K → VectorXd K → MatrixXd K → VectorXd K → Nat → VectorXd K →
      VectorXd K → VectorXd K → Bool → Int × VectorXd K)
    (sd : SolverData K n Info) :
    OneLevelSolverWithQLD.updateObjectiveEquations s
        = OneLevelSolverWithQuadProg.updateObjectiveEquations s
    ∧ (∃ q1 : QLDStorage K,
        OneLevelSolverWithQLD.updateConstraintEquations acc svd tolerance lists q
          = Except.ok
            (OneLevelSolverWithQuadProg.updateConstraintEquations acc svd tolerance lists, q1))
    ∧ (OneLevelSolverWithQuadProg.doSolve RETURN_SUCCESS solve_quadprog sd).result.solution
        = (solve_quadprog sd.C sd.d.neg sd.equations.total sd.equations.G sd.equations.h
            sd.Xsolution).2
    ∧ (OneLevelSolverWithQuadProg.doSolve RETURN_SUCCESS solve_quadprog sd).d = sd.d
    ∧ (OneLevelSolverWithQLD.doSolve RETURN_SUCCESS solve sd q).result.solution
        = (solve sd.C sd.d.neg q.AandG q.bandh sd.equations.total.rows sd.Xsolution q.xl q.xu
            false).2
    ∧ (OneLevelSolverWithQLD.doSolve RETURN_SUCCESS solve sd q).d = sd.d.neg
    ∧ (OneLevelSolverWithQLD.doSolve RETURN_SUCCESS solve
          (OneLevelSolverWithQLD.doSolve RETURN_SUCCESS solve sd q) q).result.solution
        = (solve sd.C sd.d q.AandG q.bandh sd.equations.total.rows
            (OneLevelSolverWithQLD.doSolve RETURN_SUCCESS solve sd q).Xsolution q.xl q.xu
            false).2
    ∧ (OneLevelSolverWithQLD.doSolve RETURN_SUCCESS solve
          (OneLevelSolverWithQLD.doSolve RETURN_SUCCESS solve sd q) q).d = sd.d := by
  obtain ⟨M, v, _, _, _, heq⟩ := QLD_updateConstraintEquations_eq acc svd tolerance lists q hsize
  refine ⟨rfl, ⟨_, heq⟩, rfl, rfl, rfl, rfl, ?_, ?_⟩
  · show (solve sd.C sd.d.neg.neg _ _ _ _ _ _ _).2 = _
    rw [VectorXd.neg_neg]
    rfl
  · show sd.d.neg.neg = sd.d
    exact VectorXd.neg_neg _

/-- C39, evaluated with `d = (1, 2)` and a numeric routine that hands back the
linear term it was given: the first `doSolve` of the QLD variant stores `-d`,
and the second one yields `(1, 2)`, that is `d` itself. -/
theorem quadprog_and_qld_assemble_alike_witness :
    sampleStorage.bandh.size = sampleStorage.AandG.rows
    ∧ (OneLevelSolverWithQLD.doSolve () (fun _ q _ _ _ _ _ _ _ => ((1 : Int), q))
          ({ C := ⟨0, 0, 0⟩, d := ⟨2, ![1, 2]⟩
             equations :=
               OneLevelSolverWithQuadProg.updateConstraintEquations sampleAccess
                 (fun _ _ => { singularValues := 0, matrixU := 0, matrixV := 0 }) 0
                 sampleInContact.solver
             Xsolution := ⟨0, 0⟩
             result := { solution := ⟨0, 0⟩, info := () } } : SolverData ℚ 3 Unit)
          sampleStorage).d
        = VectorXd.neg ⟨2, ![1, 2]⟩
    ∧ (OneLevelSolverWithQLD.doSolve () (fun _ q _ _ _ _ _ _ _ => ((1 : Int), q))
          (OneLevelSolverWithQLD.doSolve () (fun _ q _ _ _ _ _ _ _ => ((1 : Int), q))
            ({ C := ⟨0, 0, 0⟩, d := ⟨2, ![1, 2]⟩
               equations :=
                 OneLevelSolverWithQuadProg.updateConstraintEquations sampleAccess
                   (fun _ _ => { singularValues := 0, matrixU := 0, matrixV := 0 }) 0
                   sampleInContact.solver
               Xsolution := ⟨0, 0⟩
               result := { solution := ⟨0, 0⟩, info := () } } : SolverData ℚ 3 Unit)
            sampleStorage) sampleStorage).result.solution
        = ⟨2, ![1, 2]⟩ := by
  have h := quadprog_and_qld_assemble_alike
    ({ n := 3, objectives := [], C := ⟨0, 0, 0⟩, d := ⟨0, 0⟩ } : OneLevelSolver ℚ)
    sampleAccess (fun _ _ => { singularValues := 0, matrixU := 0, matrixV := 0 }) 0
    sampleInContact.solver sampleStorage rfl ()
    (fun _ g0 _ _ _ _ => ((0 : ℚ), g0))
    (fun _ q _ _ _ _ _ _ _ => ((1 : Int), q))
    ({ C := ⟨0, 0, 0⟩, d := ⟨2, ![1, 2]⟩
       equations :=
         OneLevelSolverWithQuadProg.updateConstraintEquations sampleAccess
           (fun _ _ => { singularValues := 0, matrixU := 0, matrixV := 0 }) 0
           sampleInContact.solver
       Xsolution := ⟨0, 0⟩
       result := { solution := ⟨0, 0⟩, info := () } } : SolverData ℚ 3 Unit)
  exact ⟨rfl, h.2.2.2.2.2.1, h.2.2.2.2.2.2.1⟩

/-! ## Sequences of calls: helper lemmas -/

/-- `doDeactivateContactMode` does not return when the friction cone is not in
the inequality list. -/
theorem doDeactivateContactMode_error {K : Type} (w : Setup K 3)
    (hfr : ({ owner := w.task.name, member := ConstraintMember.frictionConstraint,
              serial := 0 } : LinearConstraint) ∉ w.solver.inequalityConstraints) :
    ∃ e, w.doDeactivateContactMode = Except.error e := by
  obtain ⟨⟨name, ty, model, solver, dq, red, cf, cp, fr, ro, rc, serial, fn, cone⟩, s, contacts⟩ :=
    w
  obtain ⟨objs, eqs, ineqs⟩ := s
  simp only at hfr
  cases solver
  · exact ⟨_, rfl⟩
  · cases cf <;>
      simp only [Setup.doDeactivateContactMode, Setup.checkIfConnectedToController,
        Setup.solverAddConstraint, Setup.derefSolver, Setup.removeContactPointInModel,
        Setup.solverRemoveConstraint, OneLevelTask.frictionConstraint,
        OneLevelTask.ContactForceConstraint, OneLevelSolver.addConstraint,
        OneLevelSolver.removeConstraint, LinearConstraint.isEquality,
        Except.ok_bind, Except.error_bind, Except.pure_eq_ok, if_true, if_false,
        Bool.false_eq_true, reduceIte, hfr, reduceCtorEq] <;>
      exact ⟨_, rfl⟩

/-- One call that returns keeps the connection, the function, the name and the
serial of the task, and keeps the flags in step with the lists. -/
theorem call_preserves_flagsMirrorLists {K : Type} (w w1 : Setup K 3) (sv : Nat)
    (f : LinearFunction K 3) (c : TaskCall)
    (hs : w.task.solver = some sv) (hf : w.task.innerObjectiveFunction = some f)
    (hinv : w.flagsMirrorLists) (hcall : w.call c = Except.ok w1) :
    w1.task.solver = some sv ∧ w1.task.innerObjectiveFunction = some f
      ∧ w1.flagsMirrorLists := by
  have hcf : w.task.contactForceConstraintHasBeenSavedInSolver = true →
      (⟨w.task.name, ConstraintMember.ContactForceConstraint, 0⟩ : LinearConstraint)
        ∈ w.solver.equalityConstraints := by
    intro h
    have h3 := hinv.2.2
    rw [h] at h3
    apply List.count_pos_iff.mp
    rw [h3]
    decide
  have hro : w.task.isRegisteredAsObjective = true →
      (⟨w.task.name, w.task.serial⟩ : ObjectiveRef) ∈ w.solver.objectives := by
    intro h
    have h1 := hinv.1
    rw [h] at h1
    apply List.count_pos_iff.mp
    rw [h1]
    decide
  have hrc : w.task.isRegisteredAsConstraint = true →
      (⟨w.task.name, ConstraintMember.innerTaskAsConstraint, w.task.serial⟩ : LinearConstraint)
        ∈ w.solver.equalityConstraints := by
    intro h
    have h2 := hinv.2.1
    rw [h] at h2
    apply List.count_pos_iff.mp
    rw [h2]
    decide
  have hne : (⟨w.task.name, ConstraintMember.ContactForceConstraint, 0⟩ : LinearConstraint)
      ≠ ⟨w.task.name, ConstraintMember.innerTaskAsConstraint, w.task.serial⟩ := by
    intro h
    exact ConstraintMember.noConfusion (congrArg LinearConstraint.member h)
  obtain ⟨h1, h2, h3⟩ := hinv
  cases c
  case activateAsObjective =>
    have h := doActivateAsObjective_eq w sv f hs hf (fun h => ⟨rfl, hcf h⟩)
    have hw := Except.ok.inj (h.symm.trans hcall)
    subst hw
    refine ⟨hs, hf, ?_, ?_, ?_⟩
    · dsimp only
      cases hro' : w.task.isRegisteredAsObjective
      · rw [hro'] at h1
        simp only [Bool.false_eq_true, if_false, if_true] at h1 ⊢
        rw [List.count_append, h1]
        simp
      · rw [hro'] at h1
        simpa using h1
    · dsimp only
      rw [← h2]
      by_cases hcond : w.task.taskType = TYPETASK.FORCETASK
          ∧ w.task.contactForceConstraintHasBeenSavedInSolver = true
      · rw [if_pos hcond, List.count_erase_of_ne hne.symm]
      · rw [if_neg hcond]
    · dsimp only
      by_cases hty : w.task.taskType = TYPETASK.FORCETASK
      · simp only [hty, true_and, if_true, Bool.false_eq_true, if_false]
        exact count_after_removal _ _ _ h3
      · simp only [hty, false_and, if_false]
        exact h3
  case deactivateAsObjective =>
    have h := doDeactivateAsObjective_eq w sv f hs hf hro
    have hw := Except.ok.inj (h.symm.trans hcall)
    subst hw
    refine ⟨hs, hf, ?_, ?_, ?_⟩
    · dsimp only
      cases hro' : w.task.isRegisteredAsObjective
      · rw [hro'] at h1
        simpa using h1
      · rw [hro'] at h1
        simp only [if_true, Bool.false_eq_true, if_false] at h1 ⊢
        rw [List.count_erase_self, h1]
    · dsimp only
      rw [← h2]
      by_cases hcond : w.task.taskType = TYPETASK.FORCETASK
          ∧ w.task.contactForceConstraintHasBeenSavedInSolver = false
      · rw [if_pos hcond, List.count_append]
        simp [hne]
      · rw [if_neg hcond]
    · dsimp only
      by_cases hty : w.task.taskType = TYPETASK.FORCETASK
      · simp only [hty, true_and, if_true]
        cases hcf' : w.task.contactForceConstraintHasBeenSavedInSolver
        · rw [hcf'] at h3
          simp only [Bool.false_eq_true, if_false, if_true] at h3 ⊢
          rw [List.count_append, h3]
          simp
        · rw [hcf'] at h3
          simpa using h3
      · simp only [hty, false_and, if_false]
        exact h3
  case activateAsConstraint =>
    have h := doActivateAsConstraint_eq w sv f hs hf (fun h => ⟨rfl, hcf h⟩)
    have hw := Except.ok.inj (h.symm.trans hcall)
    subst hw
    have hE2 : List.count
        (⟨w.task.name, ConstraintMember.innerTaskAsConstraint, w.task.serial⟩ :
          LinearConstraint)
        (if w.task.isRegisteredAsConstraint = true then w.solver.equalityConstraints
          else w.solver.equalityConstraints
            ++ [⟨w.task.name, ConstraintMember.innerTaskAsConstraint, w.task.serial⟩]) = 1 := by
      cases hrc' : w.task.isRegisteredAsConstraint
      · rw [hrc'] at h2
        simp only [Bool.false_eq_true, if_false] at h2 ⊢
        rw [List.count_append, h2]
        simp
      · rw [hrc'] at h2
        simpa using h2
    have hE3 : List.count
        (⟨w.task.name, ConstraintMember.ContactForceConstraint, 0⟩ : LinearConstraint)
        (if w.task.isRegisteredAsConstraint = true then w.solver.equalityConstraints
          else w.solver.equalityConstraints
            ++ [⟨w.task.name, ConstraintMember.innerTaskAsConstraint, w.task.serial⟩])
        = if w.task.contactForceConstraintHasBeenSavedInSolver then 1 else 0 := by
      rw [← h3]
      cases w.task.isRegisteredAsConstraint
      · simp only [Bool.false_eq_true, if_false]
        rw [List.count_append]
        simp [hne]
      · simp
    refine ⟨hs, hf, h1, ?_, ?_⟩
    · dsimp only
      by_cases hcond : w.task.taskType = TYPETASK.FORCETASK
          ∧ w.task.contactForceConstraintHasBeenSavedInSolver = true
      · rw [if_pos hcond, List.count_erase_of_ne hne.symm]
        simpa using hE2
      · rw [if_neg hcond]
        simpa using hE2
    · dsimp only
      by_cases hty : w.task.taskType = TYPETASK.FORCETASK
      · simp only [hty, true_and, if_true, Bool.false_eq_true, if_false]
        exact count_after_removal _ _ _ hE3
      · simp only [hty, false_and, if_false]
        exact hE3
  case deactivateAsConstraint =>
    have h := doDeactivateAsConstraint_eq w sv f hs hf hrc
    have hw := Except.ok.inj (h.symm.trans hcall)
    subst hw
    have hE2 : List.count
        (⟨w.task.name, ConstraintMember.innerTaskAsConstraint, w.task.serial⟩ :
          LinearConstraint)
        (if w.task.isRegisteredAsConstraint = true then
          w.solver.equalityConstraints.erase
            ⟨w.task.name, ConstraintMember.innerTaskAsConstraint, w.task.serial⟩
          else w.solver.equalityConstraints) = 0 :=
      count_after_removal _ _ _ h2
    have hE3 : List.count
        (⟨w.task.name, ConstraintMember.ContactForceConstraint, 0⟩ : LinearConstraint)
        (if w.task.isRegisteredAsConstraint = true then
          w.solver.equalityConstraints.erase
            ⟨w.task.name, ConstraintMember.innerTaskAsConstraint, w.task.serial⟩
          else w.solver.equalityConstraints)
        = if w.task.contactForceConstraintHasBeenSavedInSolver then 1 else 0 := by
      rw [← h3]
      cases w.task.isRegisteredAsConstraint
      · simp
      · simp only [if_true]
        exact List.count_erase_of_ne hne _
    refine ⟨hs, hf, h1, ?_, ?_⟩
    · dsimp only
      by_cases hcond : w.task.taskType = TYPETASK.FORCETASK
          ∧ w.task.contactForceConstraintHasBeenSavedInSolver = false
      · rw [if_pos hcond, List.count_append, hE2]
        simp [hne]
      · rw [if_neg hcond]
        simpa using hE2
    · dsimp only
      by_cases hty : w.task.taskType = TYPETASK.FORCETASK
      · simp only [hty, true_and, if_true]
        cases hcf' : w.task.contactForceConstraintHasBeenSavedInSolver
        · rw [hcf'] at hE3
          simp only [Bool.false_eq_true, if_false, if_true] at hE3 ⊢
          rw [List.count_append, hE3]
          simp
        · rw [hcf'] at hE3
          simpa using hE3
      · simp only [hty, false_and, if_false]
        exact hE3
  case activateContactMode =>
    have h := doActivateContactMode_eq w sv hs hcf
    have hw := Except.ok.inj (h.symm.trans hcall)
    subst hw
    refine ⟨hs, hf, h1, ?_, ?_⟩
    · dsimp only
      rw [← h2]
      cases w.task.contactForceConstraintHasBeenSavedInSolver
      · simp
      · simp only [if_true]
        exact List.count_erase_of_ne hne.symm _
    · dsimp only
      simp only [Bool.false_eq_true, if_false]
      exact count_after_removal _ _ _ h3
  case deactivateContactMode =>
    by_cases hfr : (⟨w.task.name, ConstraintMember.frictionConstraint, 0⟩ : LinearConstraint)
        ∈ w.solver.inequalityConstraints
    · have h := doDeactivateContactMode_eq w sv hs hfr
      have hw := Except.ok.inj (h.symm.trans hcall)
      subst hw
      refine ⟨hs, hf, h1, ?_, ?_⟩
      · dsimp only
        rw [← h2]
        cases w.task.contactForceConstraintHasBeenSavedInSolver
        · simp only [Bool.false_eq_true, if_false]
          rw [List.count_append]
          simp [hne]
        · simp
      · dsimp only
        simp only [if_true]
        cases hcf' : w.task.contactForceConstraintHasBeenSavedInSolver
        · rw [hcf'] at h3
          simp only [Bool.false_eq_true, if_false] at h3 ⊢
          rw [List.count_append, h3]
          simp
        · rw [hcf'] at h3
          simpa using h3
    · obtain ⟨e, he⟩ := doDeactivateContactMode_error w hfr
      have hcall' : w.doDeactivateContactMode = Except.ok w1 := hcall
      rw [he] at hcall'
      exact Except.noConfusion hcall'


/-- A sequence of calls that returns has returned after each of its prefixes. -/
theorem calls_append {K : Type} {dim : Nat} (pre post : List TaskCall) :
    ∀ (w w2 : Setup K dim), w.calls (pre ++ post) = Except.ok w2 →
      ∃ w1 : Setup K dim, w.calls pre = Except.ok w1 ∧ w1.calls post = Except.ok w2 := by
  induction pre with
  | nil => intro w w2 h; exact ⟨w, rfl, h⟩
  | cons c pre ih =>
    intro w w2 h
    rw [List.cons_append, Setup.calls] at h
    rw [Setup.calls]
    cases hc : w.call c with
    | error e =>
      rw [hc] at h
      exact Except.noConfusion h
    | ok w0 =>
      rw [hc] at h
      exact ih w0 w2 h

/-- A sequence of calls that returns keeps the connection, the function and
the flags in step with the lists. -/
theorem calls_preserve_flagsMirrorLists {K : Type} (sv : Nat) (f : LinearFunction K 3)
    (cs : List TaskCall) :
    ∀ (w w1 : Setup K 3), w.task.solver = some sv → w.task.innerObjectiveFunction = some f →
      w.flagsMirrorLists → w.calls cs = Except.ok w1 →
      w1.task.solver = some sv ∧ w1.task.innerObjectiveFunction = some f
        ∧ w1.flagsMirrorLists := by
  induction cs with
  | nil =>
    intro w w1 hs hf hinv h
    have hw := Except.ok.inj h
    subst hw
    exact ⟨hs, hf, hinv⟩
  | cons c cs ih =>
    intro w w1 hs hf hinv h
    rw [Setup.calls] at h
    cases hc : w.call c with
    | error e =>
      rw [hc] at h
      exact Except.noConfusion h
    | ok w0 =>
      rw [hc] at h
      obtain ⟨hs0, hf0, hinv0⟩ := call_preserves_flagsMirrorLists w w0 sv f c hs hf hinv hc
      exact ih w0 w1 hs0 hf0 hinv0 h

/-- A flag that mirrors a list is set exactly when the entry is in the list. -/
theorem mem_iff_of_count_eq_ite {α : Type} [DecidableEq α] (l : List α) (a : α) (flag : Bool)
    (h : l.count a = if flag then 1 else 0) : flag = true ↔ a ∈ l := by
  cases flag
  · simp only [Bool.false_eq_true, if_false] at h
    simpa using List.count_eq_zero.mp h
  · simp only [if_true] at h
    simp only [true_iff]
    apply List.count_pos_iff.mp
    rw [h]
    decide

/-! ## The flags and the lists along a sequence of calls -/

/-- C37: on a connected task of dimension `3` whose three flags mirror the
lists, let a sequence of `doActivateAsObjective`, `doDeactivateAsObjective`,
`doActivateAsConstraint`, `doDeactivateAsConstraint`, `doActivateContactMode`
and `doDeactivateContactMode` calls return. Then after each of its prefixes the
objective of the task is in the objective list once when
`isRegisteredAsObjective` is set and not at all otherwise, and likewise for the
task constraint with `isRegisteredAsConstraint` and for the zero-force
constraint with `contactForceConstraintHasBeenSavedInSolver`, both in the
equality list. -/
theorem calls_keep_flags_in_step {K : Type} (w w2 : Setup K 3) (sv : Nat)
    (f : LinearFunction K 3) (pre post : List TaskCall)
    (hs : w.task.solver = some sv) (hf : w.task.innerObjectiveFunction = some f)
    (hinv : w.flagsMirrorLists) (hrun : w.calls (pre ++ post) = Except.ok w2) :
    ∃ w1 : Setup K 3, w.calls pre = Except.ok w1 ∧ w1.calls post = Except.ok w2
      ∧ w1.flagsMirrorLists
      ∧ (w1.task.isRegisteredAsObjective = true ↔
          ({ owner := w1.task.name, serial := w1.task.serial } : ObjectiveRef)
            ∈ w1.solver.objectives)
      ∧ (w1.task.isRegisteredAsConstraint = true ↔
          ({ owner := w1.task.name, member := ConstraintMember.innerTaskAsConstraint,
             serial := w1.task.serial } : LinearConstraint) ∈ w1.solver.equalityConstraints)
      ∧ (w1.task.contactForceConstraintHasBeenSavedInSolver = true ↔
          ({ owner := w1.task.name, member := ConstraintMember.ContactForceConstraint,
             serial := 0 } : LinearConstraint) ∈ w1.solver.equalityConstraints)
      ∧ w2.flagsMirrorLists := by
  obtain ⟨w1, h1, h2⟩ := calls_append pre post w w2 hrun
  obtain ⟨hs1, hf1, hinv1⟩ := calls_preserve_flagsMirrorLists sv f pre w w1 hs hf hinv h1
  obtain ⟨_, _, hinv2⟩ := calls_preserve_flagsMirrorLists sv f post w1 w2 hs1 hf1 hinv1 h2
  exact ⟨w1, h1, h2, hinv1, mem_iff_of_count_eq_ite _ _ _ hinv1.1,
    mem_iff_of_count_eq_ite _ _ _ hinv1.2.1, mem_iff_of_count_eq_ite _ _ _ hinv1.2.2, hinv2⟩

/-- The freshly connected sample Force task has its flags in step with the
lists. -/
theorem sampleConnected_flagsMirrorLists : sampleConnected.flagsMirrorLists := by
  refine ⟨?_, ?_, ?_⟩ <;> decide

/-- C37, evaluated on the connected sample Force task and the sequence
activate as objective, enter contact mode, deactivate as objective, activate as
constraint, leave contact mode, deactivate as constraint, split after its third
call: the sequence returns, and after the third call the objective flag is
clear, the zero-force flag is set and the zero-force constraint is in the
equality list. -/
theorem calls_keep_flags_in_step_witness :
    sampleConnected.flagsMirrorLists
    ∧ ∃ w1 w2 : Setup ℚ 3,
      sampleConnected.calls
          [TaskCall.activateAsObjective, TaskCall.activateContactMode,
           TaskCall.deactivateAsObjective] = Except.ok w1
      ∧ w1.calls
          [TaskCall.activateAsConstraint, TaskCall.deactivateContactMode,
           TaskCall.deactivateAsConstraint] = Except.ok w2
      ∧ w1.flagsMirrorLists ∧ w2.flagsMirrorLists
      ∧ w1.task.isRegisteredAsObjective = false
      ∧ w1.task.contactForceConstraintHasBeenSavedInSolver = true := by
  obtain ⟨w1, h1, h2, h3, _, _, _, h7⟩ :=
    calls_keep_flags_in_step sampleConnected
      { sampleConnected with
        task := { sampleConnected.task with
          contactPointHasBeenSavedInModel := true
          contactForceConstraintHasBeenSavedInSolver := true }
        solver := { sampleLists with
          equalityConstraints :=
            [{ owner := "contact", member := ConstraintMember.ContactForceConstraint,
               serial := 0 }] }
        modelContacts := ["contact"] }
      0 { size := 3, A := 1, b := 0 }
      [TaskCall.activateAsObjective, TaskCall.activateContactMode,
       TaskCall.deactivateAsObjective]
      [TaskCall.activateAsConstraint, TaskCall.deactivateContactMode,
       TaskCall.deactivateAsConstraint]
      rfl rfl sampleConnected_flagsMirrorLists rfl
  have hw1 : w1 = { sampleConnected with
      task := { sampleConnected.task with
        contactPointHasBeenSavedInModel := true
        contactForceConstraintHasBeenSavedInSolver := true
        frictionConstraintIsRegisteredInConstraint := true }
      solver := { sampleLists with
        equalityConstraints :=
          [{ owner := "contact", member := ConstraintMember.ContactForceConstraint,
             serial := 0 }]
        inequalityConstraints :=
          [{ owner := "contact", member := ConstraintMember.frictionConstraint,
             serial := 0 }] }
      modelContacts := ["contact"] } :=
    (Except.ok.inj (h1.symm.trans rfl))
  subst hw1
  exact ⟨sampleConnected_flagsMirrorLists, _, _, h1, h2, h3, h7, rfl, rfl⟩

/-! ## Activation and contact mode after a reconnection -/

/-- C15, evaluated: the sample Acceleration task is constructed, connected,
activated as objective, disconnected and connected again; it is then a
connected task whose objective is not in the objective list, but
`isRegisteredAsObjective` is still set from the first activation. Two calls of
`doActivateAsObjective` in succession both return and leave no entry of the
task in the objective list instead of one. Likewise with
`doActivateAsConstraint` and the equality list. -/
theorem activate_twice_after_reconnect_registers_nothing :
    (∃ w w1 w2 : Setup ℚ 3,
      ((sampleSetup TYPETASK.ACCELERATIONTASK).connectToController 0 sampleDynamicEquation false
          >>= Setup.doActivateAsObjective >>= Setup.disconnectFromController
          >>= (fun w => w.connectToController 0 sampleDynamicEquation false)) = Except.ok w
      ∧ w.task.solver = some 0
      ∧ w.task.innerTaskAsObjective = some { owner := "contact", serial := 2 }
      ∧ w.task.isRegisteredAsObjective = true
      ∧ w.solver.objectives = [{ owner := "posture", serial := 1 }]
      ∧ w.doActivateAsObjective = Except.ok w1
      ∧ w1.doActivateAsObjective = Except.ok w2
      ∧ w2.solver.objectives = [{ owner := "posture", serial := 1 }]
      ∧ w2.solver.objectives.count { owner := "contact", serial := 2 } = 0
      ∧ w2.solver.objectives.count { owner := "contact", serial := 1 } = 0)
    ∧ (∃ w w1 w2 : Setup ℚ 3,
      ((sampleSetup TYPETASK.ACCELERATIONTASK).connectToController 0 sampleDynamicEquation false
          >>= Setup.doActivateAsConstraint >>= Setup.disconnectFromController
          >>= (fun w => w.connectToController 0 sampleDynamicEquation false)) = Except.ok w
      ∧ w.task.solver = some 0
      ∧ w.task.innerTaskAsConstraint
          = some { owner := "contact", member := ConstraintMember.innerTaskAsConstraint,
                   serial := 2 }
      ∧ w.task.isRegisteredAsConstraint = true
      ∧ w.solver.equalityConstraints = []
      ∧ w.doActivateAsConstraint = Except.ok w1
      ∧ w1.doActivateAsConstraint = Except.ok w2
      ∧ w2.solver.equalityConstraints = []) :=
  ⟨⟨_, _, _, rfl, rfl, rfl, rfl, rfl, rfl, rfl, rfl, by decide, by decide⟩,
    ⟨_, _, _, rfl, rfl, rfl, rfl, rfl, rfl, rfl, rfl⟩⟩

/-- C22, evaluated: the sample Force task is constructed, connected, activated
as objective, deactivated as objective (which registers the zero-force
constraint), disconnected (which removes it) and connected again. It is then a
connected task that is not in contact mode, whose zero-force constraint is not
in the equality list while `contactForceConstraintHasBeenSavedInSolver` is
still set. `doActivateContactMode` asks the solver to remove the zero-force
constraint it does not hold and does not return; the friction cone is not
registered. -/
theorem activateContactMode_after_reconnect_fails :
    ∃ (w : Setup ℚ 3) (e : Fault (Setup ℚ 3)),
      ((sampleSetup TYPETASK.FORCETASK).connectToController 0 sampleDynamicEquation false
          >>= Setup.doActivateAsObjective >>= Setup.doDeactivateAsObjective
          >>= Setup.disconnectFromController
          >>= (fun w => w.connectToController 0 sampleDynamicEquation false)) = Except.ok w
      ∧ w.task.solver = some 0
      ∧ w.task.taskType = TYPETASK.FORCETASK
      ∧ w.task.frictionConstraintIsRegisteredInConstraint = false
      ∧ w.solver.inequalityConstraints = []
      ∧ w.solver.equalityConstraints = []
      ∧ w.task.contactForceConstraintHasBeenSavedInSolver = true
      ∧ w.doActivateContactMode = Except.error e
      ∧ e.message = "removeConstraint: constraint not registered"
      ∧ e.state.solver.inequalityConstraints = [] :=
  ⟨_, _, rfl, rfl, rfl, rfl, rfl, rfl, rfl, rfl, rfl, rfl⟩

end ocra
